import Mathlib

/-!
The client of saas-workflow-tool, `static/js/app.js`.

A shallow embedding of the parts of `static/js/app.js` that decide the step-detail
completion percentages and form data, the autosave timer, the routing of game-plan
steps, the project and idea action buttons, the dashboard counts, `fetchWithAuth` and
the handlers of the promote, kill, revive, delete, generate, create and save requests.
The backend is not among the sources; where a claim is about it, it is modelled after
the specification.

JavaScript values are the sum type `JSValue`; a React component's render is a function
of its props and state to what it shows; a handler that runs a promise chain is a
function of the answers it can receive (the confirm dialog, the settled `fetch`) to the
effects it leaves behind, listed in order.
-/

namespace SaasWorkflow

/-! ## JavaScript values and strings -/

/-- The JavaScript values a form field or a response property can hold. Numbers are
the integers: the forms' own controls store only `parseInt` results, and the code only
compares numbers with `null` and with the empty string. A number with a fraction, which
a loaded `price_shown` can be, has no value of its own here. -/
inductive JSValue where
  | undefined : JSValue
  | null : JSValue
  | bool (b : Bool) : JSValue
  | num (n : Int) : JSValue
  | str (s : String) : JSValue
  deriving DecidableEq, Repr

/-- The code points ECMAScript's `String.prototype.trim` strips: WhiteSpace and
LineTerminator. -/
def jsIsWhiteSpace (c : Char) : Bool :=
  c.val == 0x09 || c.val == 0x0A || c.val == 0x0B || c.val == 0x0C || c.val == 0x0D ||
  c.val == 0x20 || c.val == 0xA0 || c.val == 0x1680 ||
  (0x2000 ≤ c.val && c.val ≤ 0x200A) ||
  c.val == 0x2028 || c.val == 0x2029 || c.val == 0x202F || c.val == 0x205F ||
  c.val == 0x3000 || c.val == 0xFEFF

/-- The call `s.trim()` on the characters of `s`: white space is dropped from both ends. -/
def jsTrimChars (cs : List Char) : List Char :=
  ((cs.dropWhile jsIsWhiteSpace).reverse.dropWhile jsIsWhiteSpace).reverse

/-- The call `s.trim()`. -/
def jsTrim (s : String) : String :=
  String.mk (jsTrimChars s.data)

/-- The call `Math.round(x)`: the integer nearest to `x`, a tie going up. The quotients the
code rounds are `k / 8 * 100` and `k / 9 * 100` for a count `k`, taken here over the
rationals. -/
def mathRound (x : ℚ) : ℤ :=
  ⌊x + 1 / 2⌋

/-! ## LandingPageDetailView -/

/-- The `formData` state of `LandingPageDetailView`. -/
structure LandingFormData where
  final_headline_chosen : JSValue
  headline_variations : JSValue
  subheadline : JSValue
  wedge_statement : JSValue
  cta_button_text : JSValue
  cta_button_text_custom : JSValue
  price_shown : JSValue
  landing_page_url : JSValue
  visual_proof_url : JSValue
  launched_status : JSValue
  launch_note : JSValue
  deriving DecidableEq, Repr

namespace LandingPageDetailView

/-- The initial `useState` value of `formData`. -/
def initialFormData : LandingFormData where
  final_headline_chosen := .str ""
  headline_variations := .str ""
  subheadline := .str ""
  wedge_statement := .str ""
  cta_button_text := .str ""
  cta_button_text_custom := .str ""
  price_shown := .str ""
  landing_page_url := .str ""
  visual_proof_url := .str ""
  launched_status := .str "Not started"
  launch_note := .str ""

/-- The property read `formData[field]`; a key the object lacks reads `undefined`. -/
def getField (formData : LandingFormData) (field : String) : JSValue :=
  if field = "final_headline_chosen" then formData.final_headline_chosen
  else if field = "headline_variations" then formData.headline_variations
  else if field = "subheadline" then formData.subheadline
  else if field = "wedge_statement" then formData.wedge_statement
  else if field = "cta_button_text" then formData.cta_button_text
  else if field = "cta_button_text_custom" then formData.cta_button_text_custom
  else if field = "price_shown" then formData.price_shown
  else if field = "landing_page_url" then formData.landing_page_url
  else if field = "visual_proof_url" then formData.visual_proof_url
  else if field = "launched_status" then formData.launched_status
  else if field = "launch_note" then formData.launch_note
  else .undefined

/-- The array `requiredFields`. -/
def requiredFields : List String :=
  ["final_headline_chosen", "headline_variations", "subheadline", "wedge_statement",
   "cta_button_text", "landing_page_url", "visual_proof_url", "launched_status"]

/-- The callback of `requiredFields.filter`: `false` for `null`, for `undefined` and
for a string whose `trim()` is `''`, `true` for everything else. -/
def isFilled (value : JSValue) : Bool :=
  match value with
  | .null => false
  | .undefined => false
  | .str s => if jsTrim s = "" then false else true
  | _ => true

/-- The constant `filledCount`. -/
def filledCount (formData : LandingFormData) : Nat :=
  (requiredFields.filter (fun field => isFilled (getField formData field))).length

/-- The constant `totalFields`. -/
def totalFields : Nat := 8

/-- The constant `completionPercent`:
`Math.round((filledCount / totalFields) * 100)`. -/
def completionPercent (formData : LandingFormData) : ℤ :=
  mathRound (((filledCount formData : ℚ) / (totalFields : ℚ)) * 100)

/-- The landing-page form's required-field values, in the order the specification
names them. -/
def requiredValues (formData : LandingFormData) : List JSValue :=
  [formData.final_headline_chosen, formData.headline_variations, formData.subheadline,
   formData.wedge_statement, formData.cta_button_text, formData.landing_page_url,
   formData.visual_proof_url, formData.launched_status]

end LandingPageDetailView

/-! ## The specification's reading of a filled field -/

/-- A blank string: every character of it is white space (the empty string too). -/
def IsBlank (s : String) : Prop :=
  ∀ c ∈ s.data, jsIsWhiteSpace c = true

instance (s : String) : Decidable (IsBlank s) :=
  inferInstanceAs (Decidable (∀ c ∈ s.data, jsIsWhiteSpace c = true))

/-- A landing-page field counts as filled when its value is neither null/undefined
nor a blank string. -/
def LandingFilled : JSValue → Prop
  | .null => False
  | .undefined => False
  | .str s => ¬ IsBlank s
  | _ => True

instance (v : JSValue) : Decidable (LandingFilled v) := by
  cases v <;> unfold LandingFilled <;> infer_instance

/-- The number of the eight required landing-page fields that are filled, as the
specification counts it. -/
def specLandingFilledCount (formData : LandingFormData) : Nat :=
  ((LandingPageDetailView.requiredValues formData).filter
    (fun v => decide (LandingFilled v))).length

/-- The completion percentage of the specification:
round(filledCount / 8 × 100), to the nearest integer. -/
def specLandingCompletion (formData : LandingFormData) : ℤ :=
  round ((specLandingFilledCount formData : ℚ) / 8 * 100)

/-! ## StepDetailView (Deep Competitive Recon) -/

/-- The `formData` state of `StepDetailView`, its keys in insertion order. -/
structure ReconFormData where
  competitors_looked_at : JSValue
  where_got_reviews : JSValue
  pain_point_1 : JSValue
  pain_point_2 : JSValue
  pain_point_3 : JSValue
  my_wedge : JSValue
  how_solve_10x_better : JSValue
  confidence_check : JSValue
  go_no_go : JSValue
  deriving DecidableEq, Repr

namespace StepDetailView

/-- The initial `useState` value of `formData`. -/
def initialFormData : ReconFormData where
  competitors_looked_at := .str ""
  where_got_reviews := .str ""
  pain_point_1 := .str ""
  pain_point_2 := .str ""
  pain_point_3 := .str ""
  my_wedge := .str ""
  how_solve_10x_better := .str ""
  confidence_check := .null
  go_no_go := .str ""

/-- The call `Object.values(formData)`: the property values in insertion order. -/
def objectValues (formData : ReconFormData) : List JSValue :=
  [formData.competitors_looked_at, formData.where_got_reviews, formData.pain_point_1,
   formData.pain_point_2, formData.pain_point_3, formData.my_wedge,
   formData.how_solve_10x_better, formData.confidence_check, formData.go_no_go]

/-- The callback of the filter, `v => v !== '' && v !== null`. Strict inequality of
two `JSValue`s is their being different values. -/
def isFilled (v : JSValue) : Bool :=
  (v != .str "") && (v != .null)

/-- The constant `filledCount`. -/
def filledCount (formData : ReconFormData) : Nat :=
  ((objectValues formData).filter isFilled).length

/-- The constant `totalFields`. -/
def totalFields : Nat := 9

/-- The constant `completionPercent`:
`Math.round((filledCount / totalFields) * 100)`. -/
def completionPercent (formData : ReconFormData) : ℤ :=
  mathRound (((filledCount formData : ℚ) / (totalFields : ℚ)) * 100)

end StepDetailView

/-- A recon field counts as filled when it holds a non-empty, non-null value. -/
def ReconFilled (v : JSValue) : Prop :=
  v ≠ .str "" ∧ v ≠ .null

instance (v : JSValue) : Decidable (ReconFilled v) :=
  inferInstanceAs (Decidable (v ≠ .str "" ∧ v ≠ .null))

/-- One for a filled recon field, nothing for another. -/
def reconUnit (v : JSValue) : Nat :=
  if ReconFilled v then 1 else 0

/-- The number of the nine recon fields that are filled, as the specification counts
it, field by field. -/
def specReconFilledCount (formData : ReconFormData) : Nat :=
  reconUnit formData.competitors_looked_at + reconUnit formData.where_got_reviews +
  reconUnit formData.pain_point_1 + reconUnit formData.pain_point_2 +
  reconUnit formData.pain_point_3 + reconUnit formData.my_wedge +
  reconUnit formData.how_solve_10x_better + reconUnit formData.confidence_check +
  reconUnit formData.go_no_go

/-- The recon completion percentage of the specification:
round(filledCount / 9 × 100), to the nearest integer. -/
def specReconCompletion (formData : ReconFormData) : ℤ :=
  round ((specReconFilledCount formData : ℚ) / 9 * 100)

/-- Two landing-page form states agree on the eight required fields. -/
def AgreeOnRequired (a b : LandingFormData) : Prop :=
  a.final_headline_chosen = b.final_headline_chosen ∧
  a.headline_variations = b.headline_variations ∧
  a.subheadline = b.subheadline ∧
  a.wedge_statement = b.wedge_statement ∧
  a.cta_button_text = b.cta_button_text ∧
  a.landing_page_url = b.landing_page_url ∧
  a.visual_proof_url = b.visual_proof_url ∧
  a.launched_status = b.launched_status

/-- A landing-page form with all eight required fields filled. -/
def landingAllFilled : LandingFormData where
  final_headline_chosen := .str "Reply to reviews in seconds"
  headline_variations := .str "A, B, C, D"
  subheadline := .str "The dead-simple review-response tool"
  wedge_statement := .str "Unlike X we fix Y"
  cta_button_text := .str "Join the Waitlist (free)"
  cta_button_text_custom := .str ""
  price_shown := .str ""
  landing_page_url := .str "https://example.carrd.co"
  visual_proof_url := .str "https://example.com/shot.png"
  launched_status := .str "Live"
  launch_note := .str ""

/-- A landing-page form with exactly four required fields filled; two of the others
are white space only. -/
def landingHalfFilled : LandingFormData where
  final_headline_chosen := .str "Reply to reviews in seconds"
  headline_variations := .str "  "
  subheadline := .str "The dead-simple review-response tool"
  wedge_statement := .str "\t\n"
  cta_button_text := .str ""
  cta_button_text_custom := .str "ignored"
  price_shown := .str "49"
  landing_page_url := .str "https://example.carrd.co"
  visual_proof_url := .null
  launched_status := .str "Building"
  launch_note := .str "a note"

/-- The form `landingHalfFilled` with its three optional fields changed. -/
def landingHalfFilledOther : LandingFormData where
  final_headline_chosen := .str "Reply to reviews in seconds"
  headline_variations := .str "  "
  subheadline := .str "The dead-simple review-response tool"
  wedge_statement := .str "\t\n"
  cta_button_text := .str ""
  cta_button_text_custom := .null
  price_shown := .num 79
  landing_page_url := .str "https://example.carrd.co"
  visual_proof_url := .null
  launched_status := .str "Building"
  launch_note := .str ""

/-! ## Entities the views receive -/

/-- The call `s.includes(search)`: `search` occurs in `s` as a run of consecutive characters. -/
def jsIncludes (s search : String) : Bool :=
  s.data.tails.any (fun rest => search.data.isPrefixOf rest)

/-- The kind tag of the specification's blueprint: the two step kinds that have a
structured detail form. -/
inductive StepKind where
  | recon : StepKind
  | landing_page : StepKind
  deriving DecidableEq, Repr

/-- A game-plan step as the specification's data model lists it, with the kind tag of
its blueprint section. The client reads `id`, `category`, `step_number`, `title`,
`description`, `status` and `estimated_hours`. -/
structure GamePlanStep where
  id : Nat
  project_id : Nat
  category : String
  step_number : Nat
  title : String
  description : String
  status : String
  estimated_hours : Nat
  is_gate : Bool
  kind : Option StepKind
  deriving DecidableEq, Repr

/-- A project as the specification's data model lists it. -/
structure Project where
  id : Nat
  app_idea_id : Option Nat
  name : String
  current_stage : String
  progress : Nat
  current_mrr : Nat
  target_mrr : Nat
  deriving DecidableEq, Repr

/-- An idea as the specification's data model lists it. -/
structure Idea where
  id : Nat
  name : String
  status : String
  problem_to_solve : String
  competitor_url : String
  competitor_mrr : Option Nat
  validation_notes : String
  my_angle : String
  promoted_project_id : Option Nat
  deriving DecidableEq, Repr

/-! ## Requests, responses and effects -/

/-- The requests the modelled handlers send with `fetch`. -/
inductive Request where
  /-- The request `POST /api/app-ideas/:id/promote` -/
  | promoteIdea (ideaId : Nat) : Request
  /-- The request `POST /api/projects/:id/kill` -/
  | killProject (projectId : Nat) : Request
  /-- The request `POST /api/projects/:id/revive` -/
  | reviveProject (projectId : Nat) : Request
  /-- The request `DELETE /api/projects/:id` -/
  | deleteProject (projectId : Nat) : Request
  /-- The request `POST /api/projects/:id/generate-game-plan` -/
  | generateGamePlan (projectId : Nat) : Request
  /-- The request `GET /api/projects/:id/game-plan` -/
  | getGamePlan (projectId : Nat) : Request
  /-- The request `GET /api/projects/:id` -/
  | getProject (projectId : Nat) : Request
  /-- The request `POST /api/game-plan/:id/data` -/
  | saveStepData (stepId : Nat) : Request
  /-- The request `GET /api/game-plan/:id/data` -/
  | loadStepData (stepId : Nat) : Request
  /-- The request `PUT /api/game-plan/:id`, a step status update -/
  | updateStepStatus (stepId : Nat) : Request
  /-- The request `PUT /api/app-ideas/:id`, an idea status update -/
  | updateIdeaStatus (ideaId : Nat) : Request
  /-- The request `GET /api/projects` -/
  | listProjects : Request
  /-- The request `GET /api/app-ideas` -/
  | listIdeas : Request
  /-- The request `POST /api/app-ideas` -/
  | createIdea : Request
  /-- The request `GET /api/dashboard/stats` -/
  | dashboardStats : Request
  deriving DecidableEq, Repr

/-- A parsed response body: a JSON object, of which the handlers read the properties
`error`, `message` and `status`; `none` is a property the object lacks. -/
structure JsonBody where
  error : Option String
  message : Option String
  status : Option String
  deriving DecidableEq, Repr

/-- How the promise `res.json()` settles: with the parsed body, or rejected with the
parser's error message when the body is not JSON. -/
inductive JsonResult where
  | resolved (data : JsonBody) : JsonResult
  | rejected (message : String) : JsonResult
  deriving DecidableEq, Repr

/-- A `Response`: its `ok` flag (status 200 to 299) and what `json()` gives. -/
structure Response where
  ok : Bool
  json : JsonResult
  deriving DecidableEq, Repr

/-- How the promise of `fetch` settles: with a response, whatever its status, or
rejected with an error message when no response arrived. -/
inductive FetchResult where
  | response (res : Response) : FetchResult
  | rejected (message : String) : FetchResult
  deriving DecidableEq, Repr

/-- What a handler does that the user or the server can observe, in order. -/
inductive Effect where
  /-- The dialog `confirm(message)` was shown and answered. -/
  | confirm (message : String) (answer : Bool) : Effect
  /-- The call of `fetch` with a request. -/
  | request (r : Request) : Effect
  /-- The dialog `alert(message)`. -/
  | alert (message : String) : Effect
  /-- The call `console.error(label, err)`, with the error's message. -/
  | consoleError (label : String) (message : String) : Effect
  /-- The call `window.location.reload()`. -/
  | reload : Effect
  /-- The `onBack` prop was called. -/
  | onBack : Effect
  /-- The call `setTimeout(() => onBack(), ms)`. -/
  | onBackAfter (ms : Nat) : Effect
  /-- The state update `setIsSaving(value)`. -/
  | setIsSaving (value : Bool) : Effect
  /-- The state update `setShowModal(value)`. -/
  | setShowModal (value : Bool) : Effect
  /-- The call `console.log(label, data)`. -/
  | consoleLog (label : String) : Effect
  deriving DecidableEq, Repr

/-- The string `a || b` of a possibly missing string `a`: `a` when it is a non-empty
string, `b` when it is `undefined` or `''`. -/
def jsOr (a : Option String) (b : String) : String :=
  match a with
  | some s => if s = "" then b else s
  | none => b

/-- The string `'' + a` of a possibly missing string `a`. -/
def jsToString (a : Option String) : String :=
  match a with
  | some s => s
  | none => "undefined"

/-- The alerts among a handler's effects. -/
def alerts (effects : List Effect) : List String :=
  effects.filterMap (fun e => match e with
    | .alert m => some m
    | _ => none)

/-! ## ProjectDetail: the step cards of the game-plan tab -/

namespace ProjectDetail

/-- The constant `isGate` of a step card: `step.title.includes('GATE CHECK')`. -/
def isGate (step : GamePlanStep) : Bool :=
  jsIncludes step.title "GATE CHECK"

/-- The constant `hasDetailView` of a step card's click handler. -/
def hasDetailView (step : GamePlanStep) : Bool :=
  !isGate step && (
    jsIncludes step.title "Deep Competitive Recon" ||
    jsIncludes step.title "Facade Landing Page" ||
    jsIncludes step.title "Build Facade")

/-- The click handler of a step card: `setSelectedStep(step)` when the step has a
detail view, nothing otherwise. The result is `selectedStep` after the click. -/
def stepClick (selectedStep : Option GamePlanStep) (step : GamePlanStep) :
    Option GamePlanStep :=
  if hasDetailView step then some step else selectedStep

/-- The two detail components the game-plan tab renders for a selected step. -/
inductive DetailView where
  | LandingPageDetailView : DetailView
  | StepDetailView : DetailView
  deriving DecidableEq, Repr

/-- The component rendered for `selectedStep`: the landing-page form when the title
includes 'Facade Landing Page' or 'Build Facade', the recon form otherwise. -/
def detailView (selectedStep : GamePlanStep) : DetailView :=
  if jsIncludes selectedStep.title "Facade Landing Page" ||
      jsIncludes selectedStep.title "Build Facade" then
    .LandingPageDetailView
  else
    .StepDetailView

/-- The four ways the view treats a step. -/
inductive StepClass where
  | gate : StepClass
  | reconForm : StepClass
  | landingPageForm : StepClass
  | checklist : StepClass
  deriving DecidableEq, Repr

/-- How the view treats a step: a gate card when `isGate`; otherwise the form a click
on the card opens; a plain checklist item when a click opens nothing. -/
def classify (step : GamePlanStep) : StepClass :=
  if isGate step then .gate
  else
    match stepClick none step with
    | some selected =>
      match detailView selected with
      | .LandingPageDetailView => .landingPageForm
      | .StepDetailView => .reconForm
    | none => .checklist

end ProjectDetail

/-- A gate step of the blueprint, flagged as one, with no kind tag. -/
def gateStep : GamePlanStep where
  id := 4
  project_id := 1
  category := "phase1_smoketest"
  step_number := 4
  title := "GATE CHECK: 10+ signups or 1 pre-sale"
  description := "Go or no-go"
  status := "pending"
  estimated_hours := 0
  is_gate := true
  kind := none

/-- The step `gateStep` with only its title changed. -/
def gateStepRetitled : GamePlanStep :=
  { gateStep with title := "Deep Competitive Recon" }

/-- The step `gateStep` with only its title changed, to a landing-page title. -/
def gateStepFacade : GamePlanStep :=
  { gateStep with title := "Build Facade Landing Page" }

/-- The step `gateStep` with only its title changed, to an ordinary title. -/
def gateStepPlain : GamePlanStep :=
  { gateStep with title := "Set up analytics" }

/-- A recon step: tagged `recon`, not a gate. -/
def reconStep : GamePlanStep where
  id := 1
  project_id := 1
  category := "phase1_smoketest"
  step_number := 1
  title := "Deep Competitive Recon"
  description := "Read the reviews"
  status := "pending"
  estimated_hours := 3
  is_gate := false
  kind := some .recon

/-- A landing-page step: tagged `landing_page`, not a gate. -/
def landingStep : GamePlanStep where
  id := 2
  project_id := 1
  category := "phase1_smoketest"
  step_number := 2
  title := "Build Facade Landing Page"
  description := "Ship the page"
  status := "pending"
  estimated_hours := 4
  is_gate := false
  kind := some .landing_page

/-- A step with the title of `reconStep` and every other attribute different: a
flagged gate of another phase, tagged `landing_page`. -/
def reconTitledGate : GamePlanStep where
  id := 9
  project_id := 2
  category := "phase2_setup"
  step_number := 7
  title := "Deep Competitive Recon"
  description := ""
  status := "completed"
  estimated_hours := 0
  is_gate := true
  kind := some .landing_page

/-! ## ProjectDetail: the header buttons and their handlers -/

namespace ProjectDetail

/-- The constant `isKilled`: `project.current_stage === 'killed'`. -/
def isKilled (project : Project) : Bool :=
  project.current_stage == "killed"

/-- The buttons of the project header. -/
inductive HeaderButton where
  | reviveProject : HeaderButton
  | killProject : HeaderButton
  | delete : HeaderButton
  deriving DecidableEq, Repr

/-- The buttons the header renders: Revive and Delete for a killed project, Kill and
Delete for any other. -/
def headerButtons (project : Project) : List HeaderButton :=
  if isKilled project then [.reviveProject, .delete] else [.killProject, .delete]

/-- The handler `handleKillProject`, given the answer to its confirm dialog and how the
request settles. It never reads `res.ok`. -/
def handleKillProject (project : Project) (confirmAnswer : Bool) (result : FetchResult) :
    List Effect :=
  .confirm ("Kill this project? This marks it as dead (validation failed). " ++
      "The idea will be marked as Rejected. You can revive it later.") confirmAnswer ::
  if confirmAnswer then
    .request (.killProject project.id) ::
    match result with
    | .response res =>
      match res.json with
      | .resolved _ => [.alert "Project killed. Idea marked as Rejected.", .reload]
      | .rejected m => [.consoleError "Error killing project:" m,
                        .alert "Error killing project."]
    | .rejected m => [.consoleError "Error killing project:" m,
                      .alert "Error killing project."]
  else []

/-- The handler `handleReviveProject`. It never reads `res.ok`. -/
def handleReviveProject (project : Project) (confirmAnswer : Bool)
    (result : FetchResult) : List Effect :=
  .confirm "Revive this project? It will start over from the Smoke Test phase."
      confirmAnswer ::
  if confirmAnswer then
    .request (.reviveProject project.id) ::
    match result with
    | .response res =>
      match res.json with
      | .resolved _ => [.alert "Project revived! Starting from Smoke Test.", .reload]
      | .rejected m => [.consoleError "Error reviving project:" m,
                        .alert "Error reviving project."]
    | .rejected m => [.consoleError "Error reviving project:" m,
                      .alert "Error reviving project."]
  else []

/-- The handler `handleDeleteProject`. It never reads `res.ok`. -/
def handleDeleteProject (project : Project) (confirmAnswer : Bool)
    (result : FetchResult) : List Effect :=
  .confirm ("DELETE this project permanently? This cannot be undone. All game plan " ++
      "progress and tasks will be lost. The idea can be promoted again.")
      confirmAnswer ::
  if confirmAnswer then
    .request (.deleteProject project.id) ::
    match result with
    | .response res =>
      match res.json with
      | .resolved _ => [.alert "Project deleted. You can promote the idea again.", .onBack]
      | .rejected m => [.consoleError "Error deleting project:" m,
                        .alert "Error deleting project."]
    | .rejected m => [.consoleError "Error deleting project:" m,
                      .alert "Error deleting project."]
  else []

/-- A click on a header button: the `onClick` handler of the button runs when the
header renders the button, and nothing happens for a button that is not there. -/
def headerClick (project : Project) (button : HeaderButton) (confirmAnswer : Bool)
    (result : FetchResult) : List Effect :=
  if button ∈ headerButtons project then
    match button with
    | .reviveProject => handleReviveProject project confirmAnswer result
    | .killProject => handleKillProject project confirmAnswer result
    | .delete => handleDeleteProject project confirmAnswer result
  else []

end ProjectDetail

/-! ## Response bodies parsed in full -/

/-- A JSON value as a property of a parsed body holds it, by what `||` and `String()`
make of it. A number is given by whether it is zero and by its text `String(n)`. An
array is given by its text, the elements joined by commas, or by `none` when the
conversion of an element throws. Any other object is given by whether it has a property
`toString` of its own: that property of a parsed object is never a function, so the
conversion throws a TypeError; without it the text is '[object Object]'. -/
inductive JsonValue where
  | null : JsonValue
  | bool (b : Bool) : JsonValue
  | number (isZero : Bool) (text : String) : JsonValue
  | string (s : String) : JsonValue
  | array (joined : Option String) : JsonValue
  | object (ownToString : Bool) : JsonValue
  deriving DecidableEq, Repr

/-- The truthiness of a JSON value: `null`, `false`, zero and `''` are falsy; every
array and object is truthy. -/
def JsonValue.truthy : JsonValue → Bool
  | .null => false
  | .bool b => b
  | .number isZero _ => !isZero
  | .string s => s != ""
  | .array _ => true
  | .object _ => true

/-- The string conversion `String(v)` of a JSON value, which `new Error(v)` takes for
its `message`; `none` when the conversion throws. -/
def JsonValue.toText : JsonValue → Option String
  | .null => some "null"
  | .bool true => some "true"
  | .bool false => some "false"
  | .number _ text => some text
  | .string s => some s
  | .array joined => joined
  | .object ownToString => if ownToString then none else some "[object Object]"

/-- The messages of the two TypeErrors the engine can raise in the client's handlers:
for the read of a property of `null`, and for a string conversion that finds no
primitive value. Their wording is the engine's. -/
structure EngineMessages where
  nullRead : String
  conversion : String
  deriving DecidableEq, Repr

/-- What `res.json()` resolves to, as far as a read of `data.error` tells: `null`,
whose property read throws; a value with no property `error` (a boolean, a number, a
string, an array, an object without it); or an object with the property. -/
inductive ParsedBody where
  | null : ParsedBody
  | withoutError : ParsedBody
  | withError (error : JsonValue) : ParsedBody
  deriving DecidableEq, Repr

/-- How the promise `res.json()` settles: with the parsed body, or rejected with the
parser's error message when the body is not JSON. -/
inductive ParsedJson where
  | resolved (data : ParsedBody) : ParsedJson
  | rejected (message : String) : ParsedJson
  deriving DecidableEq, Repr

/-- A `Response` with its body parsed in full: the `ok` flag and what `json()`
gives. -/
structure ParsedResponse where
  ok : Bool
  json : ParsedJson
  deriving DecidableEq, Repr

/-- How the promise of `fetch` settles, the body parsed in full: with a response,
whatever its status, or rejected with an error message when no response arrived. -/
inductive ParsedFetchResult where
  | response (res : ParsedResponse) : ParsedFetchResult
  | rejected (message : String) : ParsedFetchResult
  deriving DecidableEq, Repr

/-! ## IdeaFunnelDetailView -/

namespace IdeaFunnelDetailView

/-- The constant `isAlreadyProject`:
`idea.status === 'Planning' || idea.status === 'Rejected'`. -/
def isAlreadyProject (idea : Idea) : Bool :=
  idea.status == "Planning" || idea.status == "Rejected"

/-- What the header of the idea detail view can show beside the idea's name. -/
inductive HeaderItem where
  /-- The badge 'Already a Project'. -/
  | alreadyAProject : HeaderItem
  /-- The button 'Promote to Project'. -/
  | promoteToProject : HeaderItem
  /-- The note 'View in Projects tab'. -/
  | viewInProjectsTab : HeaderItem
  deriving DecidableEq, Repr

/-- The header items the view renders. -/
def headerItems (idea : Idea) : List HeaderItem :=
  (if isAlreadyProject idea then [.alreadyAProject] else []) ++
  (if !isAlreadyProject idea then [.promoteToProject] else [.viewInProjectsTab])

/-- The `catch` block of `handlePromoteToProject`, for an error with message `m`. -/
def promoteCatch (m : String) : List Effect :=
  [.consoleError "Error promoting idea:" m,
   .alert (jsOr (some m) "Error promoting idea. Please try again.")]

/-- The handler `handlePromoteToProject`, given the answer to its confirm dialog and how
the request settles. For a response that is not OK it throws
`new Error(data.error || 'Failed to promote idea')`: reading `data.error` of a `null`
body throws the engine's TypeError; a body with no `error` and a falsy `error` give the
fallback text; a truthy `error` gives its string conversion, or the engine's TypeError
when the conversion throws. Every error ends in the `catch` block. -/
def handlePromoteToProject (engine : EngineMessages) (idea : Idea) (confirmAnswer : Bool)
    (result : ParsedFetchResult) : List Effect :=
  .confirm ("Promote this idea to a project? " ++
      "This will start the Lean AI-Solo Blueprint process.") confirmAnswer ::
  if confirmAnswer then
    .request (.promoteIdea idea.id) ::
    match result with
    | .response res =>
      if !res.ok then
        match res.json with
        | .resolved .null => promoteCatch engine.nullRead
        | .resolved .withoutError => promoteCatch "Failed to promote idea"
        | .resolved (.withError error) =>
          if error.truthy then
            match error.toText with
            | some text => promoteCatch text
            | none => promoteCatch engine.conversion
          else promoteCatch "Failed to promote idea"
        | .rejected m => promoteCatch m
      else
        match res.json with
        | .resolved _ => [.alert "Idea promoted to project! Check the Projects tab.", .reload]
        | .rejected m => promoteCatch m
    | .rejected m => promoteCatch m
  else []

end IdeaFunnelDetailView

/-- An idea already promoted, to project 7, whose status was later set back to
Researching in the funnel table. -/
def promotedResearchingIdea : Idea where
  id := 3
  name := "ReplyRocket"
  status := "Researching"
  problem_to_solve := "Answering reviews takes hours"
  competitor_url := "example.com"
  competitor_mrr := some 12000
  validation_notes := ""
  my_angle := ""
  promoted_project_id := some 7

/-- An idea never promoted, whose status was set to Rejected in the funnel table. -/
def rejectedUnpromotedIdea : Idea where
  id := 4
  name := "FormFiller"
  status := "Rejected"
  problem_to_solve := "Forms are slow"
  competitor_url := ""
  competitor_mrr := none
  validation_notes := ""
  my_angle := ""
  promoted_project_id := none

/-- A project in the Build stage. -/
def buildProject : Project where
  id := 7
  app_idea_id := some 3
  name := "ReplyRocket"
  current_stage := "build"
  progress := 40
  current_mrr := 0
  target_mrr := 20000

/-- The project `buildProject` after a kill. -/
def killedProject : Project :=
  { buildProject with current_stage := "killed" }

/-! ## ProjectDetail: the game-plan tab as a state machine -/

namespace ProjectDetail

/-- The three tabs. -/
inductive Tab where
  | overview : Tab
  | gameplan : Tab
  | tasks : Tab
  deriving DecidableEq, Repr

/-- The component state the game-plan tab reads: `gamePlan`, `activeTab` and
`selectedStep`. -/
structure State where
  gamePlan : List GamePlanStep
  activeTab : Tab
  selectedStep : Option GamePlanStep
  deriving DecidableEq, Repr

/-- The state at mount: `useState([])`, `useState('overview')`, `useState(null)`. -/
def initialState : State where
  gamePlan := []
  activeTab := .overview
  selectedStep := none

/-- The keys of the four phase headers. -/
def phaseKeys : List String :=
  ["phase1_smoketest", "phase2_setup", "phase3_build", "phase4_launch"]

/-- What the user and the network can do to the mounted component. -/
inductive Event where
  /-- A `GET /api/projects/:id/game-plan` resolved: `setGamePlan(data)`. -/
  | gamePlanFetched (data : List GamePlanStep) : Event
  /-- The game-plan fetch of the mount effect was rejected: its `catch` logs. -/
  | gamePlanFetchFailed (message : String) : Event
  /-- A click on a tab: `setActiveTab(tab)`. -/
  | tabClick (tab : Tab) : Event
  /-- A click on 'Generate Blueprint'. -/
  | generateBlueprintClick : Event
  /-- A click on 'Regenerate Blueprint', with the answer to its confirm dialog. -/
  | regenerateClick (confirmAnswer : Bool) : Event
  /-- A click on the card of a step. -/
  | stepCardClick (step : GamePlanStep) : Event
  /-- The `onBack` of the open detail view. -/
  | detailBack : Event
  deriving DecidableEq, Repr

/-- The game-plan tab shows the plan, not a detail view: the second branch of
`activeTab === 'gameplan' && selectedStep ? ... : activeTab === 'gameplan' && ...`. -/
def showsPlan (s : State) : Bool :=
  s.activeTab == .gameplan && s.selectedStep.isNone

/-- The 'Generate Blueprint' button is rendered: `gamePlan.length === 0`. -/
def showsGenerateBlueprint (s : State) : Bool :=
  showsPlan s && s.gamePlan.length == 0

/-- The 'Regenerate Blueprint' button is rendered: the other branch. -/
def showsRegenerate (s : State) : Bool :=
  showsPlan s && s.gamePlan.length != 0

/-- The card of `step` is rendered: the step is among the `phaseSteps` of a phase. -/
def showsStepCard (s : State) (step : GamePlanStep) : Bool :=
  showsRegenerate s &&
  phaseKeys.any (fun key => (s.gamePlan.filter (fun x => x.category == key)).contains step)

/-- The handler `handleGenerateGamePlan`: it sends the generate request at once. The
game-plan fetch it chains arrives later, as a `gamePlanFetched` event. -/
def handleGenerateGamePlan (project : Project) : List Effect :=
  [.request (.generateGamePlan project.id)]

/-- One event: the next state and the effects. A click on what is not rendered does
nothing. -/
def step (project : Project) (s : State) (e : Event) : State × List Effect :=
  match e with
  | .gamePlanFetched data => ({ s with gamePlan := data }, [])
  | .gamePlanFetchFailed m => (s, [.consoleError "Error fetching game plan:" m])
  | .tabClick tab => ({ s with activeTab := tab }, [])
  | .generateBlueprintClick =>
    if showsGenerateBlueprint s then (s, handleGenerateGamePlan project) else (s, [])
  | .regenerateClick confirmAnswer =>
    if showsRegenerate s then
      (s, .confirm "This will reset all game plan progress. Are you sure?" confirmAnswer ::
          (if confirmAnswer then handleGenerateGamePlan project else []))
    else (s, [])
  | .stepCardClick card =>
    if showsStepCard s card then
      ({ s with selectedStep := stepClick s.selectedStep card }, [])
    else (s, [])
  | .detailBack =>
    if s.activeTab == .gameplan && s.selectedStep.isSome then
      ({ s with selectedStep := none },
       [.request (.getGamePlan project.id), .request (.getProject project.id)])
    else (s, [])

/-- A run of events from a state: the last state and all effects in order. -/
def run (project : Project) (s : State) : List Event → State × List Effect
  | [] => (s, [])
  | e :: es =>
    let (s1, out1) := step project s e
    let (s2, out2) := run project s1 es
    (s2, out1 ++ out2)

end ProjectDetail

/-- The game plan the server holds for `buildProject`: two steps, one completed. -/
def storedGamePlan : List GamePlanStep :=
  [{ reconStep with project_id := 7, status := "completed" },
   { gateStep with project_id := 7 }]

/-! ## The save handlers of the two step-detail forms -/

/-- The state of a step-detail form: `formData` and `isSaving`. -/
structure FormState (α : Type) where
  formData : α
  isSaving : Bool
  deriving DecidableEq, Repr

/-- The state after an effect: `setIsSaving` writes `isSaving`; no effect of a save
handler writes `formData`. -/
def FormState.apply {α : Type} (s : FormState α) : Effect → FormState α
  | .setIsSaving value => { s with isSaving := value }
  | _ => s

/-- The state after a handler's effects, applied in order. -/
def FormState.after {α : Type} (s : FormState α) (effects : List Effect) : FormState α :=
  effects.foldl FormState.apply s

namespace LandingPageDetailView

/-- The `catch` block of `handleSave`, for an error with message `m`. -/
def saveCatch (showAlert : Bool) (m : String) : List Effect :=
  [.consoleError "Error saving:" m, .setIsSaving false] ++
  (if showAlert then [.alert ("Error saving data: " ++ jsOr (some m) "Unknown error")]
   else [])

/-- The handler `handleSave(showAlert, navigateBack)` of the landing-page form, given
how the request settles. A response that is not OK throws the body's `message`, or
'Failed to save data'. -/
def handleSave (step : GamePlanStep) (showAlert navigateBack : Bool)
    (result : FetchResult) : List Effect :=
  .setIsSaving true :: .request (.saveStepData step.id) ::
  match result with
  | .response res =>
    if !res.ok then
      match res.json with
      | .resolved err => saveCatch showAlert (jsOr err.message "Failed to save data")
      | .rejected m => saveCatch showAlert m
    else
      match res.json with
      | .resolved data =>
        .setIsSaving false ::
        (if showAlert then
          (if navigateBack then [.onBack]
           else [.alert ("Saved! Status updated to: " ++ jsToString data.status)])
         else [])
      | .rejected m => saveCatch showAlert m
  | .rejected m => saveCatch showAlert m

/-- The autosave the timer of `handleFieldChange` runs: `handleSave(false)`. -/
def autoSave (step : GamePlanStep) (result : FetchResult) : List Effect :=
  handleSave step false false result

end LandingPageDetailView

namespace StepDetailView

/-- The `catch` block of `handleSave`, for an error with message `m`. -/
def saveCatch (showAlert : Bool) (m : String) : List Effect :=
  [.consoleError "Error saving:" m, .setIsSaving false] ++
  (if showAlert then [.alert "Error saving data"] else [])

/-- The handler `handleSave(showAlert, navigateBack)` of the recon form, given how the
request settles. It never reads `res.ok`. -/
def handleSave (step : GamePlanStep) (showAlert navigateBack : Bool)
    (result : FetchResult) : List Effect :=
  .setIsSaving true :: .request (.saveStepData step.id) ::
  match result with
  | .response res =>
    match res.json with
    | .resolved data =>
      .setIsSaving false ::
      (if showAlert then
        (if navigateBack then [.onBackAfter 500]
         else [.alert ("Saved! Status updated to: " ++ jsToString data.status)])
       else [])
    | .rejected m => saveCatch showAlert m
  | .rejected m => saveCatch showAlert m

/-- The autosave the timer of `handleFieldChange` runs: `handleSave(false)`. -/
def autoSave (step : GamePlanStep) (result : FetchResult) : List Effect :=
  handleSave step false false result

end StepDetailView

/-- A save request failed: no response arrived, or the response is not OK, or its body
is not JSON. -/
def FetchResult.Failed : FetchResult → Prop
  | .rejected _ => True
  | .response res => res.ok = false ∨ ∃ m, res.json = .rejected m

/-- A save request failed with an error the promise chain raises by itself: no
response arrived, or the body is not JSON. -/
def FetchResult.Threw : FetchResult → Prop
  | .rejected _ => True
  | .response res => ∃ m, res.json = .rejected m

/-- The console entries among a handler's effects. -/
def consoleErrors (effects : List Effect) : List String :=
  effects.filterMap (fun e => match e with
    | .consoleError _ m => some m
    | _ => none)

/-- A response with status 409 and a JSON error body. -/
def conflictResponse : FetchResult :=
  .response { ok := false,
              json := .resolved { error := some "Project is already killed",
                                  message := none, status := none } }

/-- A response with status 500 and a JSON error body. -/
def serverErrorResponse : FetchResult :=
  .response { ok := false,
              json := .resolved { error := some "Internal error",
                                  message := some "Could not save", status := none } }

/-- A response with status 502 and an HTML body, which `json()` cannot parse. -/
def htmlErrorResponse : ParsedFetchResult :=
  .response { ok := false, json := .rejected "Unexpected token < in JSON at position 0" }

/-- A response with status 200 and an empty body, which `json()` cannot parse. -/
def emptyOkResponse : ParsedFetchResult :=
  .response { ok := true, json := .rejected "Unexpected end of JSON input" }

/-- A response with status 409 whose JSON body has an empty `error`. -/
def emptyErrorResponse : ParsedFetchResult :=
  .response { ok := false, json := .resolved (.withError (.string "")) }

/-- A response with status 409 whose JSON body is `null`. -/
def nullBodyResponse : ParsedFetchResult :=
  .response { ok := false, json := .resolved .null }

/-- A response with status 409 whose JSON body has an object for `error`, as in
`{"error": {"code": "conflict"}}`. -/
def objectErrorResponse : ParsedFetchResult :=
  .response { ok := false, json := .resolved (.withError (.object false)) }

/-- A response with status 409 whose JSON body has the empty array for `error`. -/
def emptyArrayErrorResponse : ParsedFetchResult :=
  .response { ok := false, json := .resolved (.withError (.array (some ""))) }

/-- A response with status 409 whose JSON body has for `error` an object with a
property `toString`, as in `{"error": {"toString": "conflict"}}`. -/
def unconvertibleErrorResponse : ParsedFetchResult :=
  .response { ok := false, json := .resolved (.withError (.object true)) }

/-- The response of a second promote: status 409 and a JSON body with the reason. -/
def promoteConflict : ParsedResponse where
  ok := false
  json := .resolved (.withError (.string "Idea already promoted"))

/-- The success alert of `handlePromoteToProject`. -/
def promoteSuccessMessage : String :=
  "Idea promoted to project! Check the Projects tab."

/-- The messages of V8 for the two TypeErrors. -/
def sampleEngine : EngineMessages where
  nullRead := "Cannot read properties of null (reading 'error')"
  conversion := "Cannot convert object to primitive value"

/-! ## The autosave timer of the step-detail forms -/

/-- A timer `setTimeout` has started: its id and the time, in ms, at which it is due. -/
structure Timer where
  id : Nat
  fireAt : Nat
  deriving DecidableEq, Repr

/-- The clock, the global `window.autoSaveTimeout`, the timers the forms have started
that are still pending, and the times at which an autosave, `handleSave(false)`, has
run. -/
structure TimerState where
  now : Nat
  autoSaveTimeout : Option Nat
  pending : List Timer
  nextId : Nat
  sent : List Nat
  deriving DecidableEq, Repr

namespace TimerState

/-- The page after loading: nothing pending, `window.autoSaveTimeout` undefined. -/
def initial : TimerState where
  now := 0
  autoSaveTimeout := none
  pending := []
  nextId := 1
  sent := []

/-- The call `clearTimeout(id)`: the timer with this id, if pending, is cancelled;
`clearTimeout(undefined)` does nothing. -/
def clearTimeout (s : TimerState) (id : Option Nat) : TimerState :=
  match id with
  | none => s
  | some i => { s with pending := s.pending.filter (fun t => t.id != i) }

/-- The call `setTimeout(() => handleSave(false), delay)`: a fresh timer, due `delay`
ms from now; the result holds the timer's id. -/
def setTimeout (s : TimerState) (delay : Nat) : TimerState × Nat :=
  ({ s with pending := s.pending ++ [{ id := s.nextId, fireAt := s.now + delay }],
            nextId := s.nextId + 1 },
   s.nextId)

/-- The two timer lines every field change runs, in `handleFieldChange` of both forms
and in the custom CTA input:
`clearTimeout(window.autoSaveTimeout);
window.autoSaveTimeout = setTimeout(() => handleSave(false), 2000)`. -/
def scheduleAutoSave (s : TimerState) : TimerState :=
  let cleared := s.clearTimeout s.autoSaveTimeout
  let started := cleared.setTimeout 2000
  { started.1 with autoSaveTimeout := some started.2 }

/-- The clock moves on to time `t`: every pending timer due by then runs its autosave,
at the time it is due, and is pending no more. -/
def advanceTo (s : TimerState) (t : Nat) : TimerState :=
  { s with now := max s.now t,
           pending := s.pending.filter (fun timer => !decide (timer.fireAt ≤ t)),
           sent := s.sent ++ (s.pending.filter (fun timer => decide (timer.fireAt ≤ t))).map
             (fun timer => timer.fireAt) }

/-- A field change at time `t`. -/
def changeAt (s : TimerState) (t : Nat) : TimerState :=
  (s.advanceTo t).scheduleAutoSave

/-- Field changes at the given times, one after the other. -/
def changesAt (s : TimerState) (times : List Nat) : TimerState :=
  times.foldl changeAt s

/-- What can happen to the timers: a field change now, or time passing. -/
inductive Op where
  | change : Op
  | wait (untilTime : Nat) : Op
  deriving DecidableEq, Repr

/-- One operation. -/
def op (s : TimerState) : Op → TimerState
  | .change => s.scheduleAutoSave
  | .wait t => s.advanceTo t

/-- A run of operations. -/
def ops (s : TimerState) (os : List Op) : TimerState :=
  os.foldl op s

/-- At most the timer that `window.autoSaveTimeout` names is pending. -/
def AtMostStored (s : TimerState) : Prop :=
  s.pending = [] ∨ ∃ t, s.pending = [t] ∧ s.autoSaveTimeout = some t.id

/-- The last change was at time `a`: the clock reads `a`, the one pending timer is
stored and due at `a + 2000`, and the autosaves sent so far are `sent`. -/
def Armed (a : Nat) (sent : List Nat) (s : TimerState) : Prop :=
  s.now = a ∧ s.sent = sent ∧
  ∃ i, s.pending = [{ id := i, fireAt := a + 2000 }] ∧ s.autoSaveTimeout = some i

end TimerState

/-- The last time of a burst that starts at `t0`. -/
def lastChange (t0 : Nat) (times : List Nat) : Nat :=
  (t0 :: times).getLast (List.cons_ne_nil t0 times)

/-- Each change of a burst comes no earlier than the previous one and less than 2000
ms after it. -/
def IsBurst (t0 : Nat) (times : List Nat) : Prop :=
  List.Chain (fun a b => a ≤ b ∧ b < a + 2000) t0 times

/-! ## Objects and the bodies of the save requests -/

/-- A JavaScript object with values of type `α`: its own keys, in insertion order. -/
abbrev JSObject (α : Type) := List (String × α)

/-- The assignment `o[key] = value`: an existing key keeps its place, a new key goes
last. -/
def objSet {α : Type} (o : JSObject α) (key : String) (value : α) : JSObject α :=
  if o.any (fun kv => kv.1 == key) then
    o.map (fun kv => if kv.1 == key then (key, value) else kv)
  else
    o ++ [(key, value)]

/-- The call `Object.assign(target, source)`, also the object `{...target, ...source}`:
the members of `source` are assigned to `target` one by one. -/
def objAssign {α : Type} (target source : JSObject α) : JSObject α :=
  source.foldl (fun o kv => objSet o kv.1 kv.2) target

/-- The keys of an object. -/
def objKeys {α : Type} (o : JSObject α) : List String :=
  o.map Prod.fst

/-- The property read `o[key]`. -/
def objGet (o : JSObject JSValue) (key : String) : JSValue :=
  match o.find? (fun kv => kv.1 == key) with
  | some kv => kv.2
  | none => .undefined

/-- The truthiness of a value. -/
def truthy : JSValue → Bool
  | .undefined => false
  | .null => false
  | .bool b => b
  | .num n => n != 0
  | .str s => s != ""

/-- The value `a || b`. -/
def jsOrValue (a b : JSValue) : JSValue :=
  if truthy a then a else b

/-- The members `JSON.stringify(o)` writes: a member whose value is `undefined` is left
out. -/
def jsonStringify (o : JSObject JSValue) : JSObject JSValue :=
  o.filter (fun kv => kv.2 != .undefined)

/-- The JSON value of a `parseFloat` result: the number, or `null` for NaN. -/
def numberToJson : Option Int → JSValue
  | some n => .num n
  | none => .null

namespace StepDetailView

/-- The object `formData` of the recon form. -/
def toObject (formData : ReconFormData) : JSObject JSValue :=
  [("competitors_looked_at", formData.competitors_looked_at),
   ("where_got_reviews", formData.where_got_reviews),
   ("pain_point_1", formData.pain_point_1),
   ("pain_point_2", formData.pain_point_2),
   ("pain_point_3", formData.pain_point_3),
   ("my_wedge", formData.my_wedge),
   ("how_solve_10x_better", formData.how_solve_10x_better),
   ("confidence_check", formData.confidence_check),
   ("go_no_go", formData.go_no_go)]

/-- The body of the save request: `JSON.stringify(formData)`. -/
def saveBody (formData : ReconFormData) : JSObject JSValue :=
  jsonStringify (toObject formData)

end StepDetailView

namespace LandingPageDetailView

/-- The object `formData` of the landing-page form. -/
def toObject (formData : LandingFormData) : JSObject JSValue :=
  [("final_headline_chosen", formData.final_headline_chosen),
   ("headline_variations", formData.headline_variations),
   ("subheadline", formData.subheadline),
   ("wedge_statement", formData.wedge_statement),
   ("cta_button_text", formData.cta_button_text),
   ("cta_button_text_custom", formData.cta_button_text_custom),
   ("price_shown", formData.price_shown),
   ("landing_page_url", formData.landing_page_url),
   ("visual_proof_url", formData.visual_proof_url),
   ("launched_status", formData.launched_status),
   ("launch_note", formData.launch_note)]

/-- The value the save request sends for `price_shown`:
`formData.price_shown ? parseFloat(formData.price_shown) : null`. The platform's
`parseFloat` is a parameter; `none` is its NaN. -/
def priceToSend (parseFloat : JSValue → Option Int) (formData : LandingFormData) :
    JSValue :=
  if truthy formData.price_shown then numberToJson (parseFloat formData.price_shown)
  else .null

/-- The body of the save request:
`JSON.stringify({...formData, price_shown: ...})`. -/
def saveBody (parseFloat : JSValue → Option Int) (formData : LandingFormData) :
    JSObject JSValue :=
  jsonStringify (objSet (toObject formData) "price_shown" (priceToSend parseFloat formData))

end LandingPageDetailView

/-! ## How the form data of the two forms changes -/

namespace StepDetailView

/-- The load effect: `if (data) setFormData({...})`, every field read with
`data.field || ''` (`|| null` for `confidence_check`). The argument holds the
properties of the response body, `undefined` for one it lacks; `none` is a falsy
body. -/
def load (data : Option ReconFormData) (formData : ReconFormData) : ReconFormData :=
  match data with
  | none => formData
  | some d =>
    { competitors_looked_at := jsOrValue d.competitors_looked_at (.str "")
      where_got_reviews := jsOrValue d.where_got_reviews (.str "")
      pain_point_1 := jsOrValue d.pain_point_1 (.str "")
      pain_point_2 := jsOrValue d.pain_point_2 (.str "")
      pain_point_3 := jsOrValue d.pain_point_3 (.str "")
      my_wedge := jsOrValue d.my_wedge (.str "")
      how_solve_10x_better := jsOrValue d.how_solve_10x_better (.str "")
      confidence_check := jsOrValue d.confidence_check .null
      go_no_go := jsOrValue d.go_no_go (.str "") }

/-- The state update of `handleFieldChange(field, value)`:
`setFormData({...formData, [field]: value})`, for the nine keys of the form. -/
def setField (formData : ReconFormData) (field : String) (value : JSValue) :
    ReconFormData :=
  if field = "competitors_looked_at" then { formData with competitors_looked_at := value }
  else if field = "where_got_reviews" then { formData with where_got_reviews := value }
  else if field = "pain_point_1" then { formData with pain_point_1 := value }
  else if field = "pain_point_2" then { formData with pain_point_2 := value }
  else if field = "pain_point_3" then { formData with pain_point_3 := value }
  else if field = "my_wedge" then { formData with my_wedge := value }
  else if field = "how_solve_10x_better" then { formData with how_solve_10x_better := value }
  else if field = "confidence_check" then { formData with confidence_check := value }
  else if field = "go_no_go" then { formData with go_no_go := value }
  else formData

/-- What the controls of the recon form can issue: the text of an input, a textarea or
the wedge select, the `parseInt` of the confidence slider, and the two decision
buttons. -/
inductive Control where
  | competitors_looked_at (value : String) : Control
  | where_got_reviews (value : String) : Control
  | pain_point_1 (value : String) : Control
  | pain_point_2 (value : String) : Control
  | pain_point_3 (value : String) : Control
  | my_wedge (value : String) : Control
  | how_solve_10x_better (value : String) : Control
  | confidence_check (value : Int) : Control
  | go : Control
  | noGo : Control
  deriving DecidableEq, Repr

/-- The call of `handleFieldChange` a control makes: the field and the value. -/
def Control.call : Control → String × JSValue
  | .competitors_looked_at v => ("competitors_looked_at", .str v)
  | .where_got_reviews v => ("where_got_reviews", .str v)
  | .pain_point_1 v => ("pain_point_1", .str v)
  | .pain_point_2 v => ("pain_point_2", .str v)
  | .pain_point_3 v => ("pain_point_3", .str v)
  | .my_wedge v => ("my_wedge", .str v)
  | .how_solve_10x_better v => ("how_solve_10x_better", .str v)
  | .confidence_check n => ("confidence_check", .num n)
  | .go => ("go_no_go", .str "go")
  | .noGo => ("go_no_go", .str "no-go")

/-- What changes the form data: the load effect and the controls. -/
inductive FormEvent where
  | loaded (data : Option ReconFormData) : FormEvent
  | control (c : Control) : FormEvent
  deriving DecidableEq, Repr

/-- The form data after an event. -/
def next (formData : ReconFormData) : FormEvent → ReconFormData
  | .loaded data => load data formData
  | .control c => setField formData c.call.1 c.call.2

/-- The form data after a run of events from the initial state. -/
def reach (events : List FormEvent) : ReconFormData :=
  events.foldl next initialFormData

end StepDetailView

/-- No field of the recon form is `undefined`. -/
def ReconFormData.Defined (d : ReconFormData) : Prop :=
  d.competitors_looked_at ≠ .undefined ∧ d.where_got_reviews ≠ .undefined ∧
  d.pain_point_1 ≠ .undefined ∧ d.pain_point_2 ≠ .undefined ∧
  d.pain_point_3 ≠ .undefined ∧ d.my_wedge ≠ .undefined ∧
  d.how_solve_10x_better ≠ .undefined ∧ d.confidence_check ≠ .undefined ∧
  d.go_no_go ≠ .undefined

namespace LandingPageDetailView

/-- The three preset CTA texts. -/
def ctaPresets : List JSValue :=
  [.str "Join the Waitlist (free)", .str "Pre-order Lifetime Access  $49",
   .str "Pre-order Lifetime Access  $79"]

/-- The load effect: `if (data) setFormData({...})`, every field read with
`data.field || ''` (`|| 'Not started'` for `launched_status`), and
`cta_button_text_custom` set to the saved CTA text when that is truthy and no preset.
The argument holds the properties of the response body, `undefined` for one it lacks;
`none` is a falsy body. -/
def load (data : Option LandingFormData) (formData : LandingFormData) : LandingFormData :=
  match data with
  | none => formData
  | some d =>
    let ctaText := jsOrValue d.cta_button_text (.str "")
    { final_headline_chosen := jsOrValue d.final_headline_chosen (.str "")
      headline_variations := jsOrValue d.headline_variations (.str "")
      subheadline := jsOrValue d.subheadline (.str "")
      wedge_statement := jsOrValue d.wedge_statement (.str "")
      cta_button_text := ctaText
      cta_button_text_custom :=
        if !ctaPresets.contains ctaText && truthy ctaText then ctaText else .str ""
      price_shown := jsOrValue d.price_shown (.str "")
      landing_page_url := jsOrValue d.landing_page_url (.str "")
      visual_proof_url := jsOrValue d.visual_proof_url (.str "")
      launched_status := jsOrValue d.launched_status (.str "Not started")
      launch_note := jsOrValue d.launch_note (.str "") }

/-- The state update of `handleFieldChange(field, value)`:
`setFormData({...formData, [field]: value})`, for the eleven keys of the form. -/
def setField (formData : LandingFormData) (field : String) (value : JSValue) :
    LandingFormData :=
  if field = "final_headline_chosen" then { formData with final_headline_chosen := value }
  else if field = "headline_variations" then { formData with headline_variations := value }
  else if field = "subheadline" then { formData with subheadline := value }
  else if field = "wedge_statement" then { formData with wedge_statement := value }
  else if field = "cta_button_text" then { formData with cta_button_text := value }
  else if field = "cta_button_text_custom" then
    { formData with cta_button_text_custom := value }
  else if field = "price_shown" then { formData with price_shown := value }
  else if field = "landing_page_url" then { formData with landing_page_url := value }
  else if field = "visual_proof_url" then { formData with visual_proof_url := value }
  else if field = "launched_status" then { formData with launched_status := value }
  else if field = "launch_note" then { formData with launch_note := value }
  else formData

/-- The three buttons of the 'Launched?' field. -/
inductive LaunchedStatus where
  | notStarted : LaunchedStatus
  | building : LaunchedStatus
  | live : LaunchedStatus
  deriving DecidableEq, Repr

/-- The text of a 'Launched?' button. -/
def LaunchedStatus.text : LaunchedStatus → String
  | .notStarted => "Not started"
  | .building => "Building"
  | .live => "Live"

/-- What the controls of the landing-page form can issue: the text of an input or a
textarea, the chosen option of the CTA select, the text of the custom CTA input, and
one of the three launch buttons. -/
inductive Control where
  | final_headline_chosen (value : String) : Control
  | headline_variations (value : String) : Control
  | subheadline (value : String) : Control
  | wedge_statement (value : String) : Control
  | ctaSelect (value : String) : Control
  | ctaCustom (value : String) : Control
  | price_shown (value : String) : Control
  | landing_page_url (value : String) : Control
  | visual_proof_url (value : String) : Control
  | launched_status (status : LaunchedStatus) : Control
  | launch_note (value : String) : Control
  deriving DecidableEq, Repr

/-- The form data after a control's change handler. All but the custom CTA input call
`handleFieldChange`; the CTA select passes 'Custom' or the option's value, which is
the select's value either way; the custom CTA input sets `cta_button_text` and
`cta_button_text_custom` to its text. -/
def applyControl (formData : LandingFormData) : Control → LandingFormData
  | .final_headline_chosen v => setField formData "final_headline_chosen" (.str v)
  | .headline_variations v => setField formData "headline_variations" (.str v)
  | .subheadline v => setField formData "subheadline" (.str v)
  | .wedge_statement v => setField formData "wedge_statement" (.str v)
  | .ctaSelect v =>
    if v = "Custom" then setField formData "cta_button_text" (.str "Custom")
    else setField formData "cta_button_text" (.str v)
  | .ctaCustom v =>
    { formData with cta_button_text := .str v, cta_button_text_custom := .str v }
  | .price_shown v => setField formData "price_shown" (.str v)
  | .landing_page_url v => setField formData "landing_page_url" (.str v)
  | .visual_proof_url v => setField formData "visual_proof_url" (.str v)
  | .launched_status status => setField formData "launched_status" (.str status.text)
  | .launch_note v => setField formData "launch_note" (.str v)

/-- What changes the form data: the load effect and the controls. -/
inductive FormEvent where
  | loaded (data : Option LandingFormData) : FormEvent
  | control (c : Control) : FormEvent
  deriving DecidableEq, Repr

/-- The form data after an event. -/
def next (formData : LandingFormData) : FormEvent → LandingFormData
  | .loaded data => load data formData
  | .control c => applyControl formData c

/-- The form data after a run of events from the initial state. -/
def reach (events : List FormEvent) : LandingFormData :=
  events.foldl next initialFormData

end LandingPageDetailView

/-- No field of the landing-page form is `undefined`. -/
def LandingFormData.Defined (d : LandingFormData) : Prop :=
  d.final_headline_chosen ≠ .undefined ∧ d.headline_variations ≠ .undefined ∧
  d.subheadline ≠ .undefined ∧ d.wedge_statement ≠ .undefined ∧
  d.cta_button_text ≠ .undefined ∧ d.cta_button_text_custom ≠ .undefined ∧
  d.price_shown ≠ .undefined ∧ d.landing_page_url ≠ .undefined ∧
  d.visual_proof_url ≠ .undefined ∧ d.launched_status ≠ .undefined ∧
  d.launch_note ≠ .undefined

/-- The eleven keys of the landing-page form, in insertion order. -/
def landingKeys : List String :=
  ["final_headline_chosen", "headline_variations", "subheadline", "wedge_statement",
   "cta_button_text", "cta_button_text_custom", "price_shown", "landing_page_url",
   "visual_proof_url", "launched_status", "launch_note"]

/-- The nine keys of the recon form, in insertion order. -/
def reconKeys : List String :=
  ["competitors_looked_at", "where_got_reviews", "pain_point_1", "pain_point_2",
   "pain_point_3", "my_wedge", "how_solve_10x_better", "confidence_check", "go_no_go"]

/-- A `parseFloat` for examples: it reads the numbers and the text '49'. -/
def sampleParseFloat : JSValue → Option Int
  | .num n => some n
  | .str "49" => some 49
  | _ => none

/-! ## fetchWithAuth and the calls of `fetch` -/

/-- The options of a `fetch` call: the method (GET when absent), the headers object
and whether a body is sent. -/
structure FetchOptions where
  method : Option String
  headers : JSObject String
  hasBody : Bool
  deriving DecidableEq, Repr

/-- A call `fetch(url, options)`. -/
structure FetchCall where
  url : String
  options : FetchOptions
  deriving DecidableEq, Repr

/-- What `fetchWithAuth` reads of the sign-in state: whether `supabaseClient` is set,
whether the `user` state is set, and the access token of the session `getSession()`
returns (`none` when it returns no session). -/
structure AuthState where
  supabaseClient : Bool
  user : Bool
  session : Option String
  deriving DecidableEq, Repr

/-- The default `options = {}`. -/
def noOptions : FetchOptions where
  method := none
  headers := []
  hasBody := false

/-- The options `{ method, headers: { 'Content-Type': 'application/json' } }` the
handlers pass, with or without a body. -/
def jsonOptions (method : String) (hasBody : Bool) : FetchOptions where
  method := some method
  headers := [("Content-Type", "application/json")]
  hasBody := hasBody

/-- The helper `fetchWithAuth(url, options)`: the headers are
`{ ...options.headers, 'Content-Type': 'application/json' }`, with
`Authorization: Bearer <access_token>` set when `supabaseClient && user` and
`getSession()` returns a session; the call is `fetch(url, { ...options, headers })`. -/
def fetchWithAuth (auth : AuthState) (url : String) (options : FetchOptions) : FetchCall :=
  let headers := objSet options.headers "Content-Type" "application/json"
  let headers :=
    if auth.supabaseClient && auth.user then
      match auth.session with
      | some accessToken => objSet headers "Authorization" ("Bearer " ++ accessToken)
      | none => headers
    else headers
  { url := url, options := { options with headers := headers } }

/-- A direct call `fetch(url, options)`. -/
def plainFetch (url : String) (options : FetchOptions) : FetchCall :=
  { url := url, options := options }

/-- The call of `fetch` by which the code sends each request. The listings, the idea
creation and the dashboard statistics go through `authFetch`, which is the
`fetchWithAuth` prop; every other request is a direct `fetch`. -/
def issue (auth : AuthState) : Request → FetchCall
  | .promoteIdea ideaId =>
    plainFetch ("/api/app-ideas/" ++ toString ideaId ++ "/promote") (jsonOptions "POST" false)
  | .killProject projectId =>
    plainFetch ("/api/projects/" ++ toString projectId ++ "/kill") (jsonOptions "POST" false)
  | .reviveProject projectId =>
    plainFetch ("/api/projects/" ++ toString projectId ++ "/revive")
      (jsonOptions "POST" false)
  | .deleteProject projectId =>
    plainFetch ("/api/projects/" ++ toString projectId) (jsonOptions "DELETE" false)
  | .generateGamePlan projectId =>
    plainFetch ("/api/projects/" ++ toString projectId ++ "/generate-game-plan")
      (jsonOptions "POST" false)
  | .getGamePlan projectId =>
    plainFetch ("/api/projects/" ++ toString projectId ++ "/game-plan") noOptions
  | .getProject projectId =>
    plainFetch ("/api/projects/" ++ toString projectId) noOptions
  | .saveStepData stepId =>
    plainFetch ("/api/game-plan/" ++ toString stepId ++ "/data") (jsonOptions "POST" true)
  | .loadStepData stepId =>
    plainFetch ("/api/game-plan/" ++ toString stepId ++ "/data") noOptions
  | .updateStepStatus stepId =>
    plainFetch ("/api/game-plan/" ++ toString stepId) (jsonOptions "PUT" true)
  | .updateIdeaStatus ideaId =>
    plainFetch ("/api/app-ideas/" ++ toString ideaId) (jsonOptions "PUT" true)
  | .listProjects => fetchWithAuth auth "/api/projects" noOptions
  | .listIdeas => fetchWithAuth auth "/api/app-ideas" noOptions
  | .createIdea => fetchWithAuth auth "/api/app-ideas" (jsonOptions "POST" true)
  | .dashboardStats => fetchWithAuth auth "/api/dashboard/stats" noOptions

/-- The header `Authorization` of a call, if it has one. -/
def FetchCall.authorization (call : FetchCall) : Option String :=
  (call.options.headers.find? (fun kv => kv.1 == "Authorization")).map Prod.snd

/-- A user signed in with an active session whose access token is 'tok'. -/
def signedIn : AuthState where
  supabaseClient := true
  user := true
  session := some "tok"

/-- The requests the code sends with a direct `fetch`. -/
def Request.isDirect : Request → Bool
  | .listProjects => false
  | .listIdeas => false
  | .createIdea => false
  | .dashboardStats => false
  | _ => true

/-! ## Dashboard: the stage counts -/

/-- The member of an object under a key, if it has one. -/
def objFind {α : Type} (o : JSObject α) (key : String) : Option α :=
  (o.find? (fun kv => kv.1 == key)).map Prod.snd

namespace Dashboard

/-- An entry of the array `stages`: its display name and its key. -/
structure Stage where
  name : String
  key : String
  deriving DecidableEq, Repr

/-- The array `stages`. -/
def stages : List Stage :=
  [{ name := "Smoke Test", key := "smoketest" },
   { name := "Factory Setup", key := "setup" },
   { name := "Build", key := "build" },
   { name := "Launch", key := "launch" },
   { name := "Live", key := "live" },
   { name := "Killed", key := "killed" }]

/-- The function `getStageCounts`: for each stage in turn,
`counts[stage.key] = projects.filter(p => p.current_stage === stage.key).length`. -/
def getStageCounts (projects : List Project) : JSObject Nat :=
  stages.foldl
    (fun counts stage =>
      objSet counts stage.key
        (projects.filter (fun p => p.current_stage == stage.key)).length)
    []

end Dashboard

/-- The six stage keys of the specification. -/
def stageKeys : List String :=
  ["smoketest", "setup", "build", "launch", "live", "killed"]

/-- The number of projects whose `current_stage` equals the key. -/
def projectsInStage (projects : List Project) (key : String) : Nat :=
  projects.countP (fun p => decide (p.current_stage = key))

/-! ## ProjectDetail: the phase list of the overview tab and the phase headers -/

namespace ProjectDetail

/-- An entry of the array `phases`: its key and its display name. -/
structure Phase where
  key : String
  name : String
  deriving DecidableEq, Repr

/-- The array `phases`. -/
def phases : List Phase :=
  [{ key := "smoketest", name := "Smoke Test" },
   { key := "setup", name := "Factory Setup" },
   { key := "build", name := "Build" },
   { key := "launch", name := "Launch" },
   { key := "live", name := "Live" }]

/-- The call `array.findIndex(test)`: the index of the first element that passes, or
-1. -/
def jsFindIndex {α : Type} (test : α → Bool) (array : List α) : Int :=
  if array.findIdx test < array.length then (array.findIdx test : Int) else -1

/-- The constant `currentPhaseIndex`:
`phases.findIndex(p => p.key === project.current_stage)`. -/
def currentPhaseIndex (project : Project) : Int :=
  jsFindIndex (fun p => p.key == project.current_stage) phases

/-- The three looks of a phase circle: the green check, the coloured ring, the grey
icon. -/
inductive PhaseMark where
  | done : PhaseMark
  | current : PhaseMark
  | pending : PhaseMark
  deriving DecidableEq, Repr

/-- The look of the phase at `index`: done when `index < currentPhaseIndex`, current
when `index === currentPhaseIndex`, pending otherwise. -/
def phaseMark (project : Project) (index : Nat) : PhaseMark :=
  if (index : Int) < currentPhaseIndex project then .done
  else if (index : Int) = currentPhaseIndex project then .current
  else .pending

/-- The constant `phaseSteps` of a phase header:
`gamePlan.filter(s => s.category === phase.key)`, mapped to cards in this order. -/
def phaseSteps (gamePlan : List GamePlanStep) (key : String) : List GamePlanStep :=
  gamePlan.filter (fun s => s.category == key)

/-- The constant `completedSteps`:
`phaseSteps.filter(s => s.status === 'completed').length`. -/
def completedSteps (gamePlan : List GamePlanStep) (key : String) : Nat :=
  ((phaseSteps gamePlan key).filter (fun s => s.status == "completed")).length

/-- The constant `totalSteps`: `phaseSteps.length`. -/
def totalSteps (gamePlan : List GamePlanStep) (key : String) : Nat :=
  (phaseSteps gamePlan key).length

/-- The constant `isPhaseComplete`:
`completedSteps === totalSteps && totalSteps > 0`. -/
def isPhaseComplete (gamePlan : List GamePlanStep) (key : String) : Bool :=
  completedSteps gamePlan key == totalSteps gamePlan key &&
    decide (totalSteps gamePlan key > 0)

end ProjectDetail

/-- A received game plan whose two steps of phase 1 come with `step_number` 2 before
`step_number` 1. -/
def unorderedGamePlan : List GamePlanStep :=
  [landingStep, reconStep]

/-! ## The core behind the API, after the specification

The backend that answers the requests is not among the sources. The definitions of
this section follow sections 3 and 4 of the specification. -/

/-- Modelled from the spec: an ActivityEvent of the Activity Log, whose backend code is
not among the sources; `occurred_at` is the calendar day, as a day number. -/
structure ActivityEvent where
  id : Nat
  subject_id : Nat
  kind : String
  occurred_at : Nat
  deriving DecidableEq, Repr

/-- Modelled from the spec: a row of the Blueprint Generator's template table, which is
not among the sources: the stable category, step number, title, description,
estimated hours, gate flag and kind tag of a step. -/
structure StepTemplate where
  category : String
  step_number : Nat
  title : String
  description : String
  estimated_hours : Nat
  is_gate : Bool
  kind : Option StepKind
  deriving DecidableEq, Repr

/-- Modelled from the spec: the entities the persistent storage holds, which is not
among the sources: ideas, projects, game-plan steps, the step-detail data by step id,
the activity log, and the next free id. -/
structure Store where
  ideas : List Idea
  projects : List Project
  steps : List GamePlanStep
  stepData : List (Nat × JSObject JSValue)
  events : List ActivityEvent
  nextId : Nat
  deriving DecidableEq, Repr

/-- Modelled from the spec: the error taxonomy of section 7, of the backend that is not
among the sources. -/
inductive CoreError where
  | NotFound : CoreError
  | Conflict : CoreError
  | InvalidState : CoreError
  | ValidationError : CoreError
  deriving DecidableEq, Repr

/-- Modelled from the spec: a step made from a template row for a project, in the
template's initial state, pending; part of the Blueprint Generator, which is not among
the sources. -/
def StepTemplate.instantiate (t : StepTemplate) (id projectId : Nat) : GamePlanStep where
  id := id
  project_id := projectId
  category := t.category
  step_number := t.step_number
  title := t.title
  description := t.description
  status := "pending"
  estimated_hours := t.estimated_hours
  is_gate := t.is_gate
  kind := t.kind

/-- Modelled from the spec: `generate(project)` of the Blueprint Generator, which is
not among the sources. The project's steps and their step-detail data are replaced
wholesale by the steps of the template table, all pending; nothing of the project but
its id is read. -/
def generate (template : List StepTemplate) (store : Store) (projectId : Nat) : Store :=
  { store with
    steps := store.steps.filter (fun s => s.project_id != projectId) ++
      template.enum.map (fun it => it.2.instantiate (store.nextId + it.1) projectId),
    stepData := store.stepData.filter (fun sd =>
      (store.steps.filter (fun s => s.project_id != projectId)).any
        (fun s => s.id == sd.1)),
    nextId := store.nextId + template.length }

/-- Modelled from the spec: the step collection of a project in the storage, which is
not among the sources. -/
def Store.stepsOf (store : Store) (projectId : Nat) : List GamePlanStep :=
  store.steps.filter (fun s => s.project_id == projectId)

/-- Modelled from the spec: `promote(idea)` of the Stage Machine, which is not among
the sources. It fails with NotFound for an unknown id and with Conflict when
`promoted_project_id` is already set; otherwise it creates a project at SmokeTest,
sets the idea's status to Planning, links the two ids both ways, appends an
ActivityEvent and requests blueprint generation. The result is the store afterwards
and the new project's id or the error. -/
def promote (template : List StepTemplate) (today : Nat) (store : Store) (ideaId : Nat) :
    Store × Except CoreError Nat :=
  match store.ideas.find? (fun i => i.id == ideaId) with
  | none => (store, .error .NotFound)
  | some idea =>
    if idea.promoted_project_id.isSome then (store, .error .Conflict)
    else
      (generate template
        { store with
          ideas := store.ideas.map (fun i =>
            if i.id == ideaId then
              { i with status := "Planning", promoted_project_id := some store.nextId }
            else i),
          projects := store.projects ++
            [{ id := store.nextId, app_idea_id := some ideaId, name := idea.name,
               current_stage := "smoketest", progress := 0, current_mrr := 0,
               target_mrr := 0 }],
          events := store.events ++
            [{ id := store.nextId + 1, subject_id := ideaId, kind := "idea_promoted",
               occurred_at := today }],
          nextId := store.nextId + 2 }
        store.nextId,
       .ok store.nextId)

/-- Modelled from the spec: the number of projects that reference an idea as promoted,
in the storage that is not among the sources. -/
def Store.projectsOfIdea (store : Store) (ideaId : Nat) : Nat :=
  store.projects.countP (fun p => p.app_idea_id == some ideaId)

/-- Modelled from the spec: the invariant that at most one project references an idea
as promoted, and one does exactly when the idea's `promoted_project_id` is set; for
the storage that is not among the sources. -/
def Store.Linked (store : Store) : Prop :=
  ∀ ideaId idea, store.ideas.find? (fun i => i.id == ideaId) = some idea →
    store.projectsOfIdea ideaId = if idea.promoted_project_id.isSome then 1 else 0

/-- Modelled from the spec: the distinct active days of an activity history, a day
being active when it has at least one ActivityEvent; part of the Metrics Aggregator,
which is not among the sources. -/
def activeDays (events : List ActivityEvent) : List Nat :=
  (events.map (fun e => e.occurred_at)).dedup

/-- Modelled from the spec: `consistency_score` of the Metrics Aggregator, which is not
among the sources: round(distinct_active_days / days_elapsed_in_year × 100). -/
def consistencyScore (events : List ActivityEvent) (daysElapsedInYear : Nat) : ℤ :=
  round (((activeDays events).length : ℚ) / (daysElapsedInYear : ℚ) * 100)

/-- The statistics object of `GET /api/dashboard/stats`, of which the consistency card
reads `consistency_score`, `days_active` and `days_in_year`. -/
structure DashboardStats where
  consistency_score : Int
  days_active : Nat
  days_in_year : Nat
  deriving DecidableEq, Repr

/-- The number the consistency card shows: `stats?.consistency_score || 0`. -/
def Dashboard.consistencyShown (stats : Option DashboardStats) : Int :=
  match stats with
  | none => 0
  | some st => if st.consistency_score ≠ 0 then st.consistency_score else 0

/-- A template table of three rows, for examples. -/
def sampleTemplate : List StepTemplate :=
  [{ category := "phase1_smoketest", step_number := 1, title := "Deep Competitive Recon",
     description := "Read the reviews", estimated_hours := 3, is_gate := false,
     kind := some .recon },
   { category := "phase1_smoketest", step_number := 2,
     title := "Build Facade Landing Page", description := "Ship the page",
     estimated_hours := 4, is_gate := false, kind := some .landing_page },
   { category := "phase1_smoketest", step_number := 3,
     title := "GATE CHECK: 10+ signups or 1 pre-sale", description := "Go or no-go",
     estimated_hours := 0, is_gate := true, kind := none }]

/-- An idea in research, never promoted. -/
def freshIdea : Idea where
  id := 4
  name := "FormFiller"
  status := "Researching"
  problem_to_solve := "Forms are slow"
  competitor_url := ""
  competitor_mrr := none
  validation_notes := ""
  my_angle := ""
  promoted_project_id := none

/-- A storage that holds the one idea `freshIdea` and nothing else. -/
def sampleStore : Store where
  ideas := [freshIdea]
  projects := []
  steps := []
  stepData := []
  events := []
  nextId := 10

/-- An activity history of twelve events on ten distinct days. -/
def sampleHistory : List ActivityEvent :=
  [{ id := 1, subject_id := 4, kind := "idea_created", occurred_at := 3 },
   { id := 2, subject_id := 4, kind := "idea_promoted", occurred_at := 3 },
   { id := 3, subject_id := 10, kind := "step_completed", occurred_at := 5 },
   { id := 4, subject_id := 10, kind := "step_completed", occurred_at := 8 },
   { id := 5, subject_id := 10, kind := "step_completed", occurred_at := 13 },
   { id := 6, subject_id := 10, kind := "step_completed", occurred_at := 21 },
   { id := 7, subject_id := 10, kind := "step_completed", occurred_at := 34 },
   { id := 8, subject_id := 10, kind := "project_killed", occurred_at := 55 },
   { id := 9, subject_id := 10, kind := "project_revived", occurred_at := 55 },
   { id := 10, subject_id := 10, kind := "step_completed", occurred_at := 89 },
   { id := 11, subject_id := 10, kind := "step_completed", occurred_at := 144 },
   { id := 12, subject_id := 10, kind := "step_completed", occurred_at := 233 }]

/-! ## The Log New Idea form -/

/-- The `formData` state of `LogNewIdeaModal`: the texts of its inputs. -/
structure IdeaFormData where
  name : String
  problem_to_solve : String
  competitor_url : String
  competitor_mrr : String
  validation_notes : String
  my_angle : String
  status : String
  deriving DecidableEq, Repr

namespace DiscoverIdeas

/-- How the promise of `handleCreateIdea` settles: `none` when it resolves, the
message of the error it rethrows when it rejects; with the effects on the way. -/
structure CreateOutcome where
  rejected : Option String
  effects : List Effect
  deriving DecidableEq, Repr

/-- The `catch` block of `handleCreateIdea`, for an error with message `m`: it logs,
alerts and rethrows. -/
def createCatch (m : String) : CreateOutcome where
  rejected := some m
  effects := [.consoleError "Error creating idea:" m, .alert ("Error saving idea: " ++ m)]

/-- The handler `handleCreateIdea`, after its `authFetch` call, given how the request
settles. A response that is not OK throws the body's `message`, or 'Failed to save
idea'. -/
def handleCreateIdea (result : FetchResult) : CreateOutcome :=
  let settled : CreateOutcome :=
    match result with
    | .response res =>
      if !res.ok then
        match res.json with
        | .resolved err => createCatch (jsOr err.message "Failed to save idea")
        | .rejected m => createCatch m
      else
        match res.json with
        | .resolved _ =>
          { rejected := none,
            effects := [.consoleLog "Idea saved successfully:", .request .listIdeas,
                        .setShowModal false, .alert "Idea saved successfully!"] }
        | .rejected m => createCatch m
    | .rejected m => createCatch m
  { settled with effects := .request .createIdea :: settled.effects }

end DiscoverIdeas

namespace LogNewIdeaModal

/-- The initial `useState` value of `formData`, also the value of the reset. -/
def initialFormData : IdeaFormData where
  name := ""
  problem_to_solve := ""
  competitor_url := ""
  competitor_mrr := ""
  validation_notes := ""
  my_angle := ""
  status := "Researching"

/-- The state of the form, with the `showModal` state of `DiscoverIdeas` that mounts
it. -/
structure State where
  formData : IdeaFormData
  isSubmitting : Bool
  showModal : Bool
  deriving DecidableEq, Repr

/-- The state after an effect: `setShowModal` writes `showModal`. -/
def State.apply (s : State) : Effect → State
  | .setShowModal value => { s with showModal := value }
  | _ => s

/-- The handler `handleSubmit`, with `onSave` being `handleCreateIdea`:
`setIsSubmitting(true)`, then `await onSave(submitData)` followed by the reset of the
form; a rejection is caught and logged; `finally` `setIsSubmitting(false)`. The result
is the state at the end and the effects. -/
def handleSubmit (s : State) (result : FetchResult) : State × List Effect :=
  let submitting := { s with isSubmitting := true }
  let saved := DiscoverIdeas.handleCreateIdea result
  let afterSave := saved.effects.foldl State.apply submitting
  match saved.rejected with
  | none =>
    ({ afterSave with formData := initialFormData, isSubmitting := false }, saved.effects)
  | some m =>
    ({ afterSave with isSubmitting := false },
     saved.effects ++ [.consoleError "Error in form submission:" m])

end LogNewIdeaModal

/-- A Log New Idea form filled in, with the modal open. -/
def filledIdeaForm : LogNewIdeaModal.State where
  formData := { name := "ReplyRocket", problem_to_solve := "Answering reviews takes hours",
                competitor_url := "example.com", competitor_mrr := "12000",
                validation_notes := "", my_angle := "", status := "Researching" }
  isSubmitting := false
  showModal := true

/-! ## The recon form data as an object -/

namespace StepDetailView

/-- The object `useState` starts `formData` with. -/
def initialObject : JSObject JSValue :=
  [("competitors_looked_at", .str ""), ("where_got_reviews", .str ""),
   ("pain_point_1", .str ""), ("pain_point_2", .str ""), ("pain_point_3", .str ""),
   ("my_wedge", .str ""), ("how_solve_10x_better", .str ""),
   ("confidence_check", .null), ("go_no_go", .str "")]

/-- The load effect on the object: `if (data) setFormData({...})`, the object literal
of nine members read from `data`. -/
def loadObject (data : Option (JSObject JSValue)) (formData : JSObject JSValue) :
    JSObject JSValue :=
  match data with
  | none => formData
  | some d =>
    [("competitors_looked_at", jsOrValue (objGet d "competitors_looked_at") (.str "")),
     ("where_got_reviews", jsOrValue (objGet d "where_got_reviews") (.str "")),
     ("pain_point_1", jsOrValue (objGet d "pain_point_1") (.str "")),
     ("pain_point_2", jsOrValue (objGet d "pain_point_2") (.str "")),
     ("pain_point_3", jsOrValue (objGet d "pain_point_3") (.str "")),
     ("my_wedge", jsOrValue (objGet d "my_wedge") (.str "")),
     ("how_solve_10x_better", jsOrValue (objGet d "how_solve_10x_better") (.str "")),
     ("confidence_check", jsOrValue (objGet d "confidence_check") .null),
     ("go_no_go", jsOrValue (objGet d "go_no_go") (.str ""))]

/-- The state update of `handleFieldChange(field, value)` on the object:
`{...formData, [field]: value}`, for any field name. -/
def handleFieldChangeObject (formData : JSObject JSValue) (field : String)
    (value : JSValue) : JSObject JSValue :=
  objSet formData field value

/-- What changes the object: the load effect, with the response body as an object, and
the controls. -/
inductive ObjectEvent where
  | loaded (data : Option (JSObject JSValue)) : ObjectEvent
  | control (c : Control) : ObjectEvent
  deriving DecidableEq, Repr

/-- The object after an event. -/
def nextObject (formData : JSObject JSValue) : ObjectEvent → JSObject JSValue
  | .loaded data => loadObject data formData
  | .control c => handleFieldChangeObject formData c.call.1 c.call.2

/-- The object after a run of events from the initial one. -/
def reachObject (events : List ObjectEvent) : JSObject JSValue :=
  events.foldl nextObject initialObject

/-- The constant `filledCount` of an object:
`Object.values(formData).filter(v => v !== '' && v !== null).length`. -/
def objectFilledCount (formData : JSObject JSValue) : Nat :=
  ((formData.map Prod.snd).filter isFilled).length

/-- The constant `completionPercent` of an object. -/
def objectCompletionPercent (formData : JSObject JSValue) : ℤ :=
  mathRound (((objectFilledCount formData : ℚ) / (totalFields : ℚ)) * 100)

end StepDetailView

/-- The event on the object that an event on the record of nine fields stands for. -/
def StepDetailView.FormEvent.onObject : StepDetailView.FormEvent → StepDetailView.ObjectEvent
  | .loaded data => .loaded (data.map StepDetailView.toObject)
  | .control c => .control c

/-! ## A field change and the autosave it schedules -/

/-- What a call of `handleFieldChange` in a render leaves behind: the form data
`setFormData` gives the next render, and the body the scheduled autosave will send. -/
structure FieldChange (α : Type) where
  nextFormData : α
  autoSaveBody : JSObject JSValue
  deriving DecidableEq, Repr

/-- The handler `handleFieldChange(field, value)` of the recon form, in a render whose
state is `formData`. It calls `setFormData({...formData, [field]: value})` and starts
the timer with the callback `() => handleSave(false)`. That `handleSave` is the one of
this render, so the `formData` it stringifies is this render's. -/
def StepDetailView.handleFieldChange (formData : ReconFormData) (field : String)
    (value : JSValue) : FieldChange ReconFormData where
  nextFormData := StepDetailView.setField formData field value
  autoSaveBody := StepDetailView.saveBody formData

/-- The handler `handleFieldChange(field, value)` of the landing-page form, in a render
whose state is `formData`; as in the recon form, the timer's callback calls the
`handleSave` of this render. -/
def LandingPageDetailView.handleFieldChange (parseFloat : JSValue → Option Int)
    (formData : LandingFormData) (field : String) (value : JSValue) :
    FieldChange LandingFormData where
  nextFormData := LandingPageDetailView.setField formData field value
  autoSaveBody := LandingPageDetailView.saveBody parseFloat formData

/-- The change handler of the custom CTA input of the landing-page form, in a render
whose state is `formData`: it sets both CTA fields and starts the same timer. -/
def LandingPageDetailView.customCtaChange (parseFloat : JSValue → Option Int)
    (formData : LandingFormData) (value : String) : FieldChange LandingFormData where
  nextFormData :=
    { formData with cta_button_text := .str value, cta_button_text_custom := .str value }
  autoSaveBody := LandingPageDetailView.saveBody parseFloat formData

/-! ## Landing-page form states when the saved data is the form's own -/

/-- Modelled from the spec: the step-detail data the server returns for a step is the
full body of the last save of it, the storage not being among the sources: the form's
fields as sent, `price_shown` as the number or null that was sent. -/
def LandingPageDetailView.savedData (parseFloat : JSValue → Option Int)
    (saved : LandingFormData) : LandingFormData :=
  { saved with price_shown := LandingPageDetailView.priceToSend parseFloat saved }

/-- Modelled from the spec: the step-detail data of a step never saved, created lazily
on first save, the storage not being among the sources: an object with none of the
form's properties. -/
def LandingPageDetailView.unsavedData : LandingFormData where
  final_headline_chosen := .undefined
  headline_variations := .undefined
  subheadline := .undefined
  wedge_statement := .undefined
  cta_button_text := .undefined
  cta_button_text_custom := .undefined
  price_shown := .undefined
  landing_page_url := .undefined
  visual_proof_url := .undefined
  launched_status := .undefined
  launch_note := .undefined

/-- The form states reachable from the initial state by the form's own controls and by
loading saved data: the data of a step never saved, a falsy body, or the body of a
save made from a reachable state. -/
inductive LandingPageDetailView.Session (parseFloat : JSValue → Option Int) :
    LandingFormData → Prop where
  | initial : Session parseFloat LandingPageDetailView.initialFormData
  | control (formData : LandingFormData) (c : LandingPageDetailView.Control) :
    Session parseFloat formData →
    Session parseFloat (LandingPageDetailView.applyControl formData c)
  | loadedNothing (formData : LandingFormData) :
    Session parseFloat formData →
    Session parseFloat (LandingPageDetailView.load none formData)
  | loadedUnsaved (formData : LandingFormData) :
    Session parseFloat formData →
    Session parseFloat
      (LandingPageDetailView.load (some LandingPageDetailView.unsavedData) formData)
  | loadedSaved (formData saved : LandingFormData) :
    Session parseFloat formData → Session parseFloat saved →
    Session parseFloat
      (LandingPageDetailView.load
        (some (LandingPageDetailView.savedData parseFloat saved)) formData)

/-- The three texts `launched_status` can be set to by the 'Launched?' buttons; the
first is also the initial one. -/
def IsLaunchedStatus (v : JSValue) : Prop :=
  v = .str "Not started" ∨ v = .str "Building" ∨ v = .str "Live"

/-- A record of step-detail data whose `launched_status` is two spaces, which no save
of the form can have written. -/
def foreignLandingData : LandingFormData :=
  { LandingPageDetailView.unsavedData with launched_status := .str "  " }

/-! ## ProjectDetail: the detail view of the game-plan tab -/

/-- The detail component the game-plan tab renders and the step it renders it for:
the first branch of `activeTab === 'gameplan' && selectedStep ? ... : ...`. -/
def ProjectDetail.renderedDetail (s : ProjectDetail.State) :
    Option (ProjectDetail.DetailView × GamePlanStep) :=
  if s.activeTab == .gameplan then
    s.selectedStep.map (fun selected => (ProjectDetail.detailView selected, selected))
  else none

/-- Every selected step has a detail view. -/
def ProjectDetail.SelectedHasDetail (s : ProjectDetail.State) : Prop :=
  ∀ selected, s.selectedStep = some selected → ProjectDetail.hasDetailView selected = true

/-! ## LandingPageDetailView: the CTA dropdown -/

namespace LandingPageDetailView

/-- The `value` of the CTA select:
`cta && presets.includes(cta) ? cta : (cta ? 'Custom' : '')`. -/
def ctaSelectValue (cta : JSValue) : JSValue :=
  if truthy cta && ctaPresets.contains cta then cta
  else if truthy cta then .str "Custom" else .str ""

/-- The condition under which the custom CTA input is rendered:
`cta === 'Custom' || (cta && !presets.includes(cta))`. -/
def customInputShown (cta : JSValue) : Bool :=
  cta == .str "Custom" || (truthy cta && !ctaPresets.contains cta)

/-- The values of the five options of the CTA select. -/
def ctaOptions : List JSValue :=
  [.str "", .str "Join the Waitlist (free)", .str "Pre-order Lifetime Access  $49",
   .str "Pre-order Lifetime Access  $79", .str "Custom"]

end LandingPageDetailView

end SaasWorkflow

namespace SaasWorkflow

/-! ## Strings -/

theorem jsTrimChars_eq_nil_iff (cs : List Char) :
    jsTrimChars cs = [] ↔ ∀ c ∈ cs, jsIsWhiteSpace c = true := by
  unfold jsTrimChars
  rw [List.reverse_eq_nil_iff, List.dropWhile_eq_nil_iff]
  constructor
  · intro h
    have hnil : cs.dropWhile jsIsWhiteSpace = [] := by
      by_contra hne
      have hhead := List.head_dropWhile_not jsIsWhiteSpace cs hne
      have hmem : (cs.dropWhile jsIsWhiteSpace).head hne ∈
          (cs.dropWhile jsIsWhiteSpace).reverse :=
        List.mem_reverse.mpr (List.head_mem hne)
      have := h _ hmem
      simp [hhead] at this
    exact List.dropWhile_eq_nil_iff.mp hnil
  · intro h
    have hnil : cs.dropWhile jsIsWhiteSpace = [] := List.dropWhile_eq_nil_iff.mpr h
    simp [hnil]

theorem jsTrim_eq_empty_iff (s : String) : jsTrim s = "" ↔ IsBlank s := by
  unfold jsTrim IsBlank
  rw [← jsTrimChars_eq_nil_iff]
  constructor
  · intro h
    have := congrArg String.data h
    simpa using this
  · intro h
    rw [h]

/-! ## Landing-page completion -/

open LandingPageDetailView in
theorem landing_isFilled_iff (v : JSValue) : isFilled v = true ↔ LandingFilled v := by
  cases v <;> simp [isFilled, LandingFilled, jsTrim_eq_empty_iff]

open LandingPageDetailView in
theorem landing_filledCount_eq_filter (formData : LandingFormData) :
    filledCount formData = ((requiredValues formData).filter isFilled).length := by
  have h : requiredFields.map (getField formData) = requiredValues formData := by
    simp [requiredFields, requiredValues, getField]
  rw [← h, List.filter_map, List.length_map]
  rfl

open LandingPageDetailView in
theorem landing_filledCount_eq_spec (formData : LandingFormData) :
    filledCount formData = specLandingFilledCount formData := by
  rw [landing_filledCount_eq_filter, specLandingFilledCount]
  congr 1
  apply List.filter_congr
  intro v _
  rw [Bool.eq_iff_iff, landing_isFilled_iff]
  simp

open LandingPageDetailView in
theorem landing_filledCount_le (formData : LandingFormData) : filledCount formData ≤ 8 := by
  rw [landing_filledCount_eq_filter]
  exact (List.length_filter_le _ _).trans (by simp [requiredValues])

end SaasWorkflow

namespace SaasWorkflow

/-! ## Claims on the completion percentages -/

theorem mathRound_eq_round (x : ℚ) : mathRound x = round x := by
  rw [mathRound, round_eq]

/-- C1. For every landing-page form state, `completionPercent` is
round(filledCount / 8 × 100), where filledCount is the number of the eight required
fields whose value is neither null/undefined nor a blank string; eight filled fields
give 100 and exactly four give 50. -/
theorem landing_completionPercent_spec (formData : LandingFormData) :
    LandingPageDetailView.completionPercent formData = specLandingCompletion formData ∧
    (specLandingFilledCount formData = 8 →
      LandingPageDetailView.completionPercent formData = 100) ∧
    (specLandingFilledCount formData = 4 →
      LandingPageDetailView.completionPercent formData = 50) := by
  have h : LandingPageDetailView.completionPercent formData =
      round ((specLandingFilledCount formData : ℚ) / 8 * 100) := by
    rw [LandingPageDetailView.completionPercent, mathRound_eq_round,
      landing_filledCount_eq_spec]
    simp [LandingPageDetailView.totalFields]
  refine ⟨h, ?_, ?_⟩
  · intro h8
    rw [h, h8, round_eq]
    norm_num
  · intro h4
    rw [h, h4, round_eq]
    norm_num

/-- The landing-page claim at two concrete forms: all eight required fields filled is
100 percent, four of them (the rest empty, white space or null) is 50 percent. -/
theorem landing_completionPercent_spec_witness :
    specLandingFilledCount landingAllFilled = 8 ∧
    LandingPageDetailView.completionPercent landingAllFilled = 100 ∧
    specLandingFilledCount landingHalfFilled = 4 ∧
    LandingPageDetailView.completionPercent landingHalfFilled = 50 :=
  ⟨by decide,
   (landing_completionPercent_spec landingAllFilled).2.1 (by decide),
   by decide,
   (landing_completionPercent_spec landingHalfFilled).2.2 (by decide)⟩

theorem recon_isFilled_iff (v : JSValue) :
    StepDetailView.isFilled v = true ↔ ReconFilled v := by
  simp [StepDetailView.isFilled, ReconFilled]

theorem recon_length_filter_singleton (v : JSValue) :
    ([v].filter StepDetailView.isFilled).length = reconUnit v := by
  by_cases h : ReconFilled v
  · have h1 := (recon_isFilled_iff v).mpr h
    simp [reconUnit, h, h1]
  · have h1 : StepDetailView.isFilled v = false := by
      rw [← Bool.not_eq_true, recon_isFilled_iff]
      exact h
    simp [reconUnit, h, h1]

theorem recon_length_filter_cons (v : JSValue) (vs : List JSValue) :
    ((v :: vs).filter StepDetailView.isFilled).length =
      reconUnit v + (vs.filter StepDetailView.isFilled).length := by
  have h : v :: vs = [v] ++ vs := rfl
  rw [h, List.filter_append, List.length_append, recon_length_filter_singleton]

theorem recon_filledCount_eq_spec (formData : ReconFormData) :
    StepDetailView.filledCount formData = specReconFilledCount formData := by
  simp only [StepDetailView.filledCount, StepDetailView.objectValues,
    recon_length_filter_cons, specReconFilledCount, List.filter_nil,
    List.length_nil]
  omega

/-- C2. For every recon form state, `completionPercent` is
round(filledCount / 9 × 100), where filledCount is the number of the nine recon
fields holding a non-empty, non-null value. -/
theorem recon_completionPercent_spec (formData : ReconFormData) :
    StepDetailView.completionPercent formData = specReconCompletion formData := by
  rw [StepDetailView.completionPercent, mathRound_eq_round,
    recon_filledCount_eq_spec, specReconCompletion]
  simp [StepDetailView.totalFields]

/-- C3. The landing-page completion percentage does not depend on the optional
fields: two form states that agree on the eight required fields have the same
`completionPercent`, whatever their `launch_note`, `cta_button_text_custom` and
`price_shown` are. -/
theorem landing_completionPercent_optional_independent (a b : LandingFormData)
    (h : AgreeOnRequired a b) :
    LandingPageDetailView.completionPercent a =
      LandingPageDetailView.completionPercent b := by
  obtain ⟨h1, h2, h3, h4, h5, h6, h7, h8⟩ := h
  have hv : LandingPageDetailView.requiredValues a =
      LandingPageDetailView.requiredValues b := by
    simp [LandingPageDetailView.requiredValues, h1, h2, h3, h4, h5, h6, h7, h8]
  rw [LandingPageDetailView.completionPercent, LandingPageDetailView.completionPercent,
    landing_filledCount_eq_filter,
    landing_filledCount_eq_filter, hv]

/-- The independence claim at two forms that differ in exactly the three optional
fields. -/
theorem landing_completionPercent_optional_independent_witness :
    AgreeOnRequired landingHalfFilled landingHalfFilledOther ∧
    landingHalfFilled.launch_note ≠ landingHalfFilledOther.launch_note ∧
    landingHalfFilled.cta_button_text_custom ≠
      landingHalfFilledOther.cta_button_text_custom ∧
    landingHalfFilled.price_shown ≠ landingHalfFilledOther.price_shown ∧
    LandingPageDetailView.completionPercent landingHalfFilled =
      LandingPageDetailView.completionPercent landingHalfFilledOther :=
  ⟨⟨rfl, rfl, rfl, rfl, rfl, rfl, rfl, rfl⟩, by decide, by decide, by decide,
   landing_completionPercent_optional_independent _ _
     ⟨rfl, rfl, rfl, rfl, rfl, rfl, rfl, rfl⟩⟩

/-! ## Claims on the project and idea views -/

/-- C4, as the code has it. How the project detail view treats a step (gate card,
recon form, landing-page form, plain checklist item) is a function of the step's title
text alone: two steps with the same title are classified alike and a click on them
opens the same component, whatever their `is_gate` flag, kind tag and other
attributes are. -/
theorem classify_determined_by_title (a b : GamePlanStep) (h : a.title = b.title) :
    ProjectDetail.classify a = ProjectDetail.classify b ∧
    ProjectDetail.isGate a = ProjectDetail.isGate b ∧
    ProjectDetail.hasDetailView a = ProjectDetail.hasDetailView b ∧
    ProjectDetail.detailView a = ProjectDetail.detailView b := by
  have hg : ProjectDetail.isGate a = ProjectDetail.isGate b := by
    simp [ProjectDetail.isGate, h]
  have hd : ProjectDetail.hasDetailView a = ProjectDetail.hasDetailView b := by
    simp [ProjectDetail.hasDetailView, ProjectDetail.isGate, h]
  have hv : ProjectDetail.detailView a = ProjectDetail.detailView b := by
    simp [ProjectDetail.detailView, h]
  refine ⟨?_, hg, hd, hv⟩
  unfold ProjectDetail.classify ProjectDetail.stepClick
  rw [hg, hd]
  by_cases h1 : ProjectDetail.isGate b = true
  · simp [h1]
  · by_cases h2 : ProjectDetail.hasDetailView b = true
    · simp [h1, h2, hv]
    · simp [h1, h2]

/-- Two steps that share a title and nothing else, not even the gate flag and the kind
tag, are both shown as recon forms. -/
theorem classify_determined_by_title_witness :
    reconStep.title = reconTitledGate.title ∧
    reconStep.is_gate ≠ reconTitledGate.is_gate ∧
    reconStep.kind ≠ reconTitledGate.kind ∧
    ProjectDetail.classify reconStep = .reconForm ∧
    ProjectDetail.classify reconStep = ProjectDetail.classify reconTitledGate :=
  ⟨rfl, by decide, by decide, by decide,
   (classify_determined_by_title reconStep reconTitledGate rfl).1⟩

/-- C4, as stated, fails: four steps with the same `is_gate` flag, the same kind tag
and the same other attributes, differing only in title, are classified in four
different ways. -/
theorem classify_not_determined_by_attributes :
    gateStepRetitled = { gateStep with title := gateStepRetitled.title } ∧
    gateStepFacade = { gateStep with title := gateStepFacade.title } ∧
    gateStepPlain = { gateStep with title := gateStepPlain.title } ∧
    gateStep.is_gate = true ∧ gateStep.kind = none ∧
    ProjectDetail.classify gateStep = .gate ∧
    ProjectDetail.classify gateStepRetitled = .reconForm ∧
    ProjectDetail.classify gateStepFacade = .landingPageForm ∧
    ProjectDetail.classify gateStepPlain = .checklist := by
  refine ⟨rfl, rfl, rfl, rfl, rfl, ?_, ?_, ?_, ?_⟩ <;> decide

theorem isKilled_iff (project : Project) :
    ProjectDetail.isKilled project = true ↔ project.current_stage = "killed" := by
  simp [ProjectDetail.isKilled]

theorem request_mem_handleReviveProject (project : Project) (c : Bool) (r : FetchResult)
    (q : Request) (h : Effect.request q ∈ ProjectDetail.handleReviveProject project c r) :
    q = .reviveProject project.id := by
  unfold ProjectDetail.handleReviveProject at h
  cases c <;> rcases r with ⟨ok, (_ | _)⟩ | _ <;> simp_all

theorem request_mem_handleKillProject (project : Project) (c : Bool) (r : FetchResult)
    (q : Request) (h : Effect.request q ∈ ProjectDetail.handleKillProject project c r) :
    q = .killProject project.id := by
  unfold ProjectDetail.handleKillProject at h
  cases c <;> rcases r with ⟨ok, (_ | _)⟩ | _ <;> simp_all

theorem request_mem_handleDeleteProject (project : Project) (c : Bool) (r : FetchResult)
    (q : Request) (h : Effect.request q ∈ ProjectDetail.handleDeleteProject project c r) :
    q = .deleteProject project.id := by
  unfold ProjectDetail.handleDeleteProject at h
  cases c <;> rcases r with ⟨ok, (_ | _)⟩ | _ <;> simp_all

/-- C5. For every project the header offers Revive if and only if
`project.current_stage` is 'killed' and Kill if and only if it is not, so exactly one
of the two is offered; and no click on the header sends a revive request for a project
that is not killed, nor a kill request for one that is. -/
theorem header_offers_revive_xor_kill (project : Project) :
    (ProjectDetail.HeaderButton.reviveProject ∈ ProjectDetail.headerButtons project ↔
      project.current_stage = "killed") ∧
    (ProjectDetail.HeaderButton.killProject ∈ ProjectDetail.headerButtons project ↔
      project.current_stage ≠ "killed") ∧
    (ProjectDetail.HeaderButton.reviveProject ∈ ProjectDetail.headerButtons project ↔
      ProjectDetail.HeaderButton.killProject ∉ ProjectDetail.headerButtons project) ∧
    (∀ button confirmAnswer result id,
      Effect.request (.reviveProject id) ∈
          ProjectDetail.headerClick project button confirmAnswer result →
        project.current_stage = "killed") ∧
    (∀ button confirmAnswer result id,
      Effect.request (.killProject id) ∈
          ProjectDetail.headerClick project button confirmAnswer result →
        project.current_stage ≠ "killed") := by
  have hk := isKilled_iff project
  by_cases h : ProjectDetail.isKilled project = true
  · have hs := hk.mp h
    refine ⟨?_, ?_, ?_, ?_, ?_⟩
    · simp [ProjectDetail.headerButtons, h, hs]
    · simp [ProjectDetail.headerButtons, h, hs]
    · simp [ProjectDetail.headerButtons, h]
    · intro _ _ _ _ _
      exact hs
    · intro button c r id hmem
      exfalso
      unfold ProjectDetail.headerClick at hmem
      simp only [ProjectDetail.headerButtons, h, if_true] at hmem
      cases button
      · have := request_mem_handleReviveProject project c r _ (by simpa using hmem)
        cases this
      · simp at hmem
      · have := request_mem_handleDeleteProject project c r _ (by simpa using hmem)
        cases this
  · have hs : project.current_stage ≠ "killed" := fun e => h (hk.mpr e)
    refine ⟨?_, ?_, ?_, ?_, ?_⟩
    · simp [ProjectDetail.headerButtons, h, hs]
    · simp [ProjectDetail.headerButtons, h, hs]
    · simp [ProjectDetail.headerButtons, h]
    · intro button c r id hmem
      exfalso
      unfold ProjectDetail.headerClick at hmem
      simp only [ProjectDetail.headerButtons, h] at hmem
      cases button
      · simp at hmem
      · have := request_mem_handleKillProject project c r _ (by simpa using hmem)
        cases this
      · have := request_mem_handleDeleteProject project c r _ (by simpa using hmem)
        cases this
    · intro _ _ _ _ _
      exact hs

/-- The header buttons do send their requests: a confirmed click on Revive for a killed
project and on Kill for a project in the Build stage. -/
theorem headerClick_sends_request (result : FetchResult) :
    Effect.request (.reviveProject 7) ∈
      ProjectDetail.headerClick killedProject .reviveProject true result ∧
    Effect.request (.killProject 7) ∈
      ProjectDetail.headerClick buildProject .killProject true result := by
  constructor
  · have h : ProjectDetail.HeaderButton.reviveProject ∈
        ProjectDetail.headerButtons killedProject := by decide
    unfold ProjectDetail.headerClick
    rw [if_pos h]
    simp [ProjectDetail.handleReviveProject]
    left
    rfl
  · have h : ProjectDetail.HeaderButton.killProject ∈
        ProjectDetail.headerButtons buildProject := by decide
    unfold ProjectDetail.headerClick
    rw [if_pos h]
    simp [ProjectDetail.handleKillProject]
    left
    rfl

/-- C6, as the code has it. The idea detail view offers 'Promote to Project' if and
only if `idea.status` is neither 'Planning' nor 'Rejected', and shows the 'Already a
Project' state exactly when it does not offer the action; `promoted_project_id` is not
read. -/
theorem promote_offered_iff_status (idea : Idea) :
    (IdeaFunnelDetailView.HeaderItem.promoteToProject ∈
        IdeaFunnelDetailView.headerItems idea ↔
      idea.status ≠ "Planning" ∧ idea.status ≠ "Rejected") ∧
    (IdeaFunnelDetailView.HeaderItem.alreadyAProject ∈
        IdeaFunnelDetailView.headerItems idea ↔
      IdeaFunnelDetailView.HeaderItem.promoteToProject ∉
        IdeaFunnelDetailView.headerItems idea) ∧
    (∀ other : Idea, other.status = idea.status →
      IdeaFunnelDetailView.headerItems other = IdeaFunnelDetailView.headerItems idea) := by
  refine ⟨?_, ?_, ?_⟩
  · by_cases h : IdeaFunnelDetailView.isAlreadyProject idea = true
    · have h2 := h
      simp only [IdeaFunnelDetailView.isAlreadyProject, Bool.or_eq_true, beq_iff_eq] at h2
      simp only [IdeaFunnelDetailView.headerItems, h]
      simp only [if_true, Bool.not_true]
      constructor
      · intro hm
        simp at hm
      · intro hne
        rcases h2 with h2 | h2
        · exact absurd h2 hne.1
        · exact absurd h2 hne.2
    · have h2 := h
      simp only [IdeaFunnelDetailView.isAlreadyProject, Bool.or_eq_true, beq_iff_eq,
        not_or] at h2
      simp [IdeaFunnelDetailView.headerItems, h, h2.1, h2.2]
  · by_cases h : IdeaFunnelDetailView.isAlreadyProject idea = true
    · simp [IdeaFunnelDetailView.headerItems, h]
    · simp [IdeaFunnelDetailView.headerItems, h]
  · intro other hs
    simp [IdeaFunnelDetailView.headerItems, IdeaFunnelDetailView.isAlreadyProject, hs]

/-- C6, as stated, fails in both directions: an idea whose `promoted_project_id` is
set and whose status is 'Researching' is offered 'Promote to Project' and is not shown
as 'Already a Project'; an idea whose `promoted_project_id` is unset and whose status
is 'Rejected' is not offered the action. -/
theorem promote_offer_ignores_promoted_project_id :
    promotedResearchingIdea.promoted_project_id = some 7 ∧
    IdeaFunnelDetailView.headerItems promotedResearchingIdea = [.promoteToProject] ∧
    rejectedUnpromotedIdea.promoted_project_id = none ∧
    IdeaFunnelDetailView.headerItems rejectedUnpromotedIdea =
      [.alreadyAProject, .viewInProjectsTab] := by
  refine ⟨rfl, ?_, rfl, ?_⟩ <;> decide

/-! ## Claims on the handlers -/

/-- In every state of the game-plan tab, an event that sends the generate request
without a confirm dialog answered yes finds the loaded list `gamePlan` empty. -/
theorem unconfirmed_generate_of_gamePlan_nil (project : Project)
    (s : ProjectDetail.State) (e : ProjectDetail.Event) (id : Nat)
    (hreq : Effect.request (.generateGamePlan id) ∈ (ProjectDetail.step project s e).2)
    (hno : ∀ m, Effect.confirm m true ∉ (ProjectDetail.step project s e).2) :
    s.gamePlan = [] := by
  cases e with
  | gamePlanFetched data => simp [ProjectDetail.step] at hreq
  | gamePlanFetchFailed m => simp [ProjectDetail.step] at hreq
  | tabClick tab => simp [ProjectDetail.step] at hreq
  | generateBlueprintClick =>
    by_cases h : ProjectDetail.showsGenerateBlueprint s = true
    · simp only [ProjectDetail.showsGenerateBlueprint, Bool.and_eq_true, beq_iff_eq] at h
      exact List.length_eq_zero.mp h.2
    · simp [ProjectDetail.step, h] at hreq
  | regenerateClick c =>
    by_cases h : ProjectDetail.showsRegenerate s = true
    · cases c
      · simp [ProjectDetail.step, h] at hreq
      · exact absurd (by simp [ProjectDetail.step, h])
          (hno "This will reset all game plan progress. Are you sure?")
    · simp [ProjectDetail.step, h] at hreq
  | stepCardClick card =>
    by_cases h : ProjectDetail.showsStepCard s card = true
    · simp [ProjectDetail.step, h] at hreq
    · simp [ProjectDetail.step, h] at hreq
  | detailBack =>
    by_cases h : (s.activeTab == ProjectDetail.Tab.gameplan && s.selectedStep.isSome) = true
    · simp [ProjectDetail.step, h] at hreq
    · simp [ProjectDetail.step, h] at hreq

/-- C7, at the failing input. The project `buildProject` has a stored game plan of two
steps. Before the game-plan fetch of the mount effect has resolved, and also after it
was rejected, `gamePlan` is still the initial `[]`: opening the Game Plan tab and
clicking 'Generate Blueprint' sends the generate request with no confirm dialog. Once
the stored plan is loaded the same click sends nothing and only a confirmed
'Regenerate Blueprint' sends the request. -/
theorem generate_unconfirmed_while_plan_unloaded :
    storedGamePlan.length = 2 ∧
    (ProjectDetail.run buildProject ProjectDetail.initialState
      [.tabClick .gameplan, .generateBlueprintClick]).2 =
      [.request (.generateGamePlan 7)] ∧
    (ProjectDetail.run buildProject ProjectDetail.initialState
      [.gamePlanFetchFailed "Failed to fetch", .tabClick .gameplan,
       .generateBlueprintClick]).2 =
      [.consoleError "Error fetching game plan:" "Failed to fetch",
       .request (.generateGamePlan 7)] ∧
    (ProjectDetail.run buildProject ProjectDetail.initialState
      [.gamePlanFetched storedGamePlan, .tabClick .gameplan,
       .generateBlueprintClick]).2 = [] ∧
    (ProjectDetail.run buildProject ProjectDetail.initialState
      [.gamePlanFetched storedGamePlan, .tabClick .gameplan,
       .regenerateClick true]).2 =
      [.confirm "This will reset all game plan progress. Are you sure?" true,
       .request (.generateGamePlan 7)] := by
  refine ⟨rfl, ?_, ?_, ?_, ?_⟩ <;> decide

/-- The kill, revive and delete handlers treat every response whose body parses as a
success, whatever its status. -/
theorem destructive_handlers_ignore_status (project : Project) (res : Response)
    (data : JsonBody) (h : res.json = .resolved data) :
    alerts (ProjectDetail.handleKillProject project true (.response res)) =
      ["Project killed. Idea marked as Rejected."] ∧
    alerts (ProjectDetail.handleReviveProject project true (.response res)) =
      ["Project revived! Starting from Smoke Test."] ∧
    alerts (ProjectDetail.handleDeleteProject project true (.response res)) =
      ["Project deleted. You can promote the idea again."] := by
  simp [ProjectDetail.handleKillProject, ProjectDetail.handleReviveProject,
    ProjectDetail.handleDeleteProject, h, alerts]

/-- C8, at the failing input. A confirmed kill of an already killed project, a
confirmed revive of a project that is not killed and a confirmed delete, each answered
with status 409 and a JSON error body, end in the success alert followed by the page
reload (kill, revive) or the navigation back (delete); the error is shown nowhere. -/
theorem destructive_handlers_succeed_on_error_response :
    ProjectDetail.handleKillProject killedProject true conflictResponse =
      [.confirm ("Kill this project? This marks it as dead (validation failed). " ++
          "The idea will be marked as Rejected. You can revive it later.") true,
       .request (.killProject 7),
       .alert "Project killed. Idea marked as Rejected.", .reload] ∧
    ProjectDetail.handleReviveProject buildProject true conflictResponse =
      [.confirm "Revive this project? It will start over from the Smoke Test phase." true,
       .request (.reviveProject 7),
       .alert "Project revived! Starting from Smoke Test.", .reload] ∧
    ProjectDetail.handleDeleteProject buildProject true conflictResponse =
      [.confirm ("DELETE this project permanently? This cannot be undone. All game " ++
          "plan progress and tasks will be lost. The idea can be promoted again.") true,
       .request (.deleteProject 7),
       .alert "Project deleted. You can promote the idea again.", .onBack] := by
  refine ⟨?_, ?_, ?_⟩ <;> decide

/-- C9, as the code has it. When the promote request is answered with a response that
is not OK, the handler alerts exactly one message and does not reload the page. The
message is the body's `error` field when the body is a JSON object whose `error` is a
non-empty string; it is 'Failed to promote idea' when the body is JSON other than `null`
whose `error` is absent or falsy (`null`, `false`, zero, the empty string). For any
other truthy `error` it is the string conversion of that value, or the message of the
TypeError when the conversion throws; for a `null` body it is the message of the
TypeError of the property read; for a body that is not JSON it is the parser's message;
each of these is replaced by 'Error promoting idea. Please try again.' when empty. The
success message followed by the reload happens if and only if a response arrived, it is
OK and its body parses as JSON. -/
theorem promote_outcome_by_response (engine : EngineMessages) (idea : Idea)
    (res : ParsedResponse) (result : ParsedFetchResult) :
    (res.ok = false →
      (alerts (IdeaFunnelDetailView.handlePromoteToProject engine idea true
        (.response res))).length = 1 ∧
      Effect.reload ∉ IdeaFunnelDetailView.handlePromoteToProject engine idea
        true (.response res) ∧
      (∀ e, res.json = .resolved (.withError (.string e)) → e ≠ "" →
        alerts (IdeaFunnelDetailView.handlePromoteToProject engine idea true
          (.response res)) = [e]) ∧
      (∀ e, res.json = .resolved .withoutError ∨
          (res.json = .resolved (.withError e) ∧ e.truthy = false) →
        alerts (IdeaFunnelDetailView.handlePromoteToProject engine idea true
          (.response res)) = ["Failed to promote idea"]) ∧
      (∀ e text, res.json = .resolved (.withError e) → e.truthy = true →
        e.toText = some text →
        alerts (IdeaFunnelDetailView.handlePromoteToProject engine idea true
          (.response res)) =
          [jsOr (some text) "Error promoting idea. Please try again."]) ∧
      (∀ e, res.json = .resolved (.withError e) → e.truthy = true →
        e.toText = none →
        alerts (IdeaFunnelDetailView.handlePromoteToProject engine idea true
          (.response res)) =
          [jsOr (some engine.conversion) "Error promoting idea. Please try again."]) ∧
      (res.json = .resolved .null →
        alerts (IdeaFunnelDetailView.handlePromoteToProject engine idea true
          (.response res)) =
          [jsOr (some engine.nullRead) "Error promoting idea. Please try again."]) ∧
      (∀ m, res.json = .rejected m →
        alerts (IdeaFunnelDetailView.handlePromoteToProject engine idea true
          (.response res)) =
          [jsOr (some m) "Error promoting idea. Please try again."])) ∧
    (IdeaFunnelDetailView.handlePromoteToProject engine idea true result =
        [.confirm ("Promote this idea to a project? " ++
            "This will start the Lean AI-Solo Blueprint process.") true,
         .request (.promoteIdea idea.id),
         .alert promoteSuccessMessage, .reload] ↔
      ∃ r data, result = .response r ∧ r.ok = true ∧ r.json = .resolved data) := by
  constructor
  · intro hok
    obtain ⟨ok, json⟩ := res
    simp only at hok
    subst hok
    refine ⟨?_, ?_, ?_, ?_, ?_, ?_, ?_, ?_⟩
    · cases json with
      | resolved d =>
        cases d with
        | null =>
          simp [IdeaFunnelDetailView.handlePromoteToProject, alerts,
            IdeaFunnelDetailView.promoteCatch]
        | withoutError =>
          simp [IdeaFunnelDetailView.handlePromoteToProject, alerts,
            IdeaFunnelDetailView.promoteCatch]
        | withError e =>
          cases ht : e.truthy <;> cases hx : e.toText <;>
            simp [IdeaFunnelDetailView.handlePromoteToProject, alerts,
              IdeaFunnelDetailView.promoteCatch, ht, hx]
      | rejected m =>
        simp [IdeaFunnelDetailView.handlePromoteToProject, alerts,
          IdeaFunnelDetailView.promoteCatch]
    · cases json with
      | resolved d =>
        cases d with
        | null =>
          simp [IdeaFunnelDetailView.handlePromoteToProject,
            IdeaFunnelDetailView.promoteCatch]
        | withoutError =>
          simp [IdeaFunnelDetailView.handlePromoteToProject,
            IdeaFunnelDetailView.promoteCatch]
        | withError e =>
          cases ht : e.truthy <;> cases hx : e.toText <;>
            simp [IdeaFunnelDetailView.handlePromoteToProject,
              IdeaFunnelDetailView.promoteCatch, ht, hx]
      | rejected m =>
        simp [IdeaFunnelDetailView.handlePromoteToProject,
          IdeaFunnelDetailView.promoteCatch]
    · intro e he hnz
      simp only at he
      subst he
      simp [IdeaFunnelDetailView.handlePromoteToProject, alerts,
        IdeaFunnelDetailView.promoteCatch, JsonValue.truthy, JsonValue.toText, hnz,
        jsOr]
    · intro e hcase
      rcases hcase with hc | ⟨hc, hf⟩
      · simp only at hc
        subst hc
        simp [IdeaFunnelDetailView.handlePromoteToProject, alerts,
          IdeaFunnelDetailView.promoteCatch, jsOr]
      · simp only at hc
        subst hc
        simp [IdeaFunnelDetailView.handlePromoteToProject, alerts,
          IdeaFunnelDetailView.promoteCatch, hf, jsOr]
    · intro e text he ht hx
      simp only at he
      subst he
      simp [IdeaFunnelDetailView.handlePromoteToProject, alerts,
        IdeaFunnelDetailView.promoteCatch, ht, hx]
    · intro e he ht hx
      simp only at he
      subst he
      simp [IdeaFunnelDetailView.handlePromoteToProject, alerts,
        IdeaFunnelDetailView.promoteCatch, ht, hx]
    · intro hn
      simp only at hn
      subst hn
      simp [IdeaFunnelDetailView.handlePromoteToProject, alerts,
        IdeaFunnelDetailView.promoteCatch]
    · intro m hm
      simp only at hm
      subst hm
      simp [IdeaFunnelDetailView.handlePromoteToProject, alerts,
        IdeaFunnelDetailView.promoteCatch]
  · constructor
    · intro h
      cases result with
      | rejected m =>
        simp [IdeaFunnelDetailView.handlePromoteToProject,
          IdeaFunnelDetailView.promoteCatch] at h
      | response r =>
        obtain ⟨ok, json⟩ := r
        cases ok
        · cases json with
          | resolved d =>
            cases d with
            | null =>
              simp [IdeaFunnelDetailView.handlePromoteToProject,
                IdeaFunnelDetailView.promoteCatch] at h
            | withoutError =>
              simp [IdeaFunnelDetailView.handlePromoteToProject,
                IdeaFunnelDetailView.promoteCatch] at h
            | withError e =>
              cases ht : e.truthy <;> cases hx : e.toText <;>
                simp [IdeaFunnelDetailView.handlePromoteToProject,
                  IdeaFunnelDetailView.promoteCatch, ht, hx] at h
          | rejected m =>
            simp [IdeaFunnelDetailView.handlePromoteToProject,
              IdeaFunnelDetailView.promoteCatch] at h
        · cases json with
          | resolved d => exact ⟨_, d, rfl, rfl, rfl⟩
          | rejected m =>
            simp [IdeaFunnelDetailView.handlePromoteToProject,
              IdeaFunnelDetailView.promoteCatch] at h
    · rintro ⟨r, data, rfl, hok, hj⟩
      simp [IdeaFunnelDetailView.handlePromoteToProject, hok, hj, promoteSuccessMessage]

/-- The amended promote claim at the answer to a second promote, status 409 with the
reason 'Idea already promoted', and at an OK answer with a JSON body. -/
theorem promote_outcome_by_response_witness :
    promoteConflict.ok = false ∧
    alerts (IdeaFunnelDetailView.handlePromoteToProject sampleEngine
      promotedResearchingIdea true (.response promoteConflict)) =
      ["Idea already promoted"] ∧
    Effect.reload ∉ IdeaFunnelDetailView.handlePromoteToProject sampleEngine
      promotedResearchingIdea true (.response promoteConflict) ∧
    IdeaFunnelDetailView.handlePromoteToProject sampleEngine
      promotedResearchingIdea true
      (.response { ok := true, json := .resolved .withoutError }) =
      [.confirm ("Promote this idea to a project? " ++
          "This will start the Lean AI-Solo Blueprint process.") true,
       .request (.promoteIdea promotedResearchingIdea.id),
       .alert promoteSuccessMessage, .reload] :=
  have h := promote_outcome_by_response sampleEngine promotedResearchingIdea
    promoteConflict (.response { ok := true, json := .resolved .withoutError })
  have hno := h.1 rfl
  ⟨rfl, hno.2.2.1 "Idea already promoted" rfl (by decide), hno.2.1,
    h.2.mpr ⟨_, _, rfl, rfl, rfl⟩⟩

/-- C9, as stated, fails. A response that is not OK and whose body is not JSON has no
`error` field, yet the alert is the parser's message, not 'Failed to promote idea'; a
response that is OK and whose body is not JSON gets neither the success message nor the
reload; an `error` field that is the empty string is replaced by 'Failed to promote
idea'; a `null` body has no `error` field, yet the alert is the TypeError's message; an
`error` field that is an object is shown as '[object Object]', or as the TypeError's
message when the object cannot be converted; and one that is the empty array, which is
present, is shown as 'Error promoting idea. Please try again.' -/
theorem promote_claim_fails_on_unparsed_body :
    alerts (IdeaFunnelDetailView.handlePromoteToProject sampleEngine
      promotedResearchingIdea true htmlErrorResponse) =
      ["Unexpected token < in JSON at position 0"] ∧
    IdeaFunnelDetailView.handlePromoteToProject sampleEngine
      promotedResearchingIdea true emptyOkResponse =
      [.confirm ("Promote this idea to a project? " ++
          "This will start the Lean AI-Solo Blueprint process.") true,
       .request (.promoteIdea 3),
       .consoleError "Error promoting idea:" "Unexpected end of JSON input",
       .alert "Unexpected end of JSON input"] ∧
    alerts (IdeaFunnelDetailView.handlePromoteToProject sampleEngine
      promotedResearchingIdea true emptyErrorResponse) = ["Failed to promote idea"] ∧
    alerts (IdeaFunnelDetailView.handlePromoteToProject sampleEngine
      promotedResearchingIdea true nullBodyResponse) =
      ["Cannot read properties of null (reading 'error')"] ∧
    alerts (IdeaFunnelDetailView.handlePromoteToProject sampleEngine
      promotedResearchingIdea true objectErrorResponse) = ["[object Object]"] ∧
    alerts (IdeaFunnelDetailView.handlePromoteToProject sampleEngine
      promotedResearchingIdea true unconvertibleErrorResponse) =
      ["Cannot convert object to primitive value"] ∧
    alerts (IdeaFunnelDetailView.handlePromoteToProject sampleEngine
      promotedResearchingIdea true emptyArrayErrorResponse) =
      ["Error promoting idea. Please try again."] := by
  refine ⟨?_, ?_, ?_, ?_, ?_, ?_, ?_⟩ <;> decide

theorem landing_saveCatch_autosave (m : String) :
    LandingPageDetailView.saveCatch false m =
      [.consoleError "Error saving:" m, .setIsSaving false] := by
  simp [LandingPageDetailView.saveCatch]

theorem recon_saveCatch_autosave (m : String) :
    StepDetailView.saveCatch false m =
      [.consoleError "Error saving:" m, .setIsSaving false] := by
  simp [StepDetailView.saveCatch]

/-- C10, as the code has it. For both step-detail forms, when an autosave request
fails (no response, a response that is not OK, or a body that is not JSON) no alert is
shown and the failure is non-fatal: the form's field data is exactly as before the
save attempt and `isSaving` is false again. The landing-page form logs every such
failure with `console.error`; the recon form logs those its promise chain raises (no
response, or a body that is not JSON). -/
theorem autosave_failure_silent_nonfatal (landing : FormState LandingFormData)
    (recon : FormState ReconFormData) (stepL stepR : GamePlanStep)
    (result : FetchResult)
    (h : result.Failed) :
    landing.after (LandingPageDetailView.autoSave stepL result) =
      { formData := landing.formData, isSaving := false } ∧
    alerts (LandingPageDetailView.autoSave stepL result) = [] ∧
    (consoleErrors (LandingPageDetailView.autoSave stepL result)).length = 1 ∧
    recon.after (StepDetailView.autoSave stepR result) =
      { formData := recon.formData, isSaving := false } ∧
    alerts (StepDetailView.autoSave stepR result) = [] ∧
    (result.Threw → (consoleErrors (StepDetailView.autoSave stepR result)).length = 1) := by
  rcases result with ⟨ok, (data | m)⟩ | m
  · have hok : ok = false := by
      rcases h with h | ⟨m, hm⟩
      · exact h
      · cases hm
    subst hok
    refine ⟨?_, ?_, ?_, ?_, ?_, ?_⟩
    · simp [LandingPageDetailView.autoSave, LandingPageDetailView.handleSave,
        landing_saveCatch_autosave, FormState.after, FormState.apply]
    · simp [LandingPageDetailView.autoSave, LandingPageDetailView.handleSave,
        landing_saveCatch_autosave, alerts]
    · simp [LandingPageDetailView.autoSave, LandingPageDetailView.handleSave,
        landing_saveCatch_autosave, consoleErrors]
    · simp [StepDetailView.autoSave, StepDetailView.handleSave, FormState.after,
        FormState.apply]
    · simp [StepDetailView.autoSave, StepDetailView.handleSave, alerts]
    · rintro ⟨m, hm⟩
      cases hm
  · refine ⟨?_, ?_, ?_, ?_, ?_, ?_⟩
    · cases ok <;>
      simp [LandingPageDetailView.autoSave, LandingPageDetailView.handleSave,
        landing_saveCatch_autosave, FormState.after, FormState.apply]
    · cases ok <;>
      simp [LandingPageDetailView.autoSave, LandingPageDetailView.handleSave,
        landing_saveCatch_autosave, alerts]
    · cases ok <;>
      simp [LandingPageDetailView.autoSave, LandingPageDetailView.handleSave,
        landing_saveCatch_autosave, consoleErrors]
    · simp [StepDetailView.autoSave, StepDetailView.handleSave,
        recon_saveCatch_autosave, FormState.after, FormState.apply]
    · simp [StepDetailView.autoSave, StepDetailView.handleSave,
        recon_saveCatch_autosave, alerts]
    · intro _
      simp [StepDetailView.autoSave, StepDetailView.handleSave,
        recon_saveCatch_autosave, consoleErrors]
  · refine ⟨?_, ?_, ?_, ?_, ?_, ?_⟩
    · simp [LandingPageDetailView.autoSave, LandingPageDetailView.handleSave,
        landing_saveCatch_autosave, FormState.after, FormState.apply]
    · simp [LandingPageDetailView.autoSave, LandingPageDetailView.handleSave,
        landing_saveCatch_autosave, alerts]
    · simp [LandingPageDetailView.autoSave, LandingPageDetailView.handleSave,
        landing_saveCatch_autosave, consoleErrors]
    · simp [StepDetailView.autoSave, StepDetailView.handleSave,
        recon_saveCatch_autosave, FormState.after, FormState.apply]
    · simp [StepDetailView.autoSave, StepDetailView.handleSave,
        recon_saveCatch_autosave, alerts]
    · intro _
      simp [StepDetailView.autoSave, StepDetailView.handleSave,
        recon_saveCatch_autosave, consoleErrors]

/-- The amended autosave claim at a rejected fetch, for a landing-page form and a recon
form that were idle with their initial data. -/
theorem autosave_failure_silent_nonfatal_witness :
    (FetchResult.rejected "Failed to fetch").Failed ∧
    (FormState.mk landingHalfFilled false).after
        (LandingPageDetailView.autoSave landingStep (.rejected "Failed to fetch")) =
      { formData := landingHalfFilled, isSaving := false } ∧
    (FormState.mk StepDetailView.initialFormData false).after
        (StepDetailView.autoSave reconStep (.rejected "Failed to fetch")) =
      { formData := StepDetailView.initialFormData, isSaving := false } :=
  have h := autosave_failure_silent_nonfatal (FormState.mk landingHalfFilled false)
    (FormState.mk StepDetailView.initialFormData false) landingStep reconStep
    (.rejected "Failed to fetch") trivial
  ⟨trivial, h.1, h.2.2.2.1⟩

/-- C10, as stated, fails. An autosave whose fetch is rejected shows the user nothing,
in either form: the only trace is a console entry. In the recon form an autosave
answered with status 500 and a JSON error body leaves no trace at all. -/
theorem autosave_failure_not_reported :
    LandingPageDetailView.autoSave landingStep (.rejected "Failed to fetch") =
      [.setIsSaving true, .request (.saveStepData 2),
       .consoleError "Error saving:" "Failed to fetch", .setIsSaving false] ∧
    StepDetailView.autoSave reconStep (.rejected "Failed to fetch") =
      [.setIsSaving true, .request (.saveStepData 1),
       .consoleError "Error saving:" "Failed to fetch", .setIsSaving false] ∧
    StepDetailView.autoSave reconStep serverErrorResponse =
      [.setIsSaving true, .request (.saveStepData 1), .setIsSaving false] := by
  refine ⟨?_, ?_, ?_⟩ <;> decide

/-! ## Claims on the autosave timer -/

theorem clearTimeout_fields (s : TimerState) (id : Option Nat) :
    (s.clearTimeout id).nextId = s.nextId ∧ (s.clearTimeout id).now = s.now ∧
    (s.clearTimeout id).sent = s.sent := by
  cases id <;> simp [TimerState.clearTimeout]

theorem scheduleAutoSave_autoSaveTimeout (s : TimerState) :
    s.scheduleAutoSave.autoSaveTimeout = some s.nextId := by
  simp [TimerState.scheduleAutoSave, TimerState.setTimeout, clearTimeout_fields]

theorem scheduleAutoSave_pending (s : TimerState) (h : s.AtMostStored) :
    s.scheduleAutoSave.pending = [{ id := s.nextId, fireAt := s.now + 2000 }] := by
  rcases h with h | ⟨t, ht, hid⟩
  · cases hs : s.autoSaveTimeout <;>
      simp [TimerState.scheduleAutoSave, TimerState.clearTimeout, TimerState.setTimeout,
        hs, h]
  · simp [TimerState.scheduleAutoSave, TimerState.clearTimeout, TimerState.setTimeout,
      hid, ht]

theorem atMostStored_scheduleAutoSave (s : TimerState) (h : s.AtMostStored) :
    s.scheduleAutoSave.AtMostStored ∧ s.scheduleAutoSave.pending.length = 1 := by
  have hp := scheduleAutoSave_pending s h
  constructor
  · right
    exact ⟨_, hp, scheduleAutoSave_autoSaveTimeout s⟩
  · rw [hp]
    rfl

theorem atMostStored_advanceTo (s : TimerState) (t : Nat) (h : s.AtMostStored) :
    (s.advanceTo t).AtMostStored := by
  rcases h with h | ⟨timer, ht, hid⟩
  · left
    simp [TimerState.advanceTo, h]
  · by_cases hdue : timer.fireAt ≤ t
    · left
      simp [TimerState.advanceTo, ht, hdue]
    · right
      refine ⟨timer, ?_, hid⟩
      simp [TimerState.advanceTo, ht, hdue]

theorem atMostStored_ops (os : List TimerState.Op) (s : TimerState)
    (h : s.AtMostStored) : (s.ops os).AtMostStored := by
  induction os generalizing s with
  | nil => exact h
  | cons o os ih =>
    have hstep : (s.op o).AtMostStored := by
      cases o with
      | change => exact (atMostStored_scheduleAutoSave s h).1
      | wait t => exact atMostStored_advanceTo s t h
    exact ih (s.op o) hstep

theorem length_pending_le_one (s : TimerState) (h : s.AtMostStored) :
    s.pending.length ≤ 1 := by
  rcases h with h | ⟨t, ht, _⟩
  · simp [h]
  · simp [ht]

theorem armed_changeAt (a b : Nat) (sent : List Nat) (s : TimerState)
    (h : TimerState.Armed a sent s) (hab : a ≤ b) (hlt : b < a + 2000) :
    TimerState.Armed b sent (s.changeAt b) := by
  obtain ⟨hnow, hsent, i, hp, hid⟩ := h
  have hnd : ¬ a + 2000 ≤ b := by omega
  refine ⟨?_, ?_, s.nextId, ?_, ?_⟩
  · simp [TimerState.changeAt, TimerState.scheduleAutoSave, TimerState.advanceTo,
      TimerState.clearTimeout, TimerState.setTimeout, hid, hnow, hab]
  · simp [TimerState.changeAt, TimerState.scheduleAutoSave, TimerState.advanceTo,
      TimerState.clearTimeout, TimerState.setTimeout, hid, hp, hnd, hsent]
  · simp [TimerState.changeAt, TimerState.scheduleAutoSave, TimerState.advanceTo,
      TimerState.clearTimeout, TimerState.setTimeout, hid, hp, hnd, hnow, hab]
  · simp [TimerState.changeAt, TimerState.scheduleAutoSave, TimerState.advanceTo,
      TimerState.clearTimeout, TimerState.setTimeout, hid]

theorem armed_changesAt (times : List Nat) (a : Nat) (sent : List Nat) (s : TimerState)
    (h : TimerState.Armed a sent s) (hb : IsBurst a times) :
    TimerState.Armed (lastChange a times) sent (s.changesAt times) := by
  induction times generalizing a s with
  | nil => simpa [lastChange, TimerState.changesAt] using h
  | cons b rest ih =>
    rcases List.chain_cons.mp hb with ⟨⟨hab, hlt⟩, hrest⟩
    have h1 := armed_changeAt a b sent s h hab hlt
    have h2 := ih b (s.changeAt b) h1 hrest
    simpa [lastChange, TimerState.changesAt] using h2

theorem armed_initial_changeAt (t0 : Nat) :
    TimerState.Armed t0 [] (TimerState.initial.changeAt t0) := by
  refine ⟨?_, ?_, 1, ?_, ?_⟩ <;>
    simp [TimerState.changeAt, TimerState.scheduleAutoSave, TimerState.advanceTo,
      TimerState.clearTimeout, TimerState.setTimeout, TimerState.initial]

theorem armed_advanceTo (a T : Nat) (sent : List Nat) (s : TimerState)
    (h : TimerState.Armed a sent s) :
    (T < a + 2000 → (s.advanceTo T).sent = sent ∧ (s.advanceTo T).pending.length = 1) ∧
    (a + 2000 ≤ T → (s.advanceTo T).sent = sent ++ [a + 2000] ∧
      (s.advanceTo T).pending = []) := by
  obtain ⟨_, hsent, i, hp, _⟩ := h
  constructor
  · intro hT
    have hnd : ¬ a + 2000 ≤ T := by omega
    simp [TimerState.advanceTo, hp, hsent, hnd]
  · intro hT
    simp [TimerState.advanceTo, hp, hsent, hT]

theorem atMostStored_initial : TimerState.initial.AtMostStored :=
  Or.inl rfl

/-- C11. Autosave is debounced at 2000 ms. After any run of field changes and waits
at most one autosave timer is pending, and a field change leaves exactly one: it
cancels the pending one and starts one. For a burst of field changes, each less than
2000 ms after the previous one, no autosave is sent until 2000 ms after the last
change, and exactly one has been sent from then on, at that time. -/
theorem autosave_debounced (t0 : Nat) (times : List Nat) (T : Nat)
    (os : List TimerState.Op) (hb : IsBurst t0 times)
    (hT : lastChange t0 times + 2000 ≤ T) :
    (TimerState.initial.ops os).pending.length ≤ 1 ∧
    (TimerState.initial.ops os).scheduleAutoSave.pending.length = 1 ∧
    (∀ t, t < lastChange t0 times + 2000 →
      ((TimerState.initial.changesAt (t0 :: times)).advanceTo t).sent = []) ∧
    ((TimerState.initial.changesAt (t0 :: times)).advanceTo T).sent =
      [lastChange t0 times + 2000] ∧
    ((TimerState.initial.changesAt (t0 :: times)).advanceTo T).pending = [] := by
  have hinv := atMostStored_ops os TimerState.initial atMostStored_initial
  have harmed : TimerState.Armed (lastChange t0 times) []
      (TimerState.initial.changesAt (t0 :: times)) := by
    have h := armed_changesAt times t0 [] (TimerState.initial.changeAt t0)
      (armed_initial_changeAt t0) hb
    simpa [TimerState.changesAt] using h
  refine ⟨length_pending_le_one _ hinv, (atMostStored_scheduleAutoSave _ hinv).2, ?_, ?_, ?_⟩
  · intro t ht
    exact ((armed_advanceTo _ t [] _ harmed).1 ht).1
  · simpa using ((armed_advanceTo _ T [] _ harmed).2 hT).1
  · exact ((armed_advanceTo _ T [] _ harmed).2 hT).2

/-- The debounce claim at a burst of four changes, at 0, 500, 1900 and 3500 ms: the one
autosave is sent at 5500 ms. -/
theorem autosave_debounced_witness :
    IsBurst 0 [500, 1900, 3500] ∧
    ((TimerState.initial.changesAt [0, 500, 1900, 3500]).advanceTo 5499).sent = [] ∧
    ((TimerState.initial.changesAt [0, 500, 1900, 3500]).advanceTo 6000).sent = [5500] :=
  have hb : IsBurst 0 [500, 1900, 3500] := by
    simp [IsBurst]
  have h := autosave_debounced 0 [500, 1900, 3500] 6000 [.change, .wait 100, .change] hb
    (by decide)
  ⟨hb, h.2.2.1 5499 (by decide), h.2.2.2.1⟩

/-! ## Claims on the save requests -/

theorem truthy_ne_undefined (v : JSValue) (h : truthy v = true) : v ≠ .undefined := by
  intro hv
  rw [hv] at h
  simp [truthy] at h

theorem jsOrValue_ne_undefined (a b : JSValue) (hb : b ≠ .undefined) :
    jsOrValue a b ≠ .undefined := by
  unfold jsOrValue
  by_cases h : truthy a = true
  · simpa [h] using truthy_ne_undefined a h
  · simpa [h] using hb

theorem recon_defined_next (d : ReconFormData) (e : StepDetailView.FormEvent)
    (h : d.Defined) : (StepDetailView.next d e).Defined := by
  cases e with
  | loaded data =>
    cases data with
    | none => exact h
    | some x =>
      simp only [StepDetailView.next, StepDetailView.load, ReconFormData.Defined]
      refine ⟨?_, ?_, ?_, ?_, ?_, ?_, ?_, ?_, ?_⟩ <;>
        exact jsOrValue_ne_undefined _ _ (by simp)
  | control c =>
    obtain ⟨h1, h2, h3, h4, h5, h6, h7, h8, h9⟩ := h
    cases c <;>
      simp [StepDetailView.next, StepDetailView.Control.call, StepDetailView.setField,
        ReconFormData.Defined, h1, h2, h3, h4, h5, h6, h7, h8, h9]

theorem recon_defined_foldl (events : List StepDetailView.FormEvent) (d : ReconFormData)
    (h : d.Defined) : (events.foldl StepDetailView.next d).Defined := by
  induction events generalizing d with
  | nil => exact h
  | cons e es ih => exact ih _ (recon_defined_next d e h)

theorem recon_defined_reach (events : List StepDetailView.FormEvent) :
    (StepDetailView.reach events).Defined := by
  apply recon_defined_foldl
  simp [ReconFormData.Defined, StepDetailView.initialFormData]

theorem applyControl_ctaSelect (d : LandingFormData) (v : String) :
    LandingPageDetailView.applyControl d (.ctaSelect v) =
      { d with cta_button_text := .str v } := by
  by_cases h : v = "Custom"
  · simp [LandingPageDetailView.applyControl, LandingPageDetailView.setField, h]
  · simp [LandingPageDetailView.applyControl, LandingPageDetailView.setField, h]

theorem landing_defined_next (d : LandingFormData) (e : LandingPageDetailView.FormEvent)
    (h : d.Defined) : (LandingPageDetailView.next d e).Defined := by
  cases e with
  | loaded data =>
    cases data with
    | none => exact h
    | some x =>
      simp only [LandingPageDetailView.next, LandingPageDetailView.load,
        LandingFormData.Defined]
      refine ⟨?_, ?_, ?_, ?_, ?_, ?_, ?_, ?_, ?_, ?_, ?_⟩
      case refine_6 =>
        split
        · exact jsOrValue_ne_undefined _ _ (by simp)
        · simp
      all_goals exact jsOrValue_ne_undefined _ _ (by simp)
  | control c =>
    obtain ⟨h1, h2, h3, h4, h5, h6, h7, h8, h9, h10, h11⟩ := h
    cases c
    case ctaSelect v =>
      simp [LandingPageDetailView.next, applyControl_ctaSelect, LandingFormData.Defined,
        h1, h2, h3, h4, h6, h7, h8, h9, h10, h11]
    all_goals
      simp [LandingPageDetailView.next, LandingPageDetailView.applyControl,
        LandingPageDetailView.setField, LandingFormData.Defined,
        h1, h2, h3, h4, h5, h6, h7, h8, h9, h10, h11]

theorem landing_defined_foldl (events : List LandingPageDetailView.FormEvent)
    (d : LandingFormData) (h : d.Defined) :
    (events.foldl LandingPageDetailView.next d).Defined := by
  induction events generalizing d with
  | nil => exact h
  | cons e es ih => exact ih _ (landing_defined_next d e h)

theorem landing_defined_reach (events : List LandingPageDetailView.FormEvent) :
    (LandingPageDetailView.reach events).Defined := by
  apply landing_defined_foldl
  simp [LandingFormData.Defined, LandingPageDetailView.initialFormData]

theorem numberToJson_ne_undefined (r : Option Int) : numberToJson r ≠ .undefined := by
  cases r <;> simp [numberToJson]

theorem priceToSend_cases (parseFloat : JSValue → Option Int) (d : LandingFormData) :
    LandingPageDetailView.priceToSend parseFloat d = .null ∨
    ∃ n : Int, LandingPageDetailView.priceToSend parseFloat d = .num n := by
  unfold LandingPageDetailView.priceToSend
  by_cases h : truthy d.price_shown = true
  · cases hp : parseFloat d.price_shown with
    | none => left; simp [h, hp, numberToJson]
    | some n => right; exact ⟨n, by simp [h, hp, numberToJson]⟩
  · left
    simp [h]

theorem recon_saveBody_eq (d : ReconFormData) (h : d.Defined) :
    StepDetailView.saveBody d = StepDetailView.toObject d := by
  obtain ⟨h1, h2, h3, h4, h5, h6, h7, h8, h9⟩ := h
  simp [StepDetailView.saveBody, jsonStringify, StepDetailView.toObject,
    h1, h2, h3, h4, h5, h6, h7, h8, h9]

theorem landing_saveBody_eq (parseFloat : JSValue → Option Int) (d : LandingFormData)
    (h : d.Defined) :
    LandingPageDetailView.saveBody parseFloat d =
      [("final_headline_chosen", d.final_headline_chosen),
       ("headline_variations", d.headline_variations),
       ("subheadline", d.subheadline),
       ("wedge_statement", d.wedge_statement),
       ("cta_button_text", d.cta_button_text),
       ("cta_button_text_custom", d.cta_button_text_custom),
       ("price_shown", LandingPageDetailView.priceToSend parseFloat d),
       ("landing_page_url", d.landing_page_url),
       ("visual_proof_url", d.visual_proof_url),
       ("launched_status", d.launched_status),
       ("launch_note", d.launch_note)] := by
  obtain ⟨h1, h2, h3, h4, h5, h6, h7, h8, h9, h10, h11⟩ := h
  have hp : LandingPageDetailView.priceToSend parseFloat d ≠ .undefined := by
    rcases priceToSend_cases parseFloat d with hc | ⟨n, hc⟩ <;> simp [hc]
  simp [LandingPageDetailView.saveBody, jsonStringify, LandingPageDetailView.toObject,
    objSet, h1, h2, h3, h4, h5, h6, h8, h9, h10, h11, hp]

theorem recon_objAssign_toObject (a b : ReconFormData) :
    objAssign (StepDetailView.toObject a) (StepDetailView.toObject b) =
      StepDetailView.toObject b := by
  simp [objAssign, objSet, StepDetailView.toObject]

/-- C12. Every save request of a step-detail form carries the form's complete field
set. For the form data after any run of load effects and control changes: the body of
the recon save has the nine recon keys with the form's values; the body of the
landing-page save has the eleven landing-page keys with the form's values, but for
`price_shown`, which is a number or null. Hence assigning a later body over an earlier
one member by member, as a partial update would be merged, gives the later body. -/
theorem save_body_complete (parseFloat : JSValue → Option Int)
    (earlierR laterR : List StepDetailView.FormEvent)
    (earlierL laterL : List LandingPageDetailView.FormEvent) :
    objKeys (StepDetailView.saveBody (StepDetailView.reach laterR)) = reconKeys ∧
    StepDetailView.saveBody (StepDetailView.reach laterR) =
      StepDetailView.toObject (StepDetailView.reach laterR) ∧
    objKeys (LandingPageDetailView.saveBody parseFloat
      (LandingPageDetailView.reach laterL)) = landingKeys ∧
    (∀ key ∈ landingKeys, key ≠ "price_shown" →
      objGet (LandingPageDetailView.saveBody parseFloat
          (LandingPageDetailView.reach laterL)) key =
        LandingPageDetailView.getField (LandingPageDetailView.reach laterL) key) ∧
    (objGet (LandingPageDetailView.saveBody parseFloat
        (LandingPageDetailView.reach laterL)) "price_shown" = .null ∨
      ∃ n : Int, objGet (LandingPageDetailView.saveBody parseFloat
        (LandingPageDetailView.reach laterL)) "price_shown" = .num n) ∧
    objAssign (StepDetailView.saveBody (StepDetailView.reach earlierR))
        (StepDetailView.saveBody (StepDetailView.reach laterR)) =
      StepDetailView.saveBody (StepDetailView.reach laterR) ∧
    objAssign (LandingPageDetailView.saveBody parseFloat
          (LandingPageDetailView.reach earlierL))
        (LandingPageDetailView.saveBody parseFloat (LandingPageDetailView.reach laterL)) =
      LandingPageDetailView.saveBody parseFloat (LandingPageDetailView.reach laterL) := by
  have hr0 := recon_saveBody_eq _ (recon_defined_reach earlierR)
  have hr := recon_saveBody_eq _ (recon_defined_reach laterR)
  have hl0 := landing_saveBody_eq parseFloat _ (landing_defined_reach earlierL)
  have hl := landing_saveBody_eq parseFloat _ (landing_defined_reach laterL)
  refine ⟨?_, hr, ?_, ?_, ?_, ?_, ?_⟩
  · rw [hr]
    rfl
  · rw [hl]
    rfl
  · intro key hkey hne
    rw [hl]
    simp only [landingKeys, List.mem_cons, List.mem_singleton, List.not_mem_nil,
      or_false] at hkey
    rcases hkey with h | h | h | h | h | h | h | h | h | h | h <;> subst h <;>
      first
      | exact absurd rfl hne
      | rfl
  · rw [hl]
    have hg : objGet
        [("final_headline_chosen", (LandingPageDetailView.reach laterL).final_headline_chosen),
         ("headline_variations", (LandingPageDetailView.reach laterL).headline_variations),
         ("subheadline", (LandingPageDetailView.reach laterL).subheadline),
         ("wedge_statement", (LandingPageDetailView.reach laterL).wedge_statement),
         ("cta_button_text", (LandingPageDetailView.reach laterL).cta_button_text),
         ("cta_button_text_custom",
           (LandingPageDetailView.reach laterL).cta_button_text_custom),
         ("price_shown",
           LandingPageDetailView.priceToSend parseFloat (LandingPageDetailView.reach laterL)),
         ("landing_page_url", (LandingPageDetailView.reach laterL).landing_page_url),
         ("visual_proof_url", (LandingPageDetailView.reach laterL).visual_proof_url),
         ("launched_status", (LandingPageDetailView.reach laterL).launched_status),
         ("launch_note", (LandingPageDetailView.reach laterL).launch_note)] "price_shown" =
        LandingPageDetailView.priceToSend parseFloat (LandingPageDetailView.reach laterL) :=
      rfl
    rw [hg]
    exact priceToSend_cases parseFloat _
  · rw [hr0, hr]
    exact recon_objAssign_toObject _ _
  · rw [hl0, hl]
    simp [objAssign, objSet]

/-- A sample run of the landing-page form: the saved data arrives, then the price and
the headline are typed. -/
theorem save_body_sample :
    LandingPageDetailView.saveBody sampleParseFloat
      (LandingPageDetailView.reach
        [.loaded (some landingHalfFilledOther), .control (.price_shown "49"),
         .control (.final_headline_chosen "Hello")]) =
      [("final_headline_chosen", .str "Hello"), ("headline_variations", .str "  "),
       ("subheadline", .str "The dead-simple review-response tool"),
       ("wedge_statement", .str "\t\n"), ("cta_button_text", .str ""),
       ("cta_button_text_custom", .str ""), ("price_shown", .num 49),
       ("landing_page_url", .str "https://example.carrd.co"),
       ("visual_proof_url", .str ""), ("launched_status", .str "Building"),
       ("launch_note", .str "")] := by
  decide

/-! ## Claims on the authorization header -/

/-- Whatever the sign-in state, a request sent with a direct `fetch` has no
`Authorization` header. -/
theorem direct_request_unauthorized (auth : AuthState) (r : Request)
    (h : r.isDirect = true) : (issue auth r).authorization = none := by
  cases r <;> first
    | rfl
    | simp [Request.isDirect] at h

/-- With a session, the requests sent through `fetchWithAuth` carry its token. -/
theorem authFetch_request_authorized (accessToken : String) (r : Request)
    (h : r.isDirect = false) :
    (issue { supabaseClient := true, user := true, session := some accessToken }
      r).authorization = some ("Bearer " ++ accessToken) := by
  cases r <;> first
    | (simp [Request.isDirect] at h; done)
    | simp [issue, fetchWithAuth, objSet, noOptions, jsonOptions,
        FetchCall.authorization]

/-- C13, at the failing input. For a user signed in with an active session whose
access token is 'tok', the kill request is sent with the one header `Content-Type`,
and so are the promote, revive, delete, generate, step status, step-detail save and
idea update requests; the step-detail load is sent with no header at all. The
project listing does carry `Authorization: Bearer tok`. -/
theorem mutations_sent_without_authorization :
    issue signedIn (.killProject 7) =
      { url := "/api/projects/7/kill",
        options := { method := some "POST",
                     headers := [("Content-Type", "application/json")],
                     hasBody := false } } ∧
    (issue signedIn (.promoteIdea 3)).authorization = none ∧
    (issue signedIn (.reviveProject 7)).authorization = none ∧
    (issue signedIn (.deleteProject 7)).authorization = none ∧
    (issue signedIn (.generateGamePlan 7)).authorization = none ∧
    (issue signedIn (.updateStepStatus 1)).authorization = none ∧
    (issue signedIn (.saveStepData 1)).authorization = none ∧
    (issue signedIn (.updateIdeaStatus 3)).authorization = none ∧
    (issue signedIn (.loadStepData 1)).options.headers = [] ∧
    (issue signedIn .listProjects).options.headers =
      [("Content-Type", "application/json"), ("Authorization", "Bearer tok")] := by
  refine ⟨?_, ?_, ?_, ?_, ?_, ?_, ?_, ?_, ?_, ?_⟩ <;> decide

/-! ## Claims on the dashboard and the phase lists -/

theorem getStageCounts_eq (projects : List Project) :
    Dashboard.getStageCounts projects =
      [("smoketest", projectsInStage projects "smoketest"),
       ("setup", projectsInStage projects "setup"),
       ("build", projectsInStage projects "build"),
       ("launch", projectsInStage projects "launch"),
       ("live", projectsInStage projects "live"),
       ("killed", projectsInStage projects "killed")] := by
  have h : ∀ key : String,
      (projects.filter (fun p => p.current_stage == key)).length =
        projectsInStage projects key := by
    intro key
    rw [projectsInStage, List.countP_eq_length_filter]
    rfl
  simp [Dashboard.getStageCounts, Dashboard.stages, objSet, h]

theorem stage_counts_sum (projects : List Project) :
    projectsInStage projects "smoketest" + projectsInStage projects "setup" +
      projectsInStage projects "build" + projectsInStage projects "launch" +
      projectsInStage projects "live" + projectsInStage projects "killed" =
    projects.countP (fun p => decide (p.current_stage ∈ stageKeys)) := by
  induction projects with
  | nil => simp [projectsInStage]
  | cons p ps ih =>
    simp only [projectsInStage, List.countP_cons] at ih ⊢
    rw [← ih]
    by_cases h1 : p.current_stage = "smoketest"
    · simp [h1, stageKeys]
      omega
    by_cases h2 : p.current_stage = "setup"
    · simp [h2, stageKeys]
      omega
    by_cases h3 : p.current_stage = "build"
    · simp [h3, stageKeys]
      omega
    by_cases h4 : p.current_stage = "launch"
    · simp [h4, stageKeys]
      omega
    by_cases h5 : p.current_stage = "live"
    · simp [h5, stageKeys]
      omega
    by_cases h6 : p.current_stage = "killed"
    · simp [h6, stageKeys]
      omega
    simp [h1, h2, h3, h4, h5, h6, stageKeys]

/-- C14. For every list of projects, `getStageCounts` holds, under each of the six
stage keys, the number of projects whose `current_stage` equals that key; the keys are
pairwise distinct, so a project is counted under at most one of them; and the six
counts sum to the number of projects whose `current_stage` is one of the six keys. -/
theorem getStageCounts_spec (projects : List Project) :
    objKeys (Dashboard.getStageCounts projects) = stageKeys ∧
    (∀ key ∈ stageKeys,
      objFind (Dashboard.getStageCounts projects) key =
        some (projectsInStage projects key)) ∧
    stageKeys.Nodup ∧
    (∀ p : Project, (stageKeys.filter (fun key => decide (p.current_stage = key))).length ≤ 1) ∧
    ((Dashboard.getStageCounts projects).map Prod.snd).sum =
      projects.countP (fun p => decide (p.current_stage ∈ stageKeys)) := by
  have hnd : stageKeys.Nodup := by decide
  refine ⟨?_, ?_, hnd, ?_, ?_⟩
  · rw [getStageCounts_eq]
    rfl
  · intro key hkey
    rw [getStageCounts_eq]
    simp only [stageKeys, List.mem_cons, List.mem_singleton, List.not_mem_nil,
      or_false] at hkey
    rcases hkey with h | h | h | h | h | h <;> subst h <;> rfl
  · intro p
    have h := List.nodup_iff_count_le_one.mp hnd p.current_stage
    rw [List.count, List.countP_eq_length_filter] at h
    have hfun : (fun key => decide (p.current_stage = key)) =
        (fun key : String => key == p.current_stage) := by
      funext key
      by_cases hk : p.current_stage = key
      · simp [hk]
      · have hk2 : ¬ key = p.current_stage := fun e => hk e.symm
        simp [hk, hk2]
    rw [hfun]
    exact h
  · rw [getStageCounts_eq]
    simp only [List.map_cons, List.map_nil, List.sum_cons, List.sum_nil]
    rw [← stage_counts_sum]
    omega

theorem currentPhaseIndex_of_key (project : Project) (i : Nat) (ph : ProjectDetail.Phase)
    (hi : ProjectDetail.phases.get? i = some ph) (hs : project.current_stage = ph.key) :
    ProjectDetail.currentPhaseIndex project = i := by
  have h5 : i < 5 := by
    by_contra hge
    have : ProjectDetail.phases.get? i = none := by
      apply List.get?_eq_none.mpr
      simp only [ProjectDetail.phases, List.length_cons, List.length_nil]
      omega
    rw [this] at hi
    cases hi
  unfold ProjectDetail.currentPhaseIndex ProjectDetail.jsFindIndex
  interval_cases i <;>
    simp only [ProjectDetail.phases, List.get?_cons_zero, List.get?_cons_succ,
      Option.some.injEq] at hi <;>
    subst hi <;>
    simp [ProjectDetail.phases, hs, List.findIdx_cons]

theorem currentPhaseIndex_killed (project : Project)
    (hs : project.current_stage = "killed") :
    ProjectDetail.currentPhaseIndex project = -1 := by
  simp [ProjectDetail.currentPhaseIndex, ProjectDetail.jsFindIndex, ProjectDetail.phases,
    hs, List.findIdx_cons]

/-- C15. The phase list is in the lifecycle order smoketest, setup, build, launch,
live. For a project whose `current_stage` is the key of the phase at index `i`, the
phase at index `j` is marked done exactly when `j < i`, current exactly when `j = i`
and pending exactly when `i < j`. For a killed project every phase is marked pending:
none is done or current. -/
theorem phase_marks_follow_stage (project : Project) :
    ProjectDetail.phases.map (fun p => p.key) =
      ["smoketest", "setup", "build", "launch", "live"] ∧
    (∀ (i j : Nat) (ph : ProjectDetail.Phase),
      ProjectDetail.phases.get? i = some ph → project.current_stage = ph.key →
        (ProjectDetail.phaseMark project j = .done ↔ j < i) ∧
        (ProjectDetail.phaseMark project j = .current ↔ j = i) ∧
        (ProjectDetail.phaseMark project j = .pending ↔ i < j)) ∧
    (project.current_stage = "killed" →
      ∀ j : Nat, ProjectDetail.phaseMark project j = .pending) := by
  refine ⟨rfl, ?_, ?_⟩
  · intro i j ph hi hs
    have hc := currentPhaseIndex_of_key project i ph hi hs
    unfold ProjectDetail.phaseMark
    rw [hc]
    by_cases h1 : j < i
    · have h1z : (j : Int) < (i : Int) := by exact_mod_cast h1
      simp [h1z, h1]
      omega
    · by_cases h2 : j = i
      · subst h2
        simp
      · have h1z : ¬ (j : Int) < (i : Int) := by exact_mod_cast h1
        have h2z : ¬ (j : Int) = (i : Int) := by exact_mod_cast h2
        simp [h1z, h2z, h1, h2]
        omega
  · intro hk j
    have hc := currentPhaseIndex_killed project hk
    unfold ProjectDetail.phaseMark
    rw [hc]
    have h1 : ¬ (j : Int) < -1 := by omega
    have h2 : ¬ (j : Int) = -1 := by omega
    simp [h1, h2]

/-- The phase marks of a project in the Build stage and of the same project killed. -/
theorem phase_marks_sample :
    (List.range 5).map (ProjectDetail.phaseMark buildProject) =
      [.done, .done, .current, .pending, .pending] ∧
    (List.range 5).map (ProjectDetail.phaseMark killedProject) =
      [.pending, .pending, .pending, .pending, .pending] := by
  constructor <;> decide

/-- C16, as the code has it. Within each phase category the steps are displayed in the
order in which the received list holds them: the displayed steps are the steps of the
category, as a sublist of the received list, with no sorting. They are in ascending
`step_number` order whenever the steps of each category are so in the received list. -/
theorem phaseSteps_in_received_order (gamePlan : List GamePlanStep) (key : String) :
    List.Sublist (ProjectDetail.phaseSteps gamePlan key) gamePlan ∧
    (∀ s, s ∈ ProjectDetail.phaseSteps gamePlan key ↔ s ∈ gamePlan ∧ s.category = key) ∧
    (gamePlan.Pairwise
        (fun a b => a.category = b.category → a.step_number ≤ b.step_number) →
      (ProjectDetail.phaseSteps gamePlan key).Pairwise
        (fun a b => a.step_number ≤ b.step_number)) := by
  refine ⟨List.filter_sublist _, ?_, ?_⟩
  · intro s
    simp [ProjectDetail.phaseSteps]
  · intro h
    have h1 := List.Pairwise.filter (fun s : GamePlanStep => s.category == key) h
    have hmem : ∀ s ∈ ProjectDetail.phaseSteps gamePlan key, s.category = key := by
      intro s hs
      simp [ProjectDetail.phaseSteps] at hs
      exact hs.2
    have h2 : (ProjectDetail.phaseSteps gamePlan key).Pairwise
        (fun a b => a.category = b.category → a.step_number ≤ b.step_number) := h1
    rw [List.pairwise_iff_forall_sublist] at h2 ⊢
    intro a b hab
    have ha : a ∈ ProjectDetail.phaseSteps gamePlan key :=
      hab.subset (List.mem_cons_self _ _)
    have hb : b ∈ ProjectDetail.phaseSteps gamePlan key :=
      hab.subset (List.mem_cons_of_mem _ (List.mem_cons_self _ _))
    exact h2 hab ((hmem a ha).trans (hmem b hb).symm)

/-- C16, as stated, fails. A received list that holds the step with `step_number` 2
before the step with `step_number` 1, both of phase 1, is displayed in that order. -/
theorem phaseSteps_not_sorted :
    (ProjectDetail.phaseSteps unorderedGamePlan "phase1_smoketest").map
      (fun s => s.step_number) = [2, 1] := by
  decide

/-- C17. Gate steps count as ordinary steps in the per-phase arithmetic. For every game
plan and phase category, `completedSteps` is the number of steps of the category with
status 'completed' and `totalSteps` the number of steps of the category, neither
reading the title or the gate flag, so both are unchanged when every gate flag is
rewritten; `completedSteps ≤ totalSteps`; and the phase is shown complete if and only
if `totalSteps > 0` and every step of the category is completed. -/
theorem phase_completion_counts (gamePlan : List GamePlanStep) (key : String) :
    ProjectDetail.completedSteps gamePlan key =
      gamePlan.countP (fun s => decide (s.category = key ∧ s.status = "completed")) ∧
    ProjectDetail.totalSteps gamePlan key =
      gamePlan.countP (fun s => decide (s.category = key)) ∧
    (∀ flag : GamePlanStep → Bool,
      ProjectDetail.completedSteps
          (gamePlan.map (fun s => { s with is_gate := flag s })) key =
        ProjectDetail.completedSteps gamePlan key ∧
      ProjectDetail.totalSteps (gamePlan.map (fun s => { s with is_gate := flag s })) key =
        ProjectDetail.totalSteps gamePlan key) ∧
    ProjectDetail.completedSteps gamePlan key ≤ ProjectDetail.totalSteps gamePlan key ∧
    (ProjectDetail.isPhaseComplete gamePlan key = true ↔
      ProjectDetail.totalSteps gamePlan key > 0 ∧
      ∀ s ∈ gamePlan, s.category = key → s.status = "completed") := by
  refine ⟨?_, ?_, ?_, ?_, ?_⟩
  · simp only [ProjectDetail.completedSteps, ProjectDetail.phaseSteps, List.filter_filter,
      List.countP_eq_length_filter]
    congr 2
    funext s
    rw [Bool.decide_and, Bool.and_comm]
    rfl
  · simp only [ProjectDetail.totalSteps, ProjectDetail.phaseSteps,
      List.countP_eq_length_filter]
    rfl
  · intro flag
    simp [ProjectDetail.completedSteps, ProjectDetail.totalSteps, ProjectDetail.phaseSteps,
      List.filter_map, Function.comp_def]
  · exact List.length_filter_le _ _
  · simp only [ProjectDetail.isPhaseComplete, Bool.and_eq_true, beq_iff_eq,
      decide_eq_true_eq, ProjectDetail.completedSteps, ProjectDetail.totalSteps,
      List.filter_length_eq_length]
    constructor
    · rintro ⟨hall, hpos⟩
      refine ⟨hpos, ?_⟩
      intro s hs hc
      have := hall s (by simp [ProjectDetail.phaseSteps, hs, hc])
      simpa using this
    · rintro ⟨hpos, hall⟩
      refine ⟨?_, hpos⟩
      intro s hs
      simp only [ProjectDetail.phaseSteps, List.mem_filter, beq_iff_eq] at hs
      simpa using hall s hs.1 hs.2

/-! ## Claims on the core, as the specification describes it -/

theorem generate_ideas_projects (template : List StepTemplate) (store : Store)
    (projectId : Nat) :
    (generate template store projectId).ideas = store.ideas ∧
    (generate template store projectId).projects = store.projects :=
  ⟨rfl, rfl⟩

theorem find_idea_after_link (ideas : List Idea) (ideaId projectId : Nat) (idea : Idea)
    (h : ideas.find? (fun i => i.id == ideaId) = some idea) :
    (ideas.map (fun i =>
        if i.id == ideaId then
          { i with status := "Planning", promoted_project_id := some projectId }
        else i)).find? (fun i => i.id == ideaId) =
      some { idea with status := "Planning", promoted_project_id := some projectId } := by
  induction ideas with
  | nil => simp at h
  | cons x xs ih =>
    by_cases hx : x.id = ideaId
    · have hx2 : (x.id == ideaId) = true := by simpa using hx
      simp only [List.find?_cons, hx2] at h
      cases h
      rw [List.map_cons, List.find?_cons]
      simp only [hx2, if_true]
    · have hx2 : (x.id == ideaId) = false := by simpa using hx
      simp only [List.find?_cons, hx2] at h
      rw [List.map_cons, List.find?_cons]
      simp only [hx2, Bool.false_eq_true, if_false]
      exact ih h

/-- C18. When `promote` is called twice on the same idea of a storage in which ideas
and projects are linked one to one, the second call fails with Conflict and leaves the
whole storage as the first call left it, and afterwards exactly one project references
the idea. -/
theorem promote_twice_conflict (template : List StepTemplate) (today later : Nat)
    (store : Store) (ideaId : Nat) (idea : Idea)
    (hfind : store.ideas.find? (fun i => i.id == ideaId) = some idea)
    (hlinked : store.Linked) :
    (promote template later (promote template today store ideaId).1 ideaId).2 =
      .error .Conflict ∧
    (promote template later (promote template today store ideaId).1 ideaId).1 =
      (promote template today store ideaId).1 ∧
    (promote template later (promote template today store ideaId).1
      ideaId).1.projectsOfIdea ideaId = 1 := by
  have hcount := hlinked ideaId idea hfind
  cases hp : idea.promoted_project_id with
  | some pid =>
    have h1 : promote template today store ideaId = (store, .error .Conflict) := by
      simp [promote, hfind, hp]
    have h2 : promote template later store ideaId = (store, .error .Conflict) := by
      simp [promote, hfind, hp]
    rw [h1]
    simp only [h2]
    refine ⟨trivial, trivial, ?_⟩
    simpa [hp] using hcount
  | none =>
    have h1 : promote template today store ideaId =
        (generate template
          { store with
            ideas := store.ideas.map (fun i =>
              if i.id == ideaId then
                { i with status := "Planning", promoted_project_id := some store.nextId }
              else i),
            projects := store.projects ++
              [{ id := store.nextId, app_idea_id := some ideaId, name := idea.name,
                 current_stage := "smoketest", progress := 0, current_mrr := 0,
                 target_mrr := 0 }],
            events := store.events ++
              [{ id := store.nextId + 1, subject_id := ideaId, kind := "idea_promoted",
                 occurred_at := today }],
            nextId := store.nextId + 2 }
          store.nextId,
         .ok store.nextId) := by
      simp [promote, hfind, hp]
    have hf := find_idea_after_link store.ideas ideaId store.nextId idea hfind
    rw [h1]
    have h2 : ∀ s2 : Store,
        s2.ideas = store.ideas.map (fun i =>
          if i.id == ideaId then
            { i with status := "Planning", promoted_project_id := some store.nextId }
          else i) →
        promote template later s2 ideaId = (s2, .error .Conflict) := by
      intro s2 hs2
      unfold promote
      rw [hs2, hf]
      rfl
    rw [h2 _ rfl]
    refine ⟨rfl, rfl, ?_⟩
    have h0 : store.projectsOfIdea ideaId = 0 := by simpa [hp] using hcount
    simp only [Store.projectsOfIdea] at h0 ⊢
    simp only [generate, List.countP_append, h0]
    simp

/-- The double-promotion claim at a storage that holds one idea, never promoted: the
first call creates project 10 with the three template steps, the second is a
Conflict. -/
theorem promote_twice_conflict_witness :
    sampleStore.ideas.find? (fun i => i.id == 4) = some freshIdea ∧
    (promote sampleTemplate 100 sampleStore 4).2 = .ok 10 ∧
    ((promote sampleTemplate 100 sampleStore 4).1.stepsOf 10).length = 3 ∧
    (promote sampleTemplate 101 (promote sampleTemplate 100 sampleStore 4).1 4).2 =
      .error .Conflict ∧
    (promote sampleTemplate 101 (promote sampleTemplate 100 sampleStore 4).1
      4).1.projectsOfIdea 4 = 1 :=
  have hl : sampleStore.Linked := by
    intro ideaId idea h
    simp only [sampleStore, List.find?_cons, List.find?_nil] at h
    by_cases hi : (freshIdea.id == ideaId) = true
    · simp only [hi] at h
      cases h
      rfl
    · simp [hi] at h
  have h := promote_twice_conflict sampleTemplate 100 101 sampleStore 4 freshIdea rfl hl
  ⟨rfl, rfl, by decide, h.1, h.2.2⟩

theorem stepsOf_generate (template : List StepTemplate) (store : Store) (projectId : Nat) :
    (generate template store projectId).stepsOf projectId =
      template.enum.map (fun it => it.2.instantiate (store.nextId + it.1) projectId) := by
  have h1 : (store.steps.filter (fun s => s.project_id != projectId)).filter
      (fun s => s.project_id == projectId) = [] := by
    rw [List.filter_filter, List.filter_eq_nil_iff]
    intro s _
    cases h : s.project_id == projectId <;> simp [bne, h]
  have h2 : (template.enum.map
        (fun it => it.2.instantiate (store.nextId + it.1) projectId)).filter
      (fun s => s.project_id == projectId) =
      template.enum.map (fun it => it.2.instantiate (store.nextId + it.1) projectId) := by
    rw [List.filter_eq_self]
    intro s hs
    rw [List.mem_map] at hs
    obtain ⟨it, _, rfl⟩ := hs
    simp [StepTemplate.instantiate]
  simp only [Store.stepsOf, generate, List.filter_append, h1, h2, List.nil_append]

theorem map_enum_snd {α β : Type} (f : α → β) (l : List α) :
    l.enum.map (fun it => f it.2) = l.map f := by
  have h : l.enum.map (fun it => f it.2) = (l.enum.map Prod.snd).map f := by
    rw [List.map_map]
    rfl
  rw [h, List.enum_map_snd]

/-- C19. Blueprint generation is deterministic and independent of project content. For
every template table, storage and project, the steps of the project after `generate`
are as many as the template's rows, with the template's titles and categories in
order, all pending; so they are the same, as to count, titles, categories and
statuses, after a second call on the same project, whatever happened to the steps in
between, and after a call on any other project of any other storage. -/
theorem generate_deterministic (template : List StepTemplate) (store other : Store)
    (projectId otherId : Nat) :
    ((generate template store projectId).stepsOf projectId).length = template.length ∧
    ((generate template store projectId).stepsOf projectId).map (fun s => s.title) =
      template.map (fun t => t.title) ∧
    ((generate template store projectId).stepsOf projectId).map (fun s => s.category) =
      template.map (fun t => t.category) ∧
    (∀ s ∈ (generate template store projectId).stepsOf projectId, s.status = "pending") ∧
    ((generate template (generate template store projectId) projectId).stepsOf
        projectId).map (fun s => (s.title, s.category, s.status)) =
      ((generate template store projectId).stepsOf projectId).map
        (fun s => (s.title, s.category, s.status)) ∧
    ((generate template other otherId).stepsOf otherId).map
        (fun s => (s.title, s.category, s.status)) =
      ((generate template store projectId).stepsOf projectId).map
        (fun s => (s.title, s.category, s.status)) := by
  have key : ∀ (st : Store) (pid : Nat),
      ((generate template st pid).stepsOf pid).map
          (fun s => (s.title, s.category, s.status)) =
        template.map (fun t => (t.title, t.category, "pending")) := by
    intro st pid
    rw [stepsOf_generate, List.map_map]
    exact map_enum_snd (fun t : StepTemplate => (t.title, t.category, "pending")) template
  refine ⟨?_, ?_, ?_, ?_, ?_, ?_⟩
  · rw [stepsOf_generate]
    simp
  · rw [stepsOf_generate, List.map_map]
    exact map_enum_snd (fun t : StepTemplate => t.title) template
  · rw [stepsOf_generate, List.map_map]
    exact map_enum_snd (fun t : StepTemplate => t.category) template
  · intro s hs
    rw [stepsOf_generate, List.mem_map] at hs
    obtain ⟨it, _, rfl⟩ := hs
    rfl
  · rw [key, key]
  · rw [key, key]

/-- A sample regeneration: after the recon step of project 10 is completed, a second
`generate` gives the three template steps again, all pending, and the completed step
is gone. -/
theorem generate_twice_sample :
    ((generate sampleTemplate
        { (generate sampleTemplate sampleStore 10) with
          steps := (generate sampleTemplate sampleStore 10).steps.map
            (fun s => { s with status := "completed" }) }
        10).stepsOf 10).map (fun s => (s.title, s.status)) =
      [("Deep Competitive Recon", "pending"), ("Build Facade Landing Page", "pending"),
       ("GATE CHECK: 10+ signups or 1 pre-sale", "pending")] := by
  decide

theorem activeDays_length (events : List ActivityEvent) :
    (activeDays events).length = (events.map (fun e => e.occurred_at)).toFinset.card := by
  rw [activeDays, List.card_toFinset]

/-- C20. For every activity history, `consistency_score` is
round(distinct_active_days / days_elapsed_in_year × 100), the distinct active days
being the set of days with at least one event, and the dashboard shows this number;
for a history with 10 distinct active days in a 365-day year it is 3. -/
theorem consistencyScore_spec (events : List ActivityEvent) (daysElapsedInYear : Nat)
    (daysActive daysInYear : Nat) :
    consistencyScore events daysElapsedInYear =
      round ((((events.map (fun e => e.occurred_at)).toFinset.card : ℕ) : ℚ) /
        (daysElapsedInYear : ℚ) * 100) ∧
    Dashboard.consistencyShown
        (some { consistency_score := consistencyScore events daysElapsedInYear,
                days_active := daysActive, days_in_year := daysInYear }) =
      consistencyScore events daysElapsedInYear ∧
    ((activeDays events).length = 10 → consistencyScore events 365 = 3) := by
  refine ⟨?_, ?_, ?_⟩
  · rw [consistencyScore, activeDays_length]
  · unfold Dashboard.consistencyShown
    by_cases h : consistencyScore events daysElapsedInYear = 0
    · simp [h]
    · simp [h]
  · intro h
    rw [consistencyScore, h, round_eq]
    norm_num

/-- The consistency claim at a history of twelve events on ten distinct days. -/
theorem consistencyScore_spec_witness :
    (activeDays sampleHistory).length = 10 ∧ consistencyScore sampleHistory 365 = 3 :=
  have h : (activeDays sampleHistory).length = 10 := by decide
  ⟨h, (consistencyScore_spec sampleHistory 365 10 365).2.2 h⟩

/-! ## Claims on fetchWithAuth -/

theorem objFind_map_set_self {α : Type} (o : JSObject α) (key : String) (value : α)
    (h : o.any (fun kv => kv.1 == key) = true) :
    objFind (o.map (fun kv => if kv.1 == key then (key, value) else kv)) key =
      some value := by
  induction o with
  | nil => simp at h
  | cons x xs ih =>
    by_cases hx : (x.1 == key) = true
    · simp only [objFind, List.map_cons, hx, if_true, List.find?_cons, beq_self_eq_true,
        Option.map_some']
    · have hx2 : (x.1 == key) = false := by simpa using hx
      have hxs : xs.any (fun kv => kv.1 == key) = true := by
        simpa [List.any_cons, hx2] using h
      have := ih hxs
      simp only [objFind, List.map_cons, List.find?_cons, hx2, Bool.false_eq_true,
        if_false] at this ⊢
      exact this

theorem objFind_map_set_other {α : Type} (o : JSObject α) (key other : String)
    (value : α) (h : other ≠ key) :
    objFind (o.map (fun kv => if kv.1 == key then (key, value) else kv)) other =
      objFind o other := by
  induction o with
  | nil => rfl
  | cons x xs ih =>
    have hko : (key == other) = false := by
      simpa using fun e : key = other => h e.symm
    by_cases hx : (x.1 == key) = true
    · have hxe : x.1 = key := by simpa using hx
      have hxo : (x.1 == other) = false := by rw [hxe]; exact hko
      simp only [objFind, List.map_cons, List.find?_cons, hx, if_true, hko, hxo] at ih ⊢
      exact ih
    · have hx2 : (x.1 == key) = false := by simpa using hx
      simp only [objFind, List.map_cons, List.find?_cons, hx2, Bool.false_eq_true,
        if_false] at ih ⊢
      cases hxo : x.1 == other
      · simpa [hxo] using ih
      · simp

theorem objFind_objSet_self {α : Type} (o : JSObject α) (key : String) (value : α) :
    objFind (objSet o key value) key = some value := by
  unfold objSet
  by_cases h : o.any (fun kv => kv.1 == key) = true
  · rw [if_pos h]
    exact objFind_map_set_self o key value h
  · rw [if_neg h]
    have hnone : o.find? (fun kv => kv.1 == key) = none := by
      rw [List.find?_eq_none]
      intro x hx hxk
      exact h (List.any_eq_true.mpr ⟨x, hx, hxk⟩)
    simp [objFind, List.find?_append, hnone]

theorem objFind_objSet_other {α : Type} (o : JSObject α) (key other : String) (value : α)
    (h : other ≠ key) : objFind (objSet o key value) other = objFind o other := by
  unfold objSet
  by_cases ha : o.any (fun kv => kv.1 == key) = true
  · rw [if_pos ha]
    exact objFind_map_set_other o key other value h
  · rw [if_neg ha]
    have hko : (key == other) = false := by
      simpa using fun e : key = other => h e.symm
    cases hf : o.find? (fun kv => kv.1 == other) <;>
      simp [objFind, List.find?_append, hf, hko]

/-- C21. The helper `fetchWithAuth(url, options)` issues the request to `url` with the
caller's options unchanged but for the headers. The headers are the caller's with
`Content-Type` set to 'application/json', whatever the caller gave for it, and every
other caller header kept. `Authorization: Bearer <access_token>` is set when the
Supabase client exists, a user is signed in and `getSession` returns a session; in
every other case the headers are exactly the caller's with `Content-Type` set, so no
`Authorization` header is added. -/
theorem fetchWithAuth_spec (auth : AuthState) (url : String) (options : FetchOptions) :
    (fetchWithAuth auth url options).url = url ∧
    (fetchWithAuth auth url options).options.method = options.method ∧
    (fetchWithAuth auth url options).options.hasBody = options.hasBody ∧
    objFind (fetchWithAuth auth url options).options.headers "Content-Type" =
      some "application/json" ∧
    (∀ key, key ≠ "Content-Type" → key ≠ "Authorization" →
      objFind (fetchWithAuth auth url options).options.headers key =
        objFind options.headers key) ∧
    (∀ accessToken, auth.supabaseClient = true → auth.user = true →
      auth.session = some accessToken →
      (fetchWithAuth auth url options).options.headers =
        objSet (objSet options.headers "Content-Type" "application/json")
          "Authorization" ("Bearer " ++ accessToken) ∧
      (fetchWithAuth auth url options).authorization = some ("Bearer " ++ accessToken)) ∧
    (¬ (auth.supabaseClient = true ∧ auth.user = true ∧ auth.session.isSome = true) →
      (fetchWithAuth auth url options).options.headers =
        objSet options.headers "Content-Type" "application/json" ∧
      (fetchWithAuth auth url options).authorization =
        objFind options.headers "Authorization") := by
  have hpos : ∀ accessToken, auth.supabaseClient = true → auth.user = true →
      auth.session = some accessToken →
      (fetchWithAuth auth url options).options.headers =
        objSet (objSet options.headers "Content-Type" "application/json")
          "Authorization" ("Bearer " ++ accessToken) := by
    intro accessToken h1 h2 h3
    simp [fetchWithAuth, h1, h2, h3]
  have hneg : ¬ (auth.supabaseClient = true ∧ auth.user = true ∧
        auth.session.isSome = true) →
      (fetchWithAuth auth url options).options.headers =
        objSet options.headers "Content-Type" "application/json" := by
    intro h
    unfold fetchWithAuth
    by_cases hc : (auth.supabaseClient && auth.user) = true
    · cases hs : auth.session with
      | none => simp [hc]
      | some accessToken =>
        exfalso
        apply h
        simp only [Bool.and_eq_true] at hc
        exact ⟨hc.1, hc.2, by simp [hs]⟩
    · simp [hc]
  have hcases : (∃ accessToken, auth.supabaseClient = true ∧ auth.user = true ∧
        auth.session = some accessToken) ∨
      ¬ (auth.supabaseClient = true ∧ auth.user = true ∧ auth.session.isSome = true) := by
    by_cases h : auth.supabaseClient = true ∧ auth.user = true ∧
        auth.session.isSome = true
    · left
      obtain ⟨h1, h2, h3⟩ := h
      obtain ⟨accessToken, ht⟩ := Option.isSome_iff_exists.mp h3
      exact ⟨accessToken, h1, h2, ht⟩
    · right
      exact h
  refine ⟨rfl, rfl, rfl, ?_, ?_, ?_, ?_⟩
  · rcases hcases with ⟨accessToken, h1, h2, h3⟩ | h
    · rw [hpos accessToken h1 h2 h3, objFind_objSet_other _ _ _ _ (by decide),
        objFind_objSet_self]
    · rw [hneg h, objFind_objSet_self]
  · intro key hk1 hk2
    rcases hcases with ⟨accessToken, h1, h2, h3⟩ | h
    · rw [hpos accessToken h1 h2 h3, objFind_objSet_other _ _ _ _ hk2,
        objFind_objSet_other _ _ _ _ hk1]
    · rw [hneg h, objFind_objSet_other _ _ _ _ hk1]
  · intro accessToken h1 h2 h3
    refine ⟨hpos accessToken h1 h2 h3, ?_⟩
    have := objFind_objSet_self (objSet options.headers "Content-Type" "application/json")
      "Authorization" ("Bearer " ++ accessToken)
    rw [← hpos accessToken h1 h2 h3] at this
    exact this
  · intro h
    refine ⟨hneg h, ?_⟩
    have := objFind_objSet_other options.headers "Content-Type" "Authorization"
      "application/json" (by decide)
    rw [← hneg h] at this
    exact this

/-- A sample call: the caller's `Content-Type` is overridden in place, its other header
is kept and the token comes last. -/
theorem fetchWithAuth_sample :
    (fetchWithAuth signedIn "/api/app-ideas"
      { method := some "POST",
        headers := [("Content-Type", "text/plain"), ("X-Trace", "1")],
        hasBody := true }).options.headers =
      [("Content-Type", "application/json"), ("X-Trace", "1"),
       ("Authorization", "Bearer tok")] ∧
    (fetchWithAuth { signedIn with session := none } "/api/app-ideas" noOptions).options.headers =
      [("Content-Type", "application/json")] := by
  constructor <;> decide

/-! ## Claims on the Log New Idea form -/

theorem handleCreateIdea_of_failed (result : FetchResult) (h : result.Failed) :
    ∃ m, DiscoverIdeas.handleCreateIdea result =
      { rejected := some m,
        effects := [.request .createIdea, .consoleError "Error creating idea:" m,
                    .alert ("Error saving idea: " ++ m)] } := by
  rcases result with ⟨ok, (data | m)⟩ | m
  · have hok : ok = false := by
      rcases h with h | ⟨m, hm⟩
      · exact h
      · cases hm
    subst hok
    exact ⟨_, rfl⟩
  · cases ok <;> exact ⟨_, rfl⟩
  · exact ⟨_, rfl⟩

theorem handleCreateIdea_of_not_failed (result : FetchResult) (h : ¬ result.Failed) :
    DiscoverIdeas.handleCreateIdea result =
      { rejected := none,
        effects := [.request .createIdea, .consoleLog "Idea saved successfully:",
                    .request .listIdeas, .setShowModal false,
                    .alert "Idea saved successfully!"] } := by
  rcases result with ⟨ok, (data | m)⟩ | m
  · cases ok
    · exact absurd (Or.inl rfl) h
    · rfl
  · exact absurd (Or.inr ⟨m, rfl⟩) h
  · exact absurd trivial h

theorem error_alert_ne_success (m : String) :
    "Error saving idea: " ++ m ≠ "Idea saved successfully!" := by
  intro heq
  have hd := congrArg String.data heq
  have h1 : ("Error saving idea: " : String).data = 'E' :: "rror saving idea: ".data := rfl
  have h2 : ("Idea saved successfully!" : String).data =
      'I' :: "dea saved successfully!".data := rfl
  rw [String.data_append, h1, h2, List.cons_append] at hd
  injection hd with hc _
  exact absurd hc (by decide)

/-- C22. In the Log New Idea form the fields are reset to their initial values only
after a successful save. When the save request fails or is answered with a response
that is not OK, `handleCreateIdea` alerts the error and rethrows, the entered form
data is unchanged and the modal stays as it was, open; after a successful save the
form is reset and the modal closed. In both cases `isSubmitting` ends false. -/
theorem handleSubmit_resets_only_on_success (s : LogNewIdeaModal.State)
    (result : FetchResult) :
    (LogNewIdeaModal.handleSubmit s result).1.isSubmitting = false ∧
    (result.Failed →
      (DiscoverIdeas.handleCreateIdea result).rejected.isSome = true ∧
      (LogNewIdeaModal.handleSubmit s result).1.formData = s.formData ∧
      (LogNewIdeaModal.handleSubmit s result).1.showModal = s.showModal ∧
      (alerts (LogNewIdeaModal.handleSubmit s result).2).length = 1 ∧
      "Idea saved successfully!" ∉ alerts (LogNewIdeaModal.handleSubmit s result).2) ∧
    (¬ result.Failed →
      (DiscoverIdeas.handleCreateIdea result).rejected = none ∧
      (LogNewIdeaModal.handleSubmit s result).1.formData =
        LogNewIdeaModal.initialFormData ∧
      (LogNewIdeaModal.handleSubmit s result).1.showModal = false ∧
      alerts (LogNewIdeaModal.handleSubmit s result).2 = ["Idea saved successfully!"]) := by
  refine ⟨?_, ?_, ?_⟩
  · by_cases h : result.Failed
    · obtain ⟨m, hm⟩ := handleCreateIdea_of_failed result h
      simp [LogNewIdeaModal.handleSubmit, hm]
    · simp [LogNewIdeaModal.handleSubmit, handleCreateIdea_of_not_failed result h]
  · intro h
    obtain ⟨m, hm⟩ := handleCreateIdea_of_failed result h
    refine ⟨by simp [hm], ?_, ?_, ?_, ?_⟩
    · simp [LogNewIdeaModal.handleSubmit, hm, LogNewIdeaModal.State.apply]
    · simp [LogNewIdeaModal.handleSubmit, hm, LogNewIdeaModal.State.apply]
    · simp [LogNewIdeaModal.handleSubmit, hm, alerts]
    · have hne := error_alert_ne_success m
      simp [LogNewIdeaModal.handleSubmit, hm, alerts]
      exact fun heq => hne heq.symm
  · intro h
    have hm := handleCreateIdea_of_not_failed result h
    refine ⟨by simp [hm], ?_, ?_, ?_⟩
    · simp [LogNewIdeaModal.handleSubmit, hm]
    · simp [LogNewIdeaModal.handleSubmit, hm, LogNewIdeaModal.State.apply]
    · simp [LogNewIdeaModal.handleSubmit, hm, alerts]

/-! ## Claims on the form data of the detail forms -/

theorem mathRound_ratio (k n : Nat) (hn : 0 < n) :
    mathRound (((k : ℚ) / (n : ℚ)) * 100) = (((200 * k + n) / (2 * n) : ℕ) : ℤ) := by
  have hn0 : (n : ℚ) ≠ 0 := by exact_mod_cast hn.ne'
  have h : ((k : ℚ) / (n : ℚ)) * 100 + 1 / 2 =
      (((200 * k + n : ℕ) : ℚ)) / (((2 * n : ℕ)) : ℚ) := by
    push_cast
    field_simp
    ring
  rw [mathRound, h, Rat.floor_natCast_div_natCast]
  norm_cast

theorem objKeys_objSet_of_mem {α : Type} (o : JSObject α) (key : String) (value : α)
    (h : key ∈ objKeys o) : objKeys (objSet o key value) = objKeys o := by
  have hany : o.any (fun kv => kv.1 == key) = true := by
    rw [List.any_eq_true]
    simp only [objKeys, List.mem_map] at h
    obtain ⟨kv, hkv, hk⟩ := h
    exact ⟨kv, hkv, by simp [hk]⟩
  unfold objSet
  rw [if_pos hany]
  unfold objKeys
  rw [List.map_map]
  apply List.map_congr_left
  intro kv _
  by_cases hk : kv.1 = key
  · simp [hk]
  · simp [hk]

theorem control_field_mem (c : StepDetailView.Control) : c.call.1 ∈ reconKeys := by
  cases c <;> simp [StepDetailView.Control.call, reconKeys]

theorem recon_keys_nextObject (o : JSObject JSValue) (e : StepDetailView.ObjectEvent)
    (h : objKeys o = reconKeys) : objKeys (StepDetailView.nextObject o e) = reconKeys := by
  cases e with
  | loaded data =>
    cases data with
    | none => exact h
    | some d => rfl
  | control c =>
    have hm : c.call.1 ∈ objKeys o := by
      rw [h]
      exact control_field_mem c
    simp only [StepDetailView.nextObject, StepDetailView.handleFieldChangeObject]
    rw [objKeys_objSet_of_mem o _ _ hm, h]

theorem recon_keys_foldl (events : List StepDetailView.ObjectEvent) (o : JSObject JSValue)
    (h : objKeys o = reconKeys) :
    objKeys (events.foldl StepDetailView.nextObject o) = reconKeys := by
  induction events generalizing o with
  | nil => exact h
  | cons e es ih => exact ih _ (recon_keys_nextObject o e h)

/-- C23. The data of the recon form always has exactly the nine recon keys: initially,
after the load effect and after every field change the controls can issue. So the
number of filled values is at most 9 and the completion percentage at most 100. -/
theorem recon_object_keys_invariant (events : List StepDetailView.ObjectEvent) :
    objKeys StepDetailView.initialObject = reconKeys ∧
    objKeys (StepDetailView.reachObject events) = reconKeys ∧
    (StepDetailView.reachObject events).length = 9 ∧
    StepDetailView.objectFilledCount (StepDetailView.reachObject events) ≤ 9 ∧
    StepDetailView.objectCompletionPercent (StepDetailView.reachObject events) ≤ 100 := by
  have hk := recon_keys_foldl events StepDetailView.initialObject rfl
  have hlen : (StepDetailView.reachObject events).length = 9 := by
    have := congrArg List.length hk
    simpa [objKeys, reconKeys] using this
  have hcount : StepDetailView.objectFilledCount (StepDetailView.reachObject events) ≤ 9 := by
    unfold StepDetailView.objectFilledCount
    calc ((List.map Prod.snd (StepDetailView.reachObject events)).filter
            StepDetailView.isFilled).length
        ≤ (List.map Prod.snd (StepDetailView.reachObject events)).length :=
          List.length_filter_le _ _
      _ = 9 := by rw [List.length_map, hlen]
  refine ⟨rfl, hk, hlen, hcount, ?_⟩
  unfold StepDetailView.objectCompletionPercent StepDetailView.totalFields
  rw [mathRound_ratio _ 9 (by decide)]
  have : (200 * StepDetailView.objectFilledCount (StepDetailView.reachObject events) + 9) /
      (2 * 9) ≤ 100 := by omega
  exact_mod_cast this

/-- The record of nine fields used for the recon form is its object: an event changes
the object of the record as it changes the record. -/
theorem toObject_next (d : ReconFormData) (e : StepDetailView.FormEvent) :
    StepDetailView.toObject (StepDetailView.next d e) =
      StepDetailView.nextObject (StepDetailView.toObject d) e.onObject := by
  cases e with
  | loaded data =>
    cases data with
    | none => rfl
    | some x => rfl
  | control c =>
    cases c <;> rfl

theorem toObject_foldl (events : List StepDetailView.FormEvent) (d : ReconFormData) :
    StepDetailView.toObject (events.foldl StepDetailView.next d) =
      (events.map StepDetailView.FormEvent.onObject).foldl StepDetailView.nextObject
        (StepDetailView.toObject d) := by
  induction events generalizing d with
  | nil => rfl
  | cons e es ih =>
    simp only [List.foldl_cons, List.map_cons]
    rw [ih, toObject_next]

theorem objectFilledCount_toObject (d : ReconFormData) :
    StepDetailView.objectFilledCount (StepDetailView.toObject d) =
      StepDetailView.filledCount d :=
  rfl

/-- The body of the autosave a field change schedules does not depend on the value
of the change, in either form. -/
theorem autoSaveBody_ignores_value (parseFloat : JSValue → Option Int)
    (r : ReconFormData) (l : LandingFormData) (field : String) (value other : JSValue) :
    (StepDetailView.handleFieldChange r field value).autoSaveBody =
      (StepDetailView.handleFieldChange r field other).autoSaveBody ∧
    (LandingPageDetailView.handleFieldChange parseFloat l field value).autoSaveBody =
      (LandingPageDetailView.handleFieldChange parseFloat l field other).autoSaveBody :=
  ⟨rfl, rfl⟩

/-- C24, at the failing input. In the untouched recon form the user types 'Carrd' into
the first field and nothing else: the next render has the text, but the body of the
autosave that fires has the empty text of the render in which the change was made.
Likewise in the untouched landing-page form for the headline 'Hello', and for a
second change the autosave has the first change only. -/
theorem autosave_body_misses_the_change :
    (StepDetailView.handleFieldChange StepDetailView.initialFormData
      "competitors_looked_at" (.str "Carrd")).nextFormData.competitors_looked_at =
      .str "Carrd" ∧
    objGet (StepDetailView.handleFieldChange StepDetailView.initialFormData
      "competitors_looked_at" (.str "Carrd")).autoSaveBody "competitors_looked_at" =
      .str "" ∧
    (LandingPageDetailView.handleFieldChange sampleParseFloat
      LandingPageDetailView.initialFormData "final_headline_chosen"
      (.str "Hello")).nextFormData.final_headline_chosen = .str "Hello" ∧
    objGet (LandingPageDetailView.handleFieldChange sampleParseFloat
      LandingPageDetailView.initialFormData "final_headline_chosen"
      (.str "Hello")).autoSaveBody "final_headline_chosen" = .str "" ∧
    objGet (StepDetailView.handleFieldChange
      (StepDetailView.handleFieldChange StepDetailView.initialFormData
        "competitors_looked_at" (.str "Carrd")).nextFormData
      "my_wedge" (.str "Pain #1")).autoSaveBody "competitors_looked_at" = .str "Carrd" ∧
    objGet (StepDetailView.handleFieldChange
      (StepDetailView.handleFieldChange StepDetailView.initialFormData
        "competitors_looked_at" (.str "Carrd")).nextFormData
      "my_wedge" (.str "Pain #1")).autoSaveBody "my_wedge" = .str "" := by
  refine ⟨?_, ?_, ?_, ?_, ?_, ?_⟩ <;> decide

/-- The two filled tests compared. Every value the landing-page calculator counts as
filled the recon calculator counts as filled too, and the two tests differ exactly on
`undefined` and on the non-empty strings of white space only: the recon calculator
counts these as filled, the landing-page calculator does not. -/
theorem filled_tests_compared (v : JSValue) :
    (LandingPageDetailView.isFilled v = true → StepDetailView.isFilled v = true) ∧
    (LandingPageDetailView.isFilled v ≠ StepDetailView.isFilled v ↔
      v = .undefined ∨ ∃ s, v = .str s ∧ s ≠ "" ∧ IsBlank s) := by
  cases v with
  | undefined => simp [LandingPageDetailView.isFilled, StepDetailView.isFilled]
  | null => simp [LandingPageDetailView.isFilled, StepDetailView.isFilled]
  | bool b => simp [LandingPageDetailView.isFilled, StepDetailView.isFilled]
  | num n => simp [LandingPageDetailView.isFilled, StepDetailView.isFilled]
  | str s =>
    have hb := jsTrim_eq_empty_iff s
    by_cases h0 : s = ""
    · subst h0
      have : IsBlank "" := by decide
      simp [LandingPageDetailView.isFilled, StepDetailView.isFilled, hb, this]
    · by_cases h1 : IsBlank s
      · simp [LandingPageDetailView.isFilled, StepDetailView.isFilled, hb, h0, h1]
      · simp [LandingPageDetailView.isFilled, StepDetailView.isFilled, hb, h0, h1]

theorem isLaunchedStatus_filled (v : JSValue) (h : IsLaunchedStatus v) :
    LandingPageDetailView.isFilled v = true ∧ truthy v = true := by
  rcases h with h | h | h <;> subst h <;> constructor <;> decide

theorem session_launched_status (parseFloat : JSValue → Option Int) (d : LandingFormData)
    (h : LandingPageDetailView.Session parseFloat d) : IsLaunchedStatus d.launched_status := by
  induction h with
  | initial => exact Or.inl rfl
  | control formData c _ ih =>
    cases c
    case ctaSelect v =>
      rw [applyControl_ctaSelect]
      exact ih
    case launched_status status =>
      cases status
      · exact Or.inl rfl
      · exact Or.inr (Or.inl rfl)
      · exact Or.inr (Or.inr rfl)
    all_goals exact ih
  | loadedNothing formData _ ih => exact ih
  | loadedUnsaved formData _ _ => exact Or.inl rfl
  | loadedSaved formData saved _ _ _ ih2 =>
    have ht := (isLaunchedStatus_filled _ ih2).2
    have : (LandingPageDetailView.load
        (some (LandingPageDetailView.savedData parseFloat saved)) formData).launched_status =
        saved.launched_status := by
      simp [LandingPageDetailView.load, LandingPageDetailView.savedData, jsOrValue, ht]
    rw [this]
    exact ih2

theorem landing_completionPercent_eq (d : LandingFormData) :
    LandingPageDetailView.completionPercent d =
      (((200 * LandingPageDetailView.filledCount d + 8) / 16 : ℕ) : ℤ) := by
  unfold LandingPageDetailView.completionPercent LandingPageDetailView.totalFields
  rw [mathRound_ratio _ 8 (by decide)]

theorem recon_completionPercent_eq (d : ReconFormData) :
    StepDetailView.completionPercent d =
      (((200 * StepDetailView.filledCount d + 9) / 18 : ℕ) : ℤ) := by
  unfold StepDetailView.completionPercent StepDetailView.totalFields
  rw [mathRound_ratio _ 9 (by decide)]

/-- C25, at the failing input. A string of two spaces and `undefined` are not filled
for the landing-page calculator and are filled for the recon calculator. Two spaces
typed into the first text field of the untouched recon form make one field of nine
filled, and the form shows 11 percent instead of 0; the same two spaces typed into the
headline field of the untouched landing-page form leave its count at the one preset
field and its completion at 13 percent. -/
theorem filled_tests_differ :
    LandingPageDetailView.isFilled (.str "  ") = false ∧
    StepDetailView.isFilled (.str "  ") = true ∧
    LandingPageDetailView.isFilled .undefined = false ∧
    StepDetailView.isFilled .undefined = true ∧
    StepDetailView.filledCount (StepDetailView.reach []) = 0 ∧
    StepDetailView.completionPercent (StepDetailView.reach []) = 0 ∧
    StepDetailView.filledCount
      (StepDetailView.reach [.control (.competitors_looked_at "  ")]) = 1 ∧
    StepDetailView.completionPercent
      (StepDetailView.reach [.control (.competitors_looked_at "  ")]) = 11 ∧
    LandingPageDetailView.filledCount (LandingPageDetailView.reach []) = 1 ∧
    LandingPageDetailView.completionPercent (LandingPageDetailView.reach []) = 13 ∧
    LandingPageDetailView.filledCount
      (LandingPageDetailView.reach [.control (.final_headline_chosen "  ")]) = 1 ∧
    LandingPageDetailView.completionPercent
      (LandingPageDetailView.reach [.control (.final_headline_chosen "  ")]) = 13 := by
  simp only [recon_completionPercent_eq, landing_completionPercent_eq]
  refine ⟨?_, ?_, ?_, ?_, ?_, ?_, ?_, ?_, ?_, ?_, ?_, ?_⟩ <;> decide

/-- C26. In every landing-page form state reachable from the initial state by the
form's own controls and by loading saved data, `launched_status` is one of the three
non-blank texts 'Not started', 'Building' and 'Live', so at least one required field
counts as filled and the displayed completion is at least 13 percent; the untouched
form shows 13. -/
theorem landing_session_completion_ge (parseFloat : JSValue → Option Int)
    (d : LandingFormData) (h : LandingPageDetailView.Session parseFloat d) :
    IsLaunchedStatus d.launched_status ∧
    1 ≤ LandingPageDetailView.filledCount d ∧
    13 ≤ LandingPageDetailView.completionPercent d ∧
    LandingPageDetailView.completionPercent LandingPageDetailView.initialFormData = 13 := by
  have hs := session_launched_status parseFloat d h
  have hf := (isLaunchedStatus_filled _ hs).1
  have hc : 1 ≤ LandingPageDetailView.filledCount d := by
    rw [landing_filledCount_eq_filter]
    apply List.length_pos.mpr
    intro hnil
    have hmem : d.launched_status ∈
        (LandingPageDetailView.requiredValues d).filter LandingPageDetailView.isFilled := by
      rw [List.mem_filter]
      exact ⟨by simp [LandingPageDetailView.requiredValues], hf⟩
    rw [hnil] at hmem
    cases hmem
  refine ⟨hs, hc, ?_, ?_⟩
  · rw [landing_completionPercent_eq]
    have : 13 ≤ (200 * LandingPageDetailView.filledCount d + 8) / 16 := by omega
    exact_mod_cast this
  · rw [landing_completionPercent_eq]
    have : LandingPageDetailView.filledCount LandingPageDetailView.initialFormData = 1 := by
      decide
    rw [this]
    rfl

/-- The completion claim at a form that loaded its own earlier save and was then
edited. -/
theorem landing_session_completion_ge_witness :
    LandingPageDetailView.Session sampleParseFloat
      (LandingPageDetailView.applyControl
        (LandingPageDetailView.load
          (some (LandingPageDetailView.savedData sampleParseFloat
            (LandingPageDetailView.applyControl LandingPageDetailView.initialFormData
              (.launched_status .building))))
          LandingPageDetailView.initialFormData)
        (.subheadline "  ")) ∧
    13 ≤ LandingPageDetailView.completionPercent
      (LandingPageDetailView.applyControl
        (LandingPageDetailView.load
          (some (LandingPageDetailView.savedData sampleParseFloat
            (LandingPageDetailView.applyControl LandingPageDetailView.initialFormData
              (.launched_status .building))))
          LandingPageDetailView.initialFormData)
        (.subheadline "  ")) :=
  have hs : LandingPageDetailView.Session sampleParseFloat
      (LandingPageDetailView.applyControl
        (LandingPageDetailView.load
          (some (LandingPageDetailView.savedData sampleParseFloat
            (LandingPageDetailView.applyControl LandingPageDetailView.initialFormData
              (.launched_status .building))))
          LandingPageDetailView.initialFormData)
        (.subheadline "  ")) :=
    .control _ _ (.loadedSaved _ _ .initial (.control _ _ .initial))
  ⟨hs, (landing_session_completion_ge sampleParseFloat _ hs).2.2.1⟩

/-- Outside those states: after loading a record whose `launched_status` is two
spaces, which no save of the form can have written, no required field counts as filled
and the form shows 0. -/
theorem landing_completion_zero_on_foreign_data :
    LandingPageDetailView.filledCount
      (LandingPageDetailView.reach [.loaded (some foreignLandingData)]) = 0 ∧
    LandingPageDetailView.completionPercent
      (LandingPageDetailView.reach [.loaded (some foreignLandingData)]) = 0 := by
  have h : LandingPageDetailView.filledCount
      (LandingPageDetailView.reach [.loaded (some foreignLandingData)]) = 0 := by decide
  refine ⟨h, ?_⟩
  rw [landing_completionPercent_eq, h]
  rfl

theorem recon_filledCount_le (d : ReconFormData) : StepDetailView.filledCount d ≤ 9 := by
  unfold StepDetailView.filledCount
  exact (List.length_filter_le _ _).trans (by simp [StepDetailView.objectValues])

theorem length_filter_eq_iff_all {α : Type} (p : α → Bool) (l : List α) (n : Nat)
    (hn : l.length = n) :
    ((l.filter p).length = n ↔ ∀ v ∈ l, p v = true) ∧
    ((l.filter p).length = 0 ↔ ∀ v ∈ l, p v = false) := by
  constructor
  · rw [← hn, List.filter_length_eq_length]
  · rw [List.length_eq_zero, List.filter_eq_nil_iff]
    simp

/-- C27. For both detail forms the completion percentage is an integer between 0 and
100; it is 100 if and only if every required field is filled and 0 if and only if none
is; and a form with more filled required fields shows a strictly greater percentage,
so filling one more required field strictly increases it. -/
theorem completion_percent_range (a b : LandingFormData) (r q : ReconFormData) :
    (0 ≤ LandingPageDetailView.completionPercent a ∧
      LandingPageDetailView.completionPercent a ≤ 100) ∧
    (LandingPageDetailView.completionPercent a = 100 ↔
      ∀ v ∈ LandingPageDetailView.requiredValues a,
        LandingPageDetailView.isFilled v = true) ∧
    (LandingPageDetailView.completionPercent a = 0 ↔
      ∀ v ∈ LandingPageDetailView.requiredValues a,
        LandingPageDetailView.isFilled v = false) ∧
    (LandingPageDetailView.filledCount a < LandingPageDetailView.filledCount b →
      LandingPageDetailView.completionPercent a <
        LandingPageDetailView.completionPercent b) ∧
    (0 ≤ StepDetailView.completionPercent r ∧ StepDetailView.completionPercent r ≤ 100) ∧
    (StepDetailView.completionPercent r = 100 ↔
      ∀ v ∈ StepDetailView.objectValues r, StepDetailView.isFilled v = true) ∧
    (StepDetailView.completionPercent r = 0 ↔
      ∀ v ∈ StepDetailView.objectValues r, StepDetailView.isFilled v = false) ∧
    (StepDetailView.filledCount r < StepDetailView.filledCount q →
      StepDetailView.completionPercent r < StepDetailView.completionPercent q) := by
  have ha := landing_filledCount_le a
  have hb := landing_filledCount_le b
  have hr := recon_filledCount_le r
  have hq := recon_filledCount_le q
  have hL := length_filter_eq_iff_all LandingPageDetailView.isFilled
    (LandingPageDetailView.requiredValues a) 8 rfl
  have hR := length_filter_eq_iff_all StepDetailView.isFilled
    (StepDetailView.objectValues r) 9 rfl
  rw [← landing_filledCount_eq_filter] at hL
  have hRc : StepDetailView.filledCount r =
      ((StepDetailView.objectValues r).filter StepDetailView.isFilled).length := rfl
  rw [← hRc] at hR
  rw [landing_completionPercent_eq a, landing_completionPercent_eq b,
    recon_completionPercent_eq r, recon_completionPercent_eq q]
  refine ⟨⟨?_, ?_⟩, ?_, ?_, ?_, ⟨?_, ?_⟩, ?_, ?_, ?_⟩
  · exact Int.natCast_nonneg _
  · have : (200 * LandingPageDetailView.filledCount a + 8) / 16 ≤ 100 := by omega
    exact_mod_cast this
  · rw [← hL.1]
    constructor
    · intro h
      have h2 : (200 * LandingPageDetailView.filledCount a + 8) / 16 = 100 := by
        exact_mod_cast h
      omega
    · intro h
      rw [h]
      rfl
  · rw [← hL.2]
    constructor
    · intro h
      have h2 : (200 * LandingPageDetailView.filledCount a + 8) / 16 = 0 := by
        exact_mod_cast h
      omega
    · intro h
      rw [h]
      rfl
  · intro hlt
    have : (200 * LandingPageDetailView.filledCount a + 8) / 16 <
        (200 * LandingPageDetailView.filledCount b + 8) / 16 := by omega
    exact_mod_cast this
  · exact Int.natCast_nonneg _
  · have : (200 * StepDetailView.filledCount r + 9) / 18 ≤ 100 := by omega
    exact_mod_cast this
  · rw [← hR.1]
    constructor
    · intro h
      have h2 : (200 * StepDetailView.filledCount r + 9) / 18 = 100 := by
        exact_mod_cast h
      omega
    · intro h
      rw [h]
      rfl
  · rw [← hR.2]
    constructor
    · intro h
      have h2 : (200 * StepDetailView.filledCount r + 9) / 18 = 0 := by
        exact_mod_cast h
      omega
    · intro h
      rw [h]
      rfl
  · intro hlt
    have : (200 * StepDetailView.filledCount r + 9) / 18 <
        (200 * StepDetailView.filledCount q + 9) / 18 := by omega
    exact_mod_cast this

/-! ## Claims on the views of the project detail -/

theorem selectedStep_step (project : Project) (s : ProjectDetail.State)
    (e : ProjectDetail.Event) (selected : GamePlanStep)
    (h : (ProjectDetail.step project s e).1.selectedStep = some selected) :
    s.selectedStep = some selected ∨
      (e = .stepCardClick selected ∧ ProjectDetail.hasDetailView selected = true) := by
  cases e with
  | gamePlanFetched data => exact Or.inl h
  | gamePlanFetchFailed m => exact Or.inl h
  | tabClick tab => exact Or.inl h
  | generateBlueprintClick =>
    by_cases hc : ProjectDetail.showsGenerateBlueprint s = true
    · simp only [ProjectDetail.step, hc, if_true] at h
      exact Or.inl h
    · simp only [ProjectDetail.step, hc] at h
      exact Or.inl h
  | regenerateClick c =>
    by_cases hc : ProjectDetail.showsRegenerate s = true
    · simp only [ProjectDetail.step, hc, if_true] at h
      exact Or.inl h
    · simp only [ProjectDetail.step, hc] at h
      exact Or.inl h
  | stepCardClick card =>
    by_cases hc : ProjectDetail.showsStepCard s card = true
    · by_cases hd : ProjectDetail.hasDetailView card = true
      · simp only [ProjectDetail.step, hc, if_true, ProjectDetail.stepClick, hd,
          Option.some.injEq] at h
        subst h
        exact Or.inr ⟨rfl, hd⟩
      · simp only [ProjectDetail.step, hc, if_true, ProjectDetail.stepClick, hd] at h
        exact Or.inl h
    · simp only [ProjectDetail.step, hc] at h
      exact Or.inl h
  | detailBack =>
    by_cases hc : (s.activeTab == ProjectDetail.Tab.gameplan && s.selectedStep.isSome) = true
    · simp [ProjectDetail.step, hc] at h
    · simp only [ProjectDetail.step, hc] at h
      exact Or.inl h

theorem selectedHasDetail_step (project : Project) (s : ProjectDetail.State)
    (e : ProjectDetail.Event) (h : ProjectDetail.SelectedHasDetail s) :
    ProjectDetail.SelectedHasDetail (ProjectDetail.step project s e).1 := by
  intro selected hsel
  rcases selectedStep_step project s e selected hsel with h1 | ⟨_, h2⟩
  · exact h selected h1
  · exact h2

theorem run_cons (project : Project) (s : ProjectDetail.State) (e : ProjectDetail.Event)
    (es : List ProjectDetail.Event) :
    (ProjectDetail.run project s (e :: es)).1 =
      (ProjectDetail.run project (ProjectDetail.step project s e).1 es).1 :=
  rfl

theorem selectedHasDetail_run (project : Project) (events : List ProjectDetail.Event)
    (s : ProjectDetail.State) (h : ProjectDetail.SelectedHasDetail s) :
    ProjectDetail.SelectedHasDetail (ProjectDetail.run project s events).1 := by
  induction events generalizing s with
  | nil => exact h
  | cons e es ih =>
    rw [run_cons]
    exact ih _ (selectedHasDetail_step project s e h)

/-- C28. A step becomes the selected step only through the click handler of its card,
which accepts it only if it is not a gate step and has a detail view. Hence, in every
state the project detail view reaches from its mount, the recon form is rendered only
for a non-gate step whose title contains 'Deep Competitive Recon', and the
landing-page form only for a non-gate step whose title contains 'Facade Landing Page'
or 'Build Facade'. A gate step is one whose title contains 'GATE CHECK'. -/
theorem detail_rendered_only_for_detail_steps (project : Project)
    (events : List ProjectDetail.Event) (view : ProjectDetail.DetailView)
    (selected : GamePlanStep)
    (h : ProjectDetail.renderedDetail
      (ProjectDetail.run project ProjectDetail.initialState events).1 =
        some (view, selected)) :
    ProjectDetail.isGate selected = false ∧
    (view = .StepDetailView →
      jsIncludes selected.title "Deep Competitive Recon" = true) ∧
    (view = .LandingPageDetailView →
      jsIncludes selected.title "Facade Landing Page" = true ∨
      jsIncludes selected.title "Build Facade" = true) ∧
    (∀ (s : ProjectDetail.State) (e : ProjectDetail.Event) (step : GamePlanStep),
      (ProjectDetail.step project s e).1.selectedStep = some step →
        s.selectedStep = some step ∨
        (e = .stepCardClick step ∧ ProjectDetail.isGate step = false ∧
          ProjectDetail.hasDetailView step = true)) := by
  have hinv := selectedHasDetail_run project events ProjectDetail.initialState
    (by intro selected hs; cases hs)
  have hsel : (ProjectDetail.run project ProjectDetail.initialState events).1.selectedStep =
      some selected ∧ view = ProjectDetail.detailView selected := by
    unfold ProjectDetail.renderedDetail at h
    by_cases ht : ((ProjectDetail.run project ProjectDetail.initialState
        events).1.activeTab == ProjectDetail.Tab.gameplan) = true
    · rw [if_pos ht] at h
      cases hs : (ProjectDetail.run project ProjectDetail.initialState
          events).1.selectedStep with
      | none => rw [hs] at h; cases h
      | some x =>
        rw [hs] at h
        simp only [Option.map_some', Option.some.injEq, Prod.mk.injEq] at h
        obtain ⟨h1, h2⟩ := h
        subst h2
        exact ⟨rfl, h1.symm⟩
    · rw [if_neg ht] at h
      cases h
  have hd := hinv selected hsel.1
  have hparts : ProjectDetail.isGate selected = false ∧
      (jsIncludes selected.title "Deep Competitive Recon" = true ∨
        jsIncludes selected.title "Facade Landing Page" = true ∨
        jsIncludes selected.title "Build Facade" = true) := by
    simpa [ProjectDetail.hasDetailView, or_assoc] using hd
  have hgate : ∀ step : GamePlanStep, ProjectDetail.hasDetailView step = true →
      ProjectDetail.isGate step = false := by
    intro step hstep
    simp only [ProjectDetail.hasDetailView, Bool.and_eq_true, Bool.not_eq_true'] at hstep
    exact hstep.1
  refine ⟨hparts.1, ?_, ?_, ?_⟩
  · intro hv
    have hview := hsel.2
    rw [hv] at hview
    rcases hparts.2 with h1 | h2 | h3
    · exact h1
    · simp [ProjectDetail.detailView, h2] at hview
    · simp [ProjectDetail.detailView, h3] at hview
  · intro hv
    have hview := hsel.2
    rw [hv] at hview
    by_cases hl : (jsIncludes selected.title "Facade Landing Page" ||
        jsIncludes selected.title "Build Facade") = true
    · simpa using hl
    · simp [ProjectDetail.detailView, hl] at hview
  · intro s e step hstep
    rcases selectedStep_step project s e step hstep with h1 | ⟨h2, h3⟩
    · exact Or.inl h1
    · exact Or.inr ⟨h2, hgate step h3, h3⟩

/-- The detail claim at a run in which the plan of two steps arrives, the Game Plan
tab is opened and the recon card is clicked; a click on the gate card selects
nothing. -/
theorem detail_rendered_only_for_detail_steps_witness :
    ProjectDetail.renderedDetail
      (ProjectDetail.run buildProject ProjectDetail.initialState
        [.gamePlanFetched [reconStep, gateStep], .tabClick .gameplan,
         .stepCardClick reconStep]).1 = some (.StepDetailView, reconStep) ∧
    jsIncludes reconStep.title "Deep Competitive Recon" = true ∧
    ProjectDetail.renderedDetail
      (ProjectDetail.run buildProject ProjectDetail.initialState
        [.gamePlanFetched [reconStep, gateStep], .tabClick .gameplan,
         .stepCardClick gateStep]).1 = none :=
  have h : ProjectDetail.renderedDetail
      (ProjectDetail.run buildProject ProjectDetail.initialState
        [.gamePlanFetched [reconStep, gateStep], .tabClick .gameplan,
         .stepCardClick reconStep]).1 = some (.StepDetailView, reconStep) := by decide
  ⟨h, (detail_rendered_only_for_detail_steps buildProject _ _ _ h).2.1 rfl, by decide⟩

theorem ctaPreset_facts (cta : JSValue) (h : LandingPageDetailView.ctaPresets.contains cta = true) :
    truthy cta = true ∧ cta ≠ .str "Custom" ∧ cta ∈ LandingPageDetailView.ctaOptions := by
  have hm : cta ∈ LandingPageDetailView.ctaPresets := by simpa using h
  simp only [LandingPageDetailView.ctaPresets, List.mem_cons, List.mem_singleton,
    List.not_mem_nil, or_false] at hm
  rcases hm with hm | hm | hm <;> subst hm <;> refine ⟨?_, ?_, ?_⟩ <;> decide

/-- C29. For every value of `cta_button_text` the CTA dropdown displays one of its five
options: the text itself when it is one of the three presets, 'Custom' when it is any
other non-empty text, and '' when it is empty. The custom text input is shown if and
only if the dropdown displays 'Custom'. On load, `cta_button_text_custom` is the saved
text when that text is non-empty and not a preset, and '' otherwise. -/
theorem cta_dropdown_spec (cta : JSValue) (data formData : LandingFormData) :
    LandingPageDetailView.ctaSelectValue cta ∈ LandingPageDetailView.ctaOptions ∧
    (cta ∈ LandingPageDetailView.ctaPresets →
      LandingPageDetailView.ctaSelectValue cta = cta) ∧
    (cta ∉ LandingPageDetailView.ctaPresets → truthy cta = true →
      LandingPageDetailView.ctaSelectValue cta = .str "Custom") ∧
    (truthy cta = false → LandingPageDetailView.ctaSelectValue cta = .str "") ∧
    (∀ text : String, text ≠ "" → JSValue.str text ∉ LandingPageDetailView.ctaPresets →
      LandingPageDetailView.ctaSelectValue (.str text) = .str "Custom") ∧
    LandingPageDetailView.ctaSelectValue (.str "") = .str "" ∧
    (LandingPageDetailView.customInputShown cta = true ↔
      LandingPageDetailView.ctaSelectValue cta = .str "Custom") ∧
    (truthy data.cta_button_text = true →
      data.cta_button_text ∉ LandingPageDetailView.ctaPresets →
      (LandingPageDetailView.load (some data) formData).cta_button_text_custom =
        data.cta_button_text) ∧
    (truthy data.cta_button_text = false ∨
        data.cta_button_text ∈ LandingPageDetailView.ctaPresets →
      (LandingPageDetailView.load (some data) formData).cta_button_text_custom =
        .str "") := by
  have hgen : ∀ v : JSValue, v ∉ LandingPageDetailView.ctaPresets → truthy v = true →
      LandingPageDetailView.ctaSelectValue v = .str "Custom" := by
    intro v hv ht
    simp [LandingPageDetailView.ctaSelectValue, ht, hv]
  have hfalse : ∀ v : JSValue, truthy v = false →
      LandingPageDetailView.ctaSelectValue v = .str "" := by
    intro v ht
    simp [LandingPageDetailView.ctaSelectValue, ht]
  have hpre : ∀ v : JSValue, v ∈ LandingPageDetailView.ctaPresets →
      LandingPageDetailView.ctaSelectValue v = v := by
    intro v hv
    have hc : LandingPageDetailView.ctaPresets.contains v = true := by simpa using hv
    simp [LandingPageDetailView.ctaSelectValue, (ctaPreset_facts v hc).1, hv]
  refine ⟨?_, hpre cta, hgen cta, hfalse cta, ?_, hfalse _ rfl, ?_, ?_, ?_⟩
  · by_cases hm : cta ∈ LandingPageDetailView.ctaPresets
    · rw [hpre cta hm]
      exact (ctaPreset_facts cta (by simpa using hm)).2.2
    · cases ht : truthy cta
      · rw [hfalse cta ht]
        decide
      · rw [hgen cta hm ht]
        decide
  · intro text hne hnot
    exact hgen _ hnot (by simp [truthy, hne])
  · by_cases hm : cta ∈ LandingPageDetailView.ctaPresets
    · have hf := ctaPreset_facts cta (by simpa using hm)
      rw [hpre cta hm]
      simp [LandingPageDetailView.customInputShown, hm, hf.2.1]
    · cases ht : truthy cta
      · rw [hfalse cta ht]
        have hne : cta ≠ .str "Custom" := by
          intro he
          rw [he] at ht
          exact absurd ht (by decide)
        simp [LandingPageDetailView.customInputShown, ht, hne]
      · rw [hgen cta hm ht]
        simp [LandingPageDetailView.customInputShown, ht, hm]
  · intro ht hnot
    simp [LandingPageDetailView.load, jsOrValue, ht, hnot]
  · intro h
    rcases h with ht | hin
    · have hj : jsOrValue data.cta_button_text (.str "") = .str "" := by
        simp [jsOrValue, ht]
      simp only [LandingPageDetailView.load, hj]
      decide
    · have ht := (ctaPreset_facts _ (by simpa using hin)).1
      simp [LandingPageDetailView.load, jsOrValue, ht, hin]

/-- The dropdown at the five kinds of text: empty, each kind of preset, the word
'Custom' and a text of the user's own. -/
theorem cta_dropdown_sample :
    [JSValue.str "", .str "Join the Waitlist (free)", .str "Custom",
      .str "Get early access", .null].map LandingPageDetailView.ctaSelectValue =
      [.str "", .str "Join the Waitlist (free)", .str "Custom", .str "Custom", .str ""] ∧
    [JSValue.str "", .str "Join the Waitlist (free)", .str "Custom",
      .str "Get early access", .null].map LandingPageDetailView.customInputShown =
      [false, false, true, true, false] := by
  constructor <;> decide

/-! ## Claims on the explicit save -/

/-- Whatever the status of a response whose body parses, the explicit save of the
recon form alerts nothing and schedules the navigation back. -/
theorem recon_explicit_save_ignores_status (step : GamePlanStep) (res : Response)
    (data : JsonBody) (h : res.json = .resolved data) :
    StepDetailView.handleSave step true true (.response res) =
      [.setIsSaving true, .request (.saveStepData step.id), .setIsSaving false,
       .onBackAfter 500] := by
  simp [StepDetailView.handleSave, h]

/-- C30, at the failing input. 'Save & Update Status' answered with status 500 and a
JSON error body: the landing-page form logs and alerts the error and does not navigate
back; the recon form shows nothing and schedules the navigation back to the game plan,
as after a successful save. -/
theorem explicit_save_non_ok_differs :
    LandingPageDetailView.handleSave landingStep true true serverErrorResponse =
      [.setIsSaving true, .request (.saveStepData 2),
       .consoleError "Error saving:" "Could not save", .setIsSaving false,
       .alert "Error saving data: Could not save"] ∧
    StepDetailView.handleSave reconStep true true serverErrorResponse =
      [.setIsSaving true, .request (.saveStepData 1), .setIsSaving false,
       .onBackAfter 500] ∧
    alerts (StepDetailView.handleSave reconStep true true serverErrorResponse) = [] := by
  refine ⟨?_, ?_, ?_⟩ <;> decide

end SaasWorkflow
